import Mathlib

/-!
Verification development for the gdls language server (Go).

The definitions below are a shallow embedding of the server's code:
the TSCN lexer and parser (`internal/parser`), the LSP range/diagnostic
helpers (`internal/lsp`), and the GDShader type system and semantic
analyzer (`internal/gdshader`).  Go machine integers that hold source
positions and sizes are embedded as `Nat` (they are only ever incremented
from zero in the source); values that the source keeps as signed sentinels
(array sizes with `-1` for "unsized") are embedded as `Int`.  Go maps used
as symbol tables and registries are embedded as association lists; the
source guards every insert against duplicates, so lookup agrees with the
map semantics.  Go `nil` pointers for optional values are embedded as
`Option`.  Loops are embedded as recursive functions; loops whose
termination is not structural take an explicit fuel argument and return
`none` when the fuel runs out, so that a terminating run is witnessed by
`= some _`.  Strings are embedded as `String`/`List Char`: the Go lexer
indexes bytes, the embedding indexes characters, which coincide on ASCII
input (every concrete input used below is ASCII).
-/

namespace Gdls

/-- Go `strconv.Atoi`, with the error ignored as every call site in the
repository does (`val, _ := strconv.Atoi(...)`): an optional sign followed
by one or more decimal digits parses to its value, anything else yields 0. -/
def goAtoi (s : String) : Int :=
  let core (sign : Int) (digits : List Char) : Int :=
    if digits ≠ [] ∧ digits.all Char.isDigit then
      sign * Int.ofNat (digits.foldl (fun acc c => acc * 10 + (c.toNat - 48)) 0)
    else 0
  match s.toList with
  | [] => 0
  | '-' :: rest => core (-1) rest
  | '+' :: rest => core 1 rest
  | l => core 1 l

namespace Tscn

/-- TSCN token types, from `internal/parser/token.go`. -/
inductive TokenType where
  | eof
  | error
  | newline
  | comment
  | lbracket
  | rbracket
  | lparen
  | rparen
  | lbrace
  | rbrace
  | equals
  | colon
  | comma
  | slash
  | ident
  | string
  | number
  | bool
  | null
deriving DecidableEq, Repr

/-- A TSCN lexical token (`internal/parser/token.go`). -/
structure Token where
  type : TokenType
  value : String
  line : Nat
  column : Nat
  offset : Nat
  length : Nat
deriving DecidableEq, Repr

/-- The Go zero value of `Token` (`TokenType` iota starts at `TokenEOF`). -/
def Token.zero : Token := ⟨.eof, "", 0, 0, 0, 0⟩

/-- A position in source code (`internal/parser/token.go`), 0-based. -/
structure Position where
  line : Nat
  column : Nat
  offset : Nat
deriving DecidableEq, Repr

/-- A source range (`internal/parser/token.go`). `stop` embeds the Go field
`End` (a reserved word in Lean). -/
structure Range where
  start : Position
  stop : Position
deriving DecidableEq, Repr

/-- The TSCN lexer state (`Lexer` struct of the TSCN lexer file). `tstart`
embeds the Go field `start`. -/
structure Lexer where
  input : List Char
  pos : Nat
  line : Nat
  column : Nat
  tstart : Nat
  startLine : Nat
  startColumn : Nat
deriving DecidableEq, Repr

/-- `NewLexer`. -/
def newLexer (input : String) : Lexer :=
  { input := input.toList, pos := 0, line := 0, column := 0
    tstart := 0, startLine := 0, startColumn := 0 }

/-- `Lexer.peek`: the character at `pos`, or 0 past the end. -/
def Lexer.peek (l : Lexer) : Char :=
  l.input.getD l.pos (Char.ofNat 0)

/-- `Lexer.peekN`. -/
def Lexer.peekN (l : Lexer) (n : Nat) : Char :=
  l.input.getD (l.pos + n) (Char.ofNat 0)

/-- `Lexer.advance`: consume one character, updating line/column. -/
def Lexer.advance (l : Lexer) : Char × Lexer :=
  if l.pos < l.input.length then
    if l.input.getD l.pos (Char.ofNat 0) = '\n' then
      ('\n', { l with pos := l.pos + 1, line := l.line + 1, column := 0 })
    else
      (l.input.getD l.pos (Char.ofNat 0),
        { l with pos := l.pos + 1, column := l.column + 1 })
  else (Char.ofNat 0, l)

@[simp] theorem Lexer.advance_input (l : Lexer) : (l.advance).2.input = l.input := by
  unfold Lexer.advance; split <;> (try split) <;> rfl

@[simp] theorem Lexer.advance_tstart (l : Lexer) : (l.advance).2.tstart = l.tstart := by
  unfold Lexer.advance; split <;> (try split) <;> rfl

theorem Lexer.advance_pos (l : Lexer) :
    (l.advance).2.pos = if l.pos < l.input.length then l.pos + 1 else l.pos := by
  unfold Lexer.advance; split <;> (try split) <;> simp_all

theorem Lexer.advance_pos_lt (l : Lexer) (h : l.pos < l.input.length) :
    l.pos < (l.advance).2.pos := by
  rw [Lexer.advance_pos]; simp [h]

theorem Lexer.advance_pos_le (l : Lexer) : l.pos ≤ (l.advance).2.pos := by
  rw [Lexer.advance_pos]; split <;> omega

/-- `Lexer.skipWhitespace`: skip spaces, tabs and carriage returns. -/
def Lexer.skipWhitespace (l : Lexer) : Lexer :=
  if _h : l.pos < l.input.length then
    let ch := l.peek
    if ch = ' ' ∨ ch = '\t' ∨ ch = '\r' then
      Lexer.skipWhitespace (l.advance).2
    else l
  else l
termination_by l.input.length - l.pos
decreasing_by
  have := Lexer.advance_pos_lt l _h
  simp only [Lexer.advance_input]
  omega

/-- Slice `input[a:b]` of the lexer's input, as the Go code takes
`l.input[start:pos]`. -/
def slice (input : List Char) (a b : Nat) : String :=
  String.mk ((input.drop a).take (b - a))

/-- `Lexer.makeToken`. -/
def Lexer.makeToken (l : Lexer) (typ : TokenType) (value : String) : Token :=
  { type := typ, value := value, line := l.startLine, column := l.startColumn
    offset := l.tstart, length := l.pos - l.tstart }

/-- `isIdentStart`: ASCII letters, `_`, `@` (the Go code checks the byte). -/
def isIdentStart (ch : Char) : Bool :=
  ('a' ≤ ch ∧ ch ≤ 'z') ∨ ('A' ≤ ch ∧ ch ≤ 'Z') ∨ ch = '_' ∨ ch = '@'

/-- `isIdentPart`: `unicode.IsLetter(r) || unicode.IsDigit(r) || r == '_' ||
r == '@'`. `Char.isAlpha`/`Char.isDigit` embed the unicode classes; they
agree on ASCII, which covers every concrete input used in this file. -/
def isIdentPart (r : Char) : Bool :=
  r.isAlpha ∨ r.isDigit ∨ r = '_' ∨ r = '@'

/-- The loop of `Lexer.scanComment`: consume to end of line. -/
def Lexer.scanCommentLoop (l : Lexer) : Lexer :=
  if h : l.pos < l.input.length ∧ l.peek ≠ '\n' then
    Lexer.scanCommentLoop (l.advance).2
  else l
termination_by l.input.length - l.pos
decreasing_by
  have := Lexer.advance_pos_lt l h.1
  simp only [Lexer.advance_input]
  omega

/-- `Lexer.scanComment`: `;` to end of line, text stored without the `;`. -/
def Lexer.scanComment (l : Lexer) : Token × Lexer :=
  let l1 := (l.advance).2
  let vstart := l1.pos
  let l2 := l1.scanCommentLoop
  (l2.makeToken .comment (slice l2.input vstart l2.pos), l2)

/-- The loop of `Lexer.scanString`: consume characters (decoding escapes)
until the closing quote, a newline, or the end of input. -/
def Lexer.scanStringLoop (l : Lexer) (builder : String) : Token × Lexer :=
  if h : l.pos < l.input.length then
    if l.peek = '"' then
      let l1 := (l.advance).2
      (l1.makeToken .string builder, l1)
    else if l.peek = '\\' then
      let l1 := (l.advance).2
      if l1.pos < l1.input.length then
        let escaped := (l1.advance).1
        let l2 := (l1.advance).2
        let b1 :=
          if escaped = 'n' then builder.push '\n'
          else if escaped = 't' then builder.push '\t'
          else if escaped = 'r' then builder.push '\r'
          else if escaped = '\\' then builder.push '\\'
          else if escaped = '"' then builder.push '"'
          else (builder.push '\\').push escaped
        Lexer.scanStringLoop l2 b1
      else Lexer.scanStringLoop l1 builder
    else if l.peek = '\n' then
      (l.makeToken .error "unterminated string", l)
    else
      let c := (l.advance).1
      Lexer.scanStringLoop (l.advance).2 (builder.push c)
  else (l.makeToken .error "unterminated string", l)
termination_by l.input.length - l.pos
decreasing_by
  · have h1 := Lexer.advance_pos_lt l h
    have h2 := Lexer.advance_pos_le (l.advance).2
    simp only [Lexer.advance_input] at *
    omega
  · have h1 := Lexer.advance_pos_lt l h
    simp only [Lexer.advance_input] at *
    omega
  · have h1 := Lexer.advance_pos_lt l h
    simp only [Lexer.advance_input] at *
    omega

/-- `Lexer.scanString`: consume the opening quote, then the loop. -/
def Lexer.scanString (l : Lexer) : Token × Lexer :=
  Lexer.scanStringLoop (l.advance).2 ""

/-- `Lexer.matchKeyword`: match `keyword` at `pos` at a word boundary,
consuming it on success. -/
def Lexer.matchKeyword (l : Lexer) (kw : String) : Bool × Lexer :=
  if l.pos + kw.length > l.input.length then (false, l)
  else if (l.input.drop l.pos).take kw.length = kw.toList then
    if l.pos + kw.length < l.input.length ∧
        isIdentPart (l.input.getD (l.pos + kw.length) (Char.ofNat 0)) then
      (false, l)
    else
      (true, { l with pos := l.pos + kw.length, column := l.column + kw.length })
  else (false, l)

/-- The digit loops of `Lexer.scanNumber`; the flag records whether any
digit was consumed (Go's `hasDigits`). -/
def Lexer.scanDigits (l : Lexer) (hasD : Bool) : Lexer × Bool :=
  if h : l.pos < l.input.length ∧ '0' ≤ l.peek ∧ l.peek ≤ '9' then
    Lexer.scanDigits (l.advance).2 true
  else (l, hasD)
termination_by l.input.length - l.pos
decreasing_by
  have := Lexer.advance_pos_lt l h.1
  simp only [Lexer.advance_input]
  omega

/-- The exponent part of `Lexer.scanNumber`: `eE[+-]?digits`. -/
def Lexer.scanExponent (l : Lexer) : Lexer :=
  if l.peek = 'e' ∨ l.peek = 'E' then
    let l1 := (l.advance).2
    let l2 := if l1.peek = '-' ∨ l1.peek = '+' then (l1.advance).2 else l1
    (l2.scanDigits false).1
  else l

/-- `Lexer.scanNumber`: optional sign, `inf`/`nan`, integer part, optional
decimal part and exponent. -/
def Lexer.scanNumber (l : Lexer) : Token × Lexer :=
  let l0 := if l.peek = '-' ∨ l.peek = '+' then (l.advance).2 else l
  let (minf, l1) := l0.matchKeyword "inf"
  if minf then (l1.makeToken .number (slice l1.input l1.tstart l1.pos), l1)
  else
    let (mnan, l2) := l1.matchKeyword "nan"
    if mnan then (l2.makeToken .number (slice l2.input l2.tstart l2.pos), l2)
    else
      let (l3, hasDigits) := l2.scanDigits false
      if l3.peek = '.' ∧ '0' ≤ l3.peekN 1 ∧ l3.peekN 1 ≤ '9' then
        let l4 := ((l3.advance).2.scanDigits false).1
        let l5 := l4.scanExponent
        (l5.makeToken .number (slice l5.input l5.tstart l5.pos), l5)
      else if l3.peek = '.' ∧ ¬ hasDigits then
        (l3.makeToken .error "invalid number", l3)
      else
        let l5 := l3.scanExponent
        (l5.makeToken .number (slice l5.input l5.tstart l5.pos), l5)

/-- The loop of `Lexer.scanIdentifier` (one column per code point; the Go
code advances by the rune's byte size). -/
def Lexer.scanIdentLoop (l : Lexer) : Lexer :=
  if h : l.pos < l.input.length ∧ isIdentPart (l.input.getD l.pos (Char.ofNat 0)) then
    Lexer.scanIdentLoop { l with pos := l.pos + 1, column := l.column + 1 }
  else l
termination_by l.input.length - l.pos

/-- `Lexer.scanIdentifier`, with the keyword check for `true`, `false`,
`null`, `inf`, `nan`. -/
def Lexer.scanIdentifier (l : Lexer) : Token × Lexer :=
  let l1 := l.scanIdentLoop
  let value := slice l1.input l1.tstart l1.pos
  if value = "true" ∨ value = "false" then (l1.makeToken .bool value, l1)
  else if value = "null" then (l1.makeToken .null value, l1)
  else if value = "inf" ∨ value = "nan" then (l1.makeToken .number value, l1)
  else (l1.makeToken .ident value, l1)

/-- `Lexer.Next`: the next token. -/
def Lexer.next (l : Lexer) : Token × Lexer :=
  let lw := l.skipWhitespace
  let ls : Lexer :=
    { lw with tstart := lw.pos, startLine := lw.line, startColumn := lw.column }
  if ls.pos ≥ ls.input.length then (ls.makeToken .eof "", ls)
  else
    let ch := ls.peek
    if ch = '[' then let l1 := (ls.advance).2; (l1.makeToken .lbracket "[", l1)
    else if ch = ']' then let l1 := (ls.advance).2; (l1.makeToken .rbracket "]", l1)
    else if ch = '(' then let l1 := (ls.advance).2; (l1.makeToken .lparen "(", l1)
    else if ch = ')' then let l1 := (ls.advance).2; (l1.makeToken .rparen ")", l1)
    else if ch = '{' then let l1 := (ls.advance).2; (l1.makeToken .lbrace "\x7b", l1)
    else if ch = '}' then let l1 := (ls.advance).2; (l1.makeToken .rbrace "\x7d", l1)
    else if ch = '=' then let l1 := (ls.advance).2; (l1.makeToken .equals "=", l1)
    else if ch = ':' then let l1 := (ls.advance).2; (l1.makeToken .colon ":", l1)
    else if ch = ',' then let l1 := (ls.advance).2; (l1.makeToken .comma ",", l1)
    else if ch = '/' then let l1 := (ls.advance).2; (l1.makeToken .slash "/", l1)
    else if ch = '\n' then let l1 := (ls.advance).2; (l1.makeToken .newline "\n", l1)
    else if ch = ';' then ls.scanComment
    else if ch = '"' then ls.scanString
    else if ch = '&' then
      -- StringName literal `&"name"`: consume the `&`, scan as a string.
      if ls.pos + 1 < ls.input.length ∧ ls.input.getD (ls.pos + 1) (Char.ofNat 0) = '"' then
        (ls.advance).2.scanString
      else
        let l1 := (ls.advance).2
        (l1.makeToken .error "&", l1)
    else if ch = '-' ∨ ch = '+' then
      if ls.pos + 1 < ls.input.length ∧
          (let nextc := ls.input.getD (ls.pos + 1) (Char.ofNat 0)
           ('0' ≤ nextc ∧ nextc ≤ '9') ∨ nextc = '.') then
        ls.scanNumber
      else
        -- "Otherwise, treat as identifier start (unlikely in TSCN)"
        ls.scanIdentifier
    else if ('0' ≤ ch ∧ ch ≤ '9') ∨ ch = '.' then ls.scanNumber
    else if isIdentStart ch then ls.scanIdentifier
    else
      let l1 := (ls.advance).2
      (l1.makeToken .error (String.mk [ch]), l1)

/-- The loop of `Lexer.Tokenize`, with fuel: `none` means the loop did not
finish within `fuel` iterations. -/
def tokenizeLoop : Nat → Lexer → List Token → Option (List Token)
  | 0, _, _ => none
  | fuel + 1, l, acc =>
    let (tok, l1) := l.next
    let acc1 := acc ++ [tok]
    if tok.type = .eof then some acc1
    else tokenizeLoop fuel l1 acc1

/-- `Lexer.Tokenize` on a fresh lexer. -/
def tokenize (fuel : Nat) (input : String) : Option (List Token) :=
  tokenizeLoop fuel (newLexer input) []

/-- A TSCN value (`Value` and its variants). A dictionary entry is the
triple (range, key, value) of Go's `DictEntry`. `num` omits the source's
`Value float64` field (floating point; no property below depends on it)
and keeps `IsInt` and `RawValue`. -/
inductive Value where
  | str (range : Range) (value : String)
  | num (range : Range) (isInt : Bool) (rawValue : String)
  | bool (range : Range) (value : Bool)
  | null (range : Range)
  | array (range : Range) (values : List Value)
  | dict (range : Range) (entries : List (Range × Value × Value))
  | identv (range : Range) (name : String)
  | typed (range : Range) (typeName : String) (typeRange : Range) (arguments : List Value)
  | resourceRef (range : Range) (refType : String) (id : String) (idRange : Range)
deriving Repr

/-- `Value.GetRange`. -/
def Value.getRange : Value → Range
  | .str r _ => r
  | .num r _ _ => r
  | .bool r _ => r
  | .null r => r
  | .array r _ => r
  | .dict r _ => r
  | .identv r _ => r
  | .typed r _ _ _ => r
  | .resourceRef r _ _ _ => r

/-- `ParseError`. -/
structure ParseError where
  range : Range
  message : String
deriving Repr

/-- `GdScene` (the `[gd_scene ...]`/`[gd_resource ...]` descriptor). -/
structure GdScene where
  range : Range
  type : String
  loadSteps : Option Int
  format : Int
  uid : String
  resourceType : String
deriving Repr

/-- `ExtResource`. -/
structure ExtResource where
  range : Range
  type : String
  uid : String
  path : String
  pathRange : Range
  id : String
deriving Repr

/-- `Property` (a `key = value` pair). -/
structure Property where
  range : Range
  key : String
  keyRange : Range
  value : Value
deriving Repr

/-- `SubResource`. -/
structure SubResource where
  range : Range
  type : String
  id : String
  properties : List Property
deriving Repr

/-- `Node`. `instanceVal` embeds the Go field `Instance` (a reserved word
prefix in Lean). -/
structure Node where
  range : Range
  name : String
  type : String
  parent : String
  instanceVal : Option Value
  instancePlaceholder : String
  owner : String
  index : Option Int
  groups : List String
  properties : List Property
deriving Repr

/-- `Connection`. `fromPath`/`toPath` embed the Go fields `From`/`To`
(reserved words in Lean). -/
structure Connection where
  range : Range
  signal : String
  fromPath : String
  toPath : String
  method : String
  flags : Option Int
  binds : List Value
deriving Repr

/-- `Comment`. -/
structure Comment where
  range : Range
  text : String
deriving Repr

/-- `Document`. -/
structure Document where
  descriptor : Option GdScene
  extResources : List ExtResource
  subResources : List SubResource
  nodes : List Node
  connections : List Connection
  comments : List Comment
  errors : List ParseError
deriving Repr

/-- The empty document `Parse` starts from. -/
def emptyDocument : Document :=
  { descriptor := none, extResources := [], subResources := [], nodes := []
    connections := [], comments := [], errors := [] }

/-- The parser state (`Parser` struct): the token stream, the cursor, and
the document being built. Go caches `current`; it always equals
`tokens[pos]` (the zero token — EOF — past the end and on an empty
stream), so the embedding derives it. -/
structure PState where
  tokens : List Token
  pos : Nat
  doc : Document

/-- `Parser.current`. -/
def PState.current (s : PState) : Token :=
  s.tokens.getD s.pos Token.zero

/-- `Parser.advance`. -/
def PState.advance (s : PState) : PState :=
  if s.pos < s.tokens.length - 1 then { s with pos := s.pos + 1 } else s

/-- `Parser.prevToken`. -/
def PState.prevToken (s : PState) : Token :=
  if s.pos > 0 then s.tokens.getD (s.pos - 1) Token.zero else s.current

/-- `Parser.isAtEnd`. -/
def PState.isAtEnd (s : PState) : Bool :=
  s.current.type = .eof

/-- `maxErrors`: the error cap. -/
def maxErrors : Nat := 100

/-- `Parser.makeRange`. -/
def makeRange (tok : Token) : Range :=
  { start := ⟨tok.line, tok.column, tok.offset⟩
    stop := ⟨tok.line, tok.column + tok.length, tok.offset + tok.length⟩ }

/-- The `Range{Start: startToken..., End: endToken...+Length}` pattern every
section and value builder uses. -/
def spanRange (startTok endTok : Token) : Range :=
  { start := ⟨startTok.line, startTok.column, startTok.offset⟩
    stop := ⟨endTok.line, endTok.column + endTok.length, endTok.offset + endTok.length⟩ }

/-- `Parser.addError`: append an error at the current token, silently
dropping it once `maxErrors` entries have accumulated. -/
def PState.addError (s : PState) (msg : String) : PState :=
  if s.doc.errors.length ≥ maxErrors then s
  else { s with doc := { s.doc with
           errors := s.doc.errors ++ [ParseError.mk (makeRange s.current) msg] } }

/-- `Parser.parseComment`: record a comment token and advance. -/
def PState.pushComment (s : PState) : PState :=
  ({ s with doc := { s.doc with
       comments := s.doc.comments ++ [Comment.mk (makeRange s.current) s.current.value] } }).advance

/-- `Parser.skipNewlines` (consumes newline tokens and records comments). -/
def skipNewlines : Nat → PState → Option PState
  | 0, _ => none
  | fuel + 1, s =>
    if s.current.type = .newline ∨ s.current.type = .comment then
      if s.current.type = .comment then skipNewlines fuel s.pushComment
      else skipNewlines fuel s.advance
    else some s

/-- `Parser.skipToNextSection`. -/
def skipToNextSection : Nat → PState → Option PState
  | 0, _ => none
  | fuel + 1, s =>
    if s.isAtEnd then some s
    else if s.current.type = .lbracket then some s
    else skipToNextSection fuel s.advance

/-- `containsAny` (from `parser.go`). -/
def containsAny (s chars : String) : Bool :=
  chars.toList.any (fun c => s.toList.any (fun sc => c = sc))

/-- The recovery loop in `parseDict` after a missing `:`: skip to the next
comma, closing brace, or newline. -/
def dictColonRecover : Nat → PState → Option PState
  | 0, _ => none
  | fuel + 1, s =>
    if ¬ s.isAtEnd ∧ s.current.type ≠ .comma ∧ s.current.type ≠ .rbrace ∧
        s.current.type ≠ .newline then
      dictColonRecover fuel s.advance
    else some s

mutual

/-- `Parser.parseValue`: `none` is fuel exhaustion, `some (none, s)` is the
Go function returning `nil`. -/
def parseValue : Nat → PState → Option (Option Value × PState)
  | 0, _ => none
  | fuel + 1, s =>
    match s.current.type with
    | .string => some (some (.str (makeRange s.current) s.current.value), s.advance)
    | .number =>
      let raw := s.current.value
      some (some (.num (makeRange s.current)
        (¬ containsAny raw ".eE" ∧ raw ≠ "inf" ∧ raw ≠ "nan" ∧ raw ≠ "-inf") raw), s.advance)
    | .bool => some (some (.bool (makeRange s.current) (s.current.value = "true")), s.advance)
    | .null => some (some (.null (makeRange s.current)), s.advance)
    | .lbracket =>
      match parseArray fuel s with
      | none => none
      | some (v, s1) => some (some v, s1)
    | .lbrace =>
      match parseDict fuel s with
      | none => none
      | some (v, s1) => some (some v, s1)
    | .ident =>
      match parseTypedValueOrIdent fuel s with
      | none => none
      | some (v, s1) => some (some v, s1)
    | _ => some (none, s)

/-- `Parser.parseArray`. -/
def parseArray : Nat → PState → Option (Value × PState)
  | 0, _ => none
  | fuel + 1, s =>
    let startToken := s.current
    match parseArrayLoop fuel s.advance [] with
    | none => none
    | some (values, s2) =>
      let endToken := s2.current
      let s3 := if s2.current.type = .rbracket then s2.advance else s2
      some (.array (spanRange startToken endToken) values, s3)

/-- The element loop of `parseArray`; a `nil` nested value advances one
token to guarantee forward progress. -/
def parseArrayLoop : Nat → PState → List Value → Option (List Value × PState)
  | 0, _, _ => none
  | fuel + 1, s, values =>
    if s.current.type ≠ .rbracket ∧ ¬ s.isAtEnd then
      match skipNewlines fuel s with
      | none => none
      | some s1 =>
        if s1.current.type = .rbracket then some (values, s1)
        else
          match parseValue fuel s1 with
          | none => none
          | some (v?, s2) =>
            let (values1, s3) :=
              match v? with
              | some v => (values ++ [v], s2)
              | none => (values, s2.advance)
            match skipNewlines fuel s3 with
            | none => none
            | some s4 =>
              let s5 := if s4.current.type = .comma then s4.advance else s4
              parseArrayLoop fuel s5 values1
    else some (values, s)

/-- `Parser.parseDict`. -/
def parseDict : Nat → PState → Option (Value × PState)
  | 0, _ => none
  | fuel + 1, s =>
    let startToken := s.current
    match parseDictLoop fuel s.advance [] with
    | none => none
    | some (entries, s2) =>
      let endToken := s2.current
      let s3 := if s2.current.type = .rbrace then s2.advance else s2
      some (.dict (spanRange startToken endToken) entries, s3)

/-- The entry loop of `parseDict`, with its key/colon recovery. -/
def parseDictLoop : Nat → PState → List (Range × Value × Value) →
    Option (List (Range × Value × Value) × PState)
  | 0, _, _ => none
  | fuel + 1, s, entries =>
    if s.current.type ≠ .rbrace ∧ ¬ s.isAtEnd then
      match skipNewlines fuel s with
      | none => none
      | some s1 =>
        if s1.current.type = .rbrace then some (entries, s1)
        else
          let keyStart := s1.current
          if s1.current.type = .string ∨ s1.current.type = .ident then
            let key : Value :=
              if s1.current.type = .string then .str (makeRange s1.current) s1.current.value
              else .identv (makeRange s1.current) s1.current.value
            let s2 := s1.advance
            if s2.current.type ≠ .colon then
              match dictColonRecover fuel (s2.addError "expected ':' after dictionary key") with
              | none => none
              | some s3 => parseDictLoop fuel s3 entries
            else
              match parseValue fuel s2.advance with
              | none => none
              | some (v?, s3) =>
                let (entries1, s4) :=
                  match v? with
                  | some v =>
                    (entries ++ [(Range.mk ⟨keyStart.line, keyStart.column, keyStart.offset⟩
                        (v.getRange).stop, key, v)], s3)
                  | none =>
                    (entries,
                      if s3.current.type ≠ .comma ∧ s3.current.type ≠ .rbrace then s3.advance
                      else s3)
                match skipNewlines fuel s4 with
                | none => none
                | some s5 =>
                  let s6 := if s5.current.type = .comma then s5.advance else s5
                  parseDictLoop fuel s6 entries1
          else
            parseDictLoop fuel
              ((s1.addError "expected string or identifier as dictionary key").advance) entries
    else some (entries, s)

/-- `Parser.parseTypedValueOrIdent`: a `Name(...)` construct, with the
`ExtResource("id")`/`SubResource("id")` special case, or a bare
identifier. -/
def parseTypedValueOrIdent : Nat → PState → Option (Value × PState)
  | 0, _ => none
  | fuel + 1, s =>
    let startToken := s.current
    let name := s.current.value
    let typeRange := makeRange s.current
    let s1 := s.advance
    if s1.current.type = .lparen then
      let s2 := s1.advance
      if (name = "ExtResource" ∨ name = "SubResource") ∧ s2.current.type = .string then
        let idRange := makeRange s2.current
        let id := s2.current.value
        let s3 := s2.advance
        let endToken := if s3.current.type = .rparen then (s3.advance).prevToken else s3.current
        let s4 := if s3.current.type = .rparen then s3.advance else s3
        some (.resourceRef (spanRange startToken endToken) name id idRange, s4)
      else
        match parseTypedArgs fuel s2 [] with
        | none => none
        | some (args, s3) =>
          let endToken := if s3.current.type = .rparen then (s3.advance).prevToken else s3.current
          let s4 := if s3.current.type = .rparen then s3.advance else s3
          some (.typed (spanRange startToken endToken) name typeRange args, s4)
    else some (.identv typeRange name, s1)

/-- The argument loop of the typed-value case; a `nil` nested value that
leaves the cursor off `)` and `,` advances one token. -/
def parseTypedArgs : Nat → PState → List Value → Option (List Value × PState)
  | 0, _, _ => none
  | fuel + 1, s, args =>
    if s.current.type ≠ .rparen ∧ ¬ s.isAtEnd then
      match parseValue fuel s with
      | none => none
      | some (v?, s1) =>
        let (args1, s2) :=
          match v? with
          | some v => (args ++ [v], s1)
          | none =>
            (args,
              if s1.current.type ≠ .rparen ∧ s1.current.type ≠ .comma then s1.advance else s1)
        let s3 := if s2.current.type = .comma then s2.advance else s2
        parseTypedArgs fuel s3 args1
    else some (args, s)

end

/-- The Go zero value of `Range`. -/
def Range.zero : Range := ⟨⟨0, 0, 0⟩, ⟨0, 0, 0⟩⟩

/-- The key loop of `parseProperty`: accumulate runs of identifiers,
numbers and `/` into one key string. -/
def propKeyLoop : Nat → PState → String → Option (String × PState)
  | 0, _, _ => none
  | fuel + 1, s, key =>
    match s.current.type with
    | .ident => propKeyLoop fuel s.advance (key ++ s.current.value)
    | .number => propKeyLoop fuel s.advance (key ++ s.current.value)
    | .slash => propKeyLoop fuel s.advance (key ++ "/")
    | _ => some (key, s)

/-- `Parser.parseProperty`: `some (none, s)` is the Go function returning
`nil`. -/
def parseProperty : Nat → PState → Option (Option Property × PState)
  | 0, _ => none
  | fuel + 1, s =>
    if s.current.type ≠ .ident then some (none, s)
    else
      let keyStart : Position := ⟨s.current.line, s.current.column, s.current.offset⟩
      match propKeyLoop fuel s "" with
      | none => none
      | some (key, s1) =>
        let keyEnd : Position :=
          ⟨s1.prevToken.line, s1.prevToken.column + s1.prevToken.length,
            s1.prevToken.offset + s1.prevToken.length⟩
        if s1.current.type ≠ .equals then
          some (none, s1.addError "expected '=' after property key")
        else
          match parseValue fuel s1.advance with
          | none => none
          | some (v?, s2) =>
            match v? with
            | none => some (none, s2)
            | some v =>
              some (some ⟨⟨keyStart, v.getRange.stop⟩, key, ⟨keyStart, keyEnd⟩, v⟩, s2)

/-- The header-attribute loop of `parseGdScene` (`load_steps`, `format`,
`uid`, `type`; unknown keys parsed as values and discarded). -/
def gdSceneAttrs : Nat → PState → GdScene → Option (GdScene × PState)
  | 0, _, _ => none
  | fuel + 1, s, gd =>
    if s.current.type ≠ .rbracket ∧ ¬ s.isAtEnd then
      if s.current.type = .ident then
        let key := s.current.value
        let s1 := s.advance
        if s1.current.type ≠ .equals then
          gdSceneAttrs fuel (s1.addError "expected '=' after key") gd
        else
          let s2 := s1.advance
          if key = "load_steps" then
            if s2.current.type = .number then
              gdSceneAttrs fuel s2.advance { gd with loadSteps := some (goAtoi s2.current.value) }
            else gdSceneAttrs fuel s2 gd
          else if key = "format" then
            if s2.current.type = .number then
              gdSceneAttrs fuel s2.advance { gd with format := goAtoi s2.current.value }
            else gdSceneAttrs fuel s2 gd
          else if key = "uid" then
            if s2.current.type = .string then
              gdSceneAttrs fuel s2.advance { gd with uid := s2.current.value }
            else gdSceneAttrs fuel s2 gd
          else if key = "type" then
            if s2.current.type = .string then
              gdSceneAttrs fuel s2.advance { gd with resourceType := s2.current.value }
            else gdSceneAttrs fuel s2 gd
          else
            match parseValue fuel s2 with
            | none => none
            | some (_, s3) => gdSceneAttrs fuel s3 gd
      else some (gd, s)
    else some (gd, s)

/-- `Parser.parseGdScene`. -/
def parseGdScene (fuel : Nat) (s : PState) (startToken : Token) (sectionType : String) :
    Option PState :=
  match gdSceneAttrs fuel s
      { range := Range.zero, type := sectionType, loadSteps := none, format := 3
        uid := "", resourceType := "" } with
  | none => none
  | some (gd, s1) =>
    let s2 := if s1.current.type = .rbracket then s1.advance else s1
    let gd1 := { gd with range := spanRange startToken s2.prevToken }
    some { s2 with doc := { s2.doc with descriptor := some gd1 } }

/-- The header-attribute loop of `parseExtResource` (`type`, `uid`, `path`,
`id`; the `path` case also records `PathRange` over the string token). -/
def extResourceAttrs : Nat → PState → ExtResource → Option (ExtResource × PState)
  | 0, _, _ => none
  | fuel + 1, s, ext =>
    if s.current.type ≠ .rbracket ∧ ¬ s.isAtEnd then
      if s.current.type = .ident then
        let key := s.current.value
        let s1 := s.advance
        if s1.current.type ≠ .equals then
          extResourceAttrs fuel (s1.addError "expected '=' after key") ext
        else
          let s2 := s1.advance
          if key = "type" then
            if s2.current.type = .string then
              extResourceAttrs fuel s2.advance { ext with type := s2.current.value }
            else extResourceAttrs fuel s2 ext
          else if key = "uid" then
            if s2.current.type = .string then
              extResourceAttrs fuel s2.advance { ext with uid := s2.current.value }
            else extResourceAttrs fuel s2 ext
          else if key = "path" then
            if s2.current.type = .string then
              extResourceAttrs fuel s2.advance
                { ext with path := s2.current.value, pathRange := makeRange s2.current }
            else extResourceAttrs fuel s2 ext
          else if key = "id" then
            if s2.current.type = .string then
              extResourceAttrs fuel s2.advance { ext with id := s2.current.value }
            else extResourceAttrs fuel s2 ext
          else
            match parseValue fuel s2 with
            | none => none
            | some (_, s3) => extResourceAttrs fuel s3 ext
      else some (ext, s)
    else some (ext, s)

/-- `Parser.parseExtResource`. -/
def parseExtResource (fuel : Nat) (s : PState) (startToken : Token) : Option PState :=
  match extResourceAttrs fuel s
      { range := Range.zero, type := "", uid := "", path := "", pathRange := Range.zero
        id := "" } with
  | none => none
  | some (ext, s1) =>
    let s2 := if s1.current.type = .rbracket then s1.advance else s1
    let ext1 := { ext with range := spanRange startToken s2.prevToken }
    some { s2 with doc := { s2.doc with extResources := s2.doc.extResources ++ [ext1] } }

/-- The header-attribute loop of `parseSubResource` (`type`, `id`). -/
def subResourceAttrs : Nat → PState → SubResource → Option (SubResource × PState)
  | 0, _, _ => none
  | fuel + 1, s, sub =>
    if s.current.type ≠ .rbracket ∧ ¬ s.isAtEnd then
      if s.current.type = .ident then
        let key := s.current.value
        let s1 := s.advance
        if s1.current.type ≠ .equals then
          subResourceAttrs fuel (s1.addError "expected '=' after key") sub
        else
          let s2 := s1.advance
          if key = "type" then
            if s2.current.type = .string then
              subResourceAttrs fuel s2.advance { sub with type := s2.current.value }
            else subResourceAttrs fuel s2 sub
          else if key = "id" then
            if s2.current.type = .string then
              subResourceAttrs fuel s2.advance { sub with id := s2.current.value }
            else subResourceAttrs fuel s2 sub
          else
            match parseValue fuel s2 with
            | none => none
            | some (_, s3) => subResourceAttrs fuel s3 sub
      else some (sub, s)
    else some (sub, s)

/-- The property loop after a `sub_resource`/`node` header (the Go loops
`subPropLoop` and `nodePropLoop` are identical; one definition serves
both): properties until the next `[` or EOF. -/
def sectionProps : Nat → PState → List Property → Option (List Property × PState)
  | 0, _, _ => none
  | fuel + 1, s, props =>
    if ¬ s.isAtEnd ∧ s.current.type ≠ .lbracket then
      match s.current.type with
      | .comment => sectionProps fuel s.pushComment props
      | .ident =>
        match parseProperty fuel s with
        | none => none
        | some (p?, s1) =>
          match p? with
          | some p => sectionProps fuel s1 (props ++ [p])
          | none => sectionProps fuel s1 props
      | .newline => sectionProps fuel s.advance props
      | _ => some (props, s)
    else some (props, s)

/-- `Parser.parseSubResource`. -/
def parseSubResource (fuel : Nat) (s : PState) (startToken : Token) : Option PState :=
  match subResourceAttrs fuel s
      { range := Range.zero, type := "", id := "", properties := [] } with
  | none => none
  | some (sub, s1) =>
    let endToken0 := s1.current
    let s2 := if s1.current.type = .rbracket then s1.advance else s1
    match skipNewlines fuel s2 with
    | none => none
    | some s3 =>
      match sectionProps fuel s3 [] with
      | none => none
      | some (props, s4) =>
        let endToken :=
          match props.getLast? with
          | some lastProp =>
            { Token.zero with
                line := lastProp.range.stop.line,
                column := lastProp.range.stop.column,
                offset := lastProp.range.stop.offset }
          | none => endToken0
        let sub1 := { sub with range := spanRange startToken endToken, properties := props }
        some { s4 with doc := { s4.doc with
                 subResources := s4.doc.subResources ++ [sub1] } }

/-- The header-attribute loop of `parseNode` (`name`, `type`, `parent`,
`instance`, `instance_placeholder`, `owner`, `index`, `groups`). -/
def nodeAttrs : Nat → PState → Node → Option (Node × PState)
  | 0, _, _ => none
  | fuel + 1, s, node =>
    if s.current.type ≠ .rbracket ∧ ¬ s.isAtEnd then
      if s.current.type = .ident then
        let key := s.current.value
        let s1 := s.advance
        if s1.current.type ≠ .equals then
          nodeAttrs fuel (s1.addError "expected '=' after key") node
        else
          let s2 := s1.advance
          if key = "name" then
            if s2.current.type = .string then
              nodeAttrs fuel s2.advance { node with name := s2.current.value }
            else nodeAttrs fuel s2 node
          else if key = "type" then
            if s2.current.type = .string then
              nodeAttrs fuel s2.advance { node with type := s2.current.value }
            else nodeAttrs fuel s2 node
          else if key = "parent" then
            if s2.current.type = .string then
              nodeAttrs fuel s2.advance { node with parent := s2.current.value }
            else nodeAttrs fuel s2 node
          else if key = "instance" then
            match parseValue fuel s2 with
            | none => none
            | some (v?, s3) => nodeAttrs fuel s3 { node with instanceVal := v? }
          else if key = "instance_placeholder" then
            if s2.current.type = .string then
              nodeAttrs fuel s2.advance { node with instancePlaceholder := s2.current.value }
            else nodeAttrs fuel s2 node
          else if key = "owner" then
            if s2.current.type = .string then
              nodeAttrs fuel s2.advance { node with owner := s2.current.value }
            else nodeAttrs fuel s2 node
          else if key = "index" then
            if s2.current.type = .number then
              nodeAttrs fuel s2.advance { node with index := some (goAtoi s2.current.value) }
            else nodeAttrs fuel s2 node
          else if key = "groups" then
            match parseValue fuel s2 with
            | none => none
            | some (v?, s3) =>
              match v? with
              | some (.array _ values) =>
                nodeAttrs fuel s3
                  { node with groups := node.groups ++ values.filterMap (fun v =>
                      match v with
                      | .str _ x => some x
                      | _ => none) }
              | _ => nodeAttrs fuel s3 node
          else
            match parseValue fuel s2 with
            | none => none
            | some (_, s3) => nodeAttrs fuel s3 node
      else some (node, s)
    else some (node, s)

/-- `Parser.parseNode`. -/
def parseNode (fuel : Nat) (s : PState) (startToken : Token) : Option PState :=
  match nodeAttrs fuel s
      { range := Range.zero, name := "", type := "", parent := "", instanceVal := none
        instancePlaceholder := "", owner := "", index := none, groups := []
        properties := [] } with
  | none => none
  | some (node, s1) =>
    let endToken0 := s1.current
    let s2 := if s1.current.type = .rbracket then s1.advance else s1
    match skipNewlines fuel s2 with
    | none => none
    | some s3 =>
      match sectionProps fuel s3 [] with
      | none => none
      | some (props, s4) =>
        let endToken :=
          match props.getLast? with
          | some lastProp =>
            { Token.zero with
                line := lastProp.range.stop.line,
                column := lastProp.range.stop.column,
                offset := lastProp.range.stop.offset }
          | none => endToken0
        let node1 := { node with range := spanRange startToken endToken, properties := props }
        some { s4 with doc := { s4.doc with nodes := s4.doc.nodes ++ [node1] } }

/-- The header-attribute loop of `parseConnection` (`signal`, `from`, `to`,
`method`, `flags`, `binds`). -/
def connectionAttrs : Nat → PState → Connection → Option (Connection × PState)
  | 0, _, _ => none
  | fuel + 1, s, conn =>
    if s.current.type ≠ .rbracket ∧ ¬ s.isAtEnd then
      if s.current.type = .ident then
        let key := s.current.value
        let s1 := s.advance
        if s1.current.type ≠ .equals then
          connectionAttrs fuel (s1.addError "expected '=' after key") conn
        else
          let s2 := s1.advance
          if key = "signal" then
            if s2.current.type = .string then
              connectionAttrs fuel s2.advance { conn with signal := s2.current.value }
            else connectionAttrs fuel s2 conn
          else if key = "from" then
            if s2.current.type = .string then
              connectionAttrs fuel s2.advance { conn with fromPath := s2.current.value }
            else connectionAttrs fuel s2 conn
          else if key = "to" then
            if s2.current.type = .string then
              connectionAttrs fuel s2.advance { conn with toPath := s2.current.value }
            else connectionAttrs fuel s2 conn
          else if key = "method" then
            if s2.current.type = .string then
              connectionAttrs fuel s2.advance { conn with method := s2.current.value }
            else connectionAttrs fuel s2 conn
          else if key = "flags" then
            if s2.current.type = .number then
              connectionAttrs fuel s2.advance { conn with flags := some (goAtoi s2.current.value) }
            else connectionAttrs fuel s2 conn
          else if key = "binds" then
            match parseValue fuel s2 with
            | none => none
            | some (v?, s3) =>
              match v? with
              | some (.array _ values) => connectionAttrs fuel s3 { conn with binds := values }
              | _ => connectionAttrs fuel s3 conn
          else
            match parseValue fuel s2 with
            | none => none
            | some (_, s3) => connectionAttrs fuel s3 conn
      else some (conn, s)
    else some (conn, s)

/-- `Parser.parseConnection`. -/
def parseConnection (fuel : Nat) (s : PState) (startToken : Token) : Option PState :=
  match connectionAttrs fuel s
      { range := Range.zero, signal := "", fromPath := "", toPath := "", method := ""
        flags := none, binds := [] } with
  | none => none
  | some (conn, s1) =>
    let s2 := if s1.current.type = .rbracket then s1.advance else s1
    let conn1 := { conn with range := spanRange startToken s2.prevToken }
    some { s2 with doc := { s2.doc with connections := s2.doc.connections ++ [conn1] } }

/-- The skip-to-`]` loop of `parseResourceSection`. -/
def resourceSkipHeader : Nat → PState → Option PState
  | 0, _ => none
  | fuel + 1, s =>
    if s.current.type ≠ .rbracket ∧ ¬ s.isAtEnd then resourceSkipHeader fuel s.advance
    else some s

/-- The property loop of `parseResourceSection` (properties parsed and
discarded). -/
def resourceSectionProps : Nat → PState → Option PState
  | 0, _ => none
  | fuel + 1, s =>
    if ¬ s.isAtEnd ∧ s.current.type ≠ .lbracket then
      match s.current.type with
      | .comment => resourceSectionProps fuel s.pushComment
      | .ident =>
        match parseProperty fuel s with
        | none => none
        | some (_, s1) => resourceSectionProps fuel s1
      | .newline => resourceSectionProps fuel s.advance
      | _ => some s
    else some s

/-- `Parser.parseResourceSection`. -/
def parseResourceSection (fuel : Nat) (s : PState) : Option PState :=
  match resourceSkipHeader fuel s with
  | none => none
  | some s1 =>
    let s2 := if s1.current.type = .rbracket then s1.advance else s1
    match skipNewlines fuel s2 with
    | none => none
    | some s3 => resourceSectionProps fuel s3

/-- `Parser.parseSection`: dispatch on the section identifier. -/
def parseSection (fuel : Nat) (s : PState) : Option PState :=
  let startToken := s.current
  let s1 := s.advance
  if s1.current.type ≠ .ident then
    skipToNextSection fuel (s1.addError "expected section type after '['")
  else
    let sectionType := s1.current.value
    let s2 := s1.advance
    if sectionType = "gd_scene" ∨ sectionType = "gd_resource" then
      parseGdScene fuel s2 startToken sectionType
    else if sectionType = "ext_resource" then parseExtResource fuel s2 startToken
    else if sectionType = "sub_resource" then parseSubResource fuel s2 startToken
    else if sectionType = "node" then parseNode fuel s2 startToken
    else if sectionType = "connection" then parseConnection fuel s2 startToken
    else if sectionType = "resource" then parseResourceSection fuel s2
    else skipToNextSection fuel (s2.addError ("unknown section type: " ++ sectionType))

/-- `Parser.parse`: the top-level loop. -/
def parseLoop : Nat → PState → Option PState
  | 0, _ => none
  | fuel + 1, s =>
    if ¬ s.isAtEnd then
      match skipNewlines fuel s with
      | none => none
      | some s1 =>
        if s1.isAtEnd then some s1
        else
          match s1.current.type with
          | .comment => parseLoop fuel s1.pushComment
          | .lbracket =>
            match parseSection fuel s1 with
            | none => none
            | some s2 => parseLoop fuel s2
          | .ident =>
            match parseProperty fuel s1 with
            | none => none
            | some (_, s2) => parseLoop fuel s2
          | _ =>
            parseLoop fuel ((s1.addError ("unexpected token: " ++ s1.current.value)).advance)
    else some s

/-- `Parse` run on an already-tokenized stream: build the initial state and
run the top-level loop. -/
def runParse (fuel : Nat) (tokens : List Token) : Option Document :=
  match parseLoop fuel { tokens := tokens, pos := 0, doc := emptyDocument } with
  | none => none
  | some s => some s.doc

/-- `parser.Parse`: tokenize, then parse. `none` means a loop did not
finish within `fuel` steps (each loop iteration consumes one unit). -/
def parseTscn (fuel : Nat) (input : String) : Option Document :=
  match tokenize fuel input with
  | none => none
  | some toks => runParse fuel toks

end Tscn

namespace Lsp

/-- `isInRange` (`internal/lsp/hover.go`): the containment test every TSCN
position query uses. The protocol positions are non-negative, embedded as
`Nat`. -/
def isInRange (r : Tscn.Range) (line col : Nat) : Bool :=
  if line < r.start.line ∨ line > r.stop.line then false
  else if line = r.start.line ∧ col < r.start.column then false
  else if line = r.stop.line ∧ col > r.stop.column then false
  else true

/-- An LSP diagnostic as `checkParentReferences` builds one
(`protocol.Diagnostic` restricted to the fields the function sets;
`DiagnosticSeverityWarning = 2`). -/
structure Diagnostic where
  startLine : Nat
  startCharacter : Nat
  endLine : Nat
  endCharacter : Nat
  severity : Nat
  source : String
  message : String
deriving DecidableEq, Repr

/-- The first loop of `Server.checkParentReferences`
(`internal/lsp/semantic_tokens.go`): the set of valid node paths (as a list
of members of the Go `map[string]bool`) and the root node's name (the last
node with an empty `parent` wins, as Go's overwrite does). -/
def buildNodePaths (nodes : List Tscn.Node) : List String × String :=
  nodes.foldl
    (fun acc node =>
      if node.parent = "" then (acc.1 ++ ["", "."], node.name)
      else
        let fullPath :=
          if node.parent = "." then node.name else node.parent ++ "/" ++ node.name
        (acc.1 ++ [fullPath], acc.2))
    ([], "")

/-- The warning `checkParentReferences` emits for a node. -/
def parentNotFoundDiag (node : Tscn.Node) : Diagnostic :=
  { startLine := node.range.start.line, startCharacter := node.range.start.column
    endLine := node.range.stop.line, endCharacter := node.range.stop.column
    severity := 2, source := "gdls"
    message := "Parent node not found: " ++ node.parent }

/-- `Server.checkParentReferences`: warn on each node whose `parent` is
non-empty, not `"."`, not a known node path, and not the root node's
name. -/
def checkParentReferences (nodes : List Tscn.Node) : List Diagnostic :=
  let acc := buildNodePaths nodes
  nodes.foldl
    (fun diags node =>
      if node.parent = "" ∨ node.parent = "." then diags
      else if ¬ acc.1.contains node.parent ∧ node.parent ≠ acc.2 then
        diags ++ [parentNotFoundDiag node]
      else diags)
    []

/-- Modelled from the claim's words (for comparison with the code's
`buildNodePaths`): "build the node-path set where the root node's path is
the empty string, a child of `.` takes its own name, and deeper nodes take
parent + `/` + name". -/
def claimNodePathSet (nodes : List Tscn.Node) : List String :=
  nodes.foldl
    (fun acc node =>
      if node.parent = "" then acc ++ [""]
      else if node.parent = "." then acc ++ [node.name]
      else acc ++ [node.parent ++ "/" ++ node.name])
    []

/-- A two-node scene: a root named `Root` and a child whose `parent`
attribute is the root's *name* (not a node path). -/
def sampleRootNode : Tscn.Node :=
  ⟨Tscn.Range.zero, "Root", "Node2D", "", none, "", "", none, [], []⟩

/-- The child of `sampleRootNode` with `parent="Root"`. -/
def sampleChildNode : Tscn.Node :=
  ⟨Tscn.Range.zero, "A", "Node2D", "Root", none, "", "", none, [], []⟩


end Lsp

namespace Gds

/-- The GDShader operator tokens (`TokenType` in the gdshader package),
restricted to the constructors the embedded analyzer functions mention
(`operatorToTokenType` and the operator result rules); the keyword and
type-name constructors of the source enum are used only by the lexer and
parser, which are not embedded. -/
inductive TokenType where
  | error
  | assign
  | plus
  | minus
  | star
  | slash
  | percent
  | ampersand
  | pipe
  | caret
  | tilde
  | bang
  | lt
  | gt
  | lte
  | gte
  | eq
  | ne
  | and
  | or
  | leftShift
  | rightShift
  | plusAssign
  | minusAssign
  | starAssign
  | slashAssign
  | percentAssign
  | ampAssign
  | pipeAssign
  | caretAssign
  | leftShiftAssign
  | rightShiftAssign
  | increment
  | decrement
deriving DecidableEq, Repr

/-- `TypeKind` (`internal/gdshader`, the type-system file). -/
inductive TypeKind where
  | void
  | bool
  | int
  | uint
  | float
  | vec2
  | vec3
  | vec4
  | bvec2
  | bvec3
  | bvec4
  | ivec2
  | ivec3
  | ivec4
  | uvec2
  | uvec3
  | uvec4
  | mat2
  | mat3
  | mat4
  | sampler2D
  | sampler2DArray
  | sampler3D
  | samplerCube
  | samplerCubeArray
  | samplerExternalOES
  | isampler2D
  | isampler2DArray
  | isampler3D
  | usampler2D
  | usampler2DArray
  | usampler3D
  | struct
  | array
  | error
deriving DecidableEq, Repr

/-- `Type` (a GDShader type): kind, struct name, array size (`-1` means
unsized), array element type, struct fields. The embedding's values are
the non-`nil` pointers of the source; a `nil *Type` is `Option GType`'s
`none` where one can flow. -/
inductive GType where
  | mk (kind : TypeKind) (name : String) (arraySize : Int)
      (elementType : Option GType) (fields : List (String × GType))
deriving Repr

def GType.kind : GType → TypeKind
  | .mk k _ _ _ _ => k

def GType.name : GType → String
  | .mk _ n _ _ _ => n

def GType.arraySize : GType → Int
  | .mk _ _ a _ _ => a

def GType.elementType : GType → Option GType
  | .mk _ _ _ e _ => e

def GType.fields : GType → List (String × GType)
  | .mk _ _ _ _ f => f

/-- The predefined singleton types (Go zero values for the unset fields:
empty name, array size 0, no element type, no fields). -/
def TypeVoid : GType := .mk .void "" 0 none []
def TypeBool : GType := .mk .bool "" 0 none []
def TypeInt : GType := .mk .int "" 0 none []
def TypeUint : GType := .mk .uint "" 0 none []
def TypeFloat : GType := .mk .float "" 0 none []
def TypeVec2 : GType := .mk .vec2 "" 0 none []
def TypeVec3 : GType := .mk .vec3 "" 0 none []
def TypeVec4 : GType := .mk .vec4 "" 0 none []
def TypeBvec2 : GType := .mk .bvec2 "" 0 none []
def TypeBvec3 : GType := .mk .bvec3 "" 0 none []
def TypeBvec4 : GType := .mk .bvec4 "" 0 none []
def TypeIvec2 : GType := .mk .ivec2 "" 0 none []
def TypeIvec3 : GType := .mk .ivec3 "" 0 none []
def TypeIvec4 : GType := .mk .ivec4 "" 0 none []
def TypeUvec2 : GType := .mk .uvec2 "" 0 none []
def TypeUvec3 : GType := .mk .uvec3 "" 0 none []
def TypeUvec4 : GType := .mk .uvec4 "" 0 none []
def TypeMat2 : GType := .mk .mat2 "" 0 none []
def TypeMat3 : GType := .mk .mat3 "" 0 none []
def TypeMat4 : GType := .mk .mat4 "" 0 none []
def TypeError : GType := .mk .error "" 0 none []
def TypeSampler2D : GType := .mk .sampler2D "" 0 none []
def TypeSampler2DArray : GType := .mk .sampler2DArray "" 0 none []
def TypeSampler3D : GType := .mk .sampler3D "" 0 none []
def TypeSamplerCube : GType := .mk .samplerCube "" 0 none []
def TypeSamplerCubeArray : GType := .mk .samplerCubeArray "" 0 none []
def TypeSamplerExternalOES : GType := .mk .samplerExternalOES "" 0 none []
def TypeIsampler2D : GType := .mk .isampler2D "" 0 none []
def TypeIsampler2DArray : GType := .mk .isampler2DArray "" 0 none []
def TypeIsampler3D : GType := .mk .isampler3D "" 0 none []
def TypeUsampler2D : GType := .mk .usampler2D "" 0 none []
def TypeUsampler2DArray : GType := .mk .usampler2DArray "" 0 none []
def TypeUsampler3D : GType := .mk .usampler3D "" 0 none []

/-- `Type.String` for the non-recursive kinds; `typeString` below adds the
struct/array cases. -/
def kindString : TypeKind → String
  | .void => "void"
  | .bool => "bool"
  | .int => "int"
  | .uint => "uint"
  | .float => "float"
  | .vec2 => "vec2"
  | .vec3 => "vec3"
  | .vec4 => "vec4"
  | .bvec2 => "bvec2"
  | .bvec3 => "bvec3"
  | .bvec4 => "bvec4"
  | .ivec2 => "ivec2"
  | .ivec3 => "ivec3"
  | .ivec4 => "ivec4"
  | .uvec2 => "uvec2"
  | .uvec3 => "uvec3"
  | .uvec4 => "uvec4"
  | .mat2 => "mat2"
  | .mat3 => "mat3"
  | .mat4 => "mat4"
  | .sampler2D => "sampler2D"
  | .sampler2DArray => "sampler2DArray"
  | .sampler3D => "sampler3D"
  | .samplerCube => "samplerCube"
  | .samplerCubeArray => "samplerCubeArray"
  | .samplerExternalOES => "samplerExternalOES"
  | .isampler2D => "isampler2D"
  | .isampler2DArray => "isampler2DArray"
  | .isampler3D => "isampler3D"
  | .usampler2D => "usampler2D"
  | .usampler2DArray => "usampler2DArray"
  | .usampler3D => "usampler3D"
  | .struct => ""
  | .array => ""
  | .error => "error"

mutual

/-- `Type.String`: the printed form used in diagnostics. A `nil` receiver
prints `error`. -/
def typeString (t : GType) : String :=
  match t with
  | .mk .struct n _ _ _ => n
  | .mk .array _ asz et _ =>
    if asz < 0 then typeStringOpt et ++ "[]"
    else typeStringOpt et ++ "[" ++ toString asz ++ "]"
  | .mk k _ _ _ _ => kindString k

def typeStringOpt (t : Option GType) : String :=
  match t with
  | none => "error"
  | some t' => typeString t'

end

mutual

/-- `Type.Equals`. -/
def GType.equals : GType → GType → Bool
  | .mk k n asz et _, .mk k2 n2 asz2 et2 _ =>
    if k ≠ k2 then false
    else if k = .struct then n = n2
    else if k = .array then decide (asz = asz2) && GType.equalsOpt et et2
    else true

/-- `Type.Equals` on possibly-`nil` pointers (both `nil` compare equal). -/
def GType.equalsOpt : Option GType → Option GType → Bool
  | none, none => true
  | some a, some b => GType.equals a b
  | _, _ => false

end

/-- `Type.IsScalar`. -/
def GType.isScalar (t : GType) : Bool :=
  match t.kind with
  | .bool | .int | .uint | .float => true
  | _ => false

/-- `Type.IsVector`. -/
def GType.isVector (t : GType) : Bool :=
  match t.kind with
  | .vec2 | .vec3 | .vec4 | .bvec2 | .bvec3 | .bvec4
  | .ivec2 | .ivec3 | .ivec4 | .uvec2 | .uvec3 | .uvec4 => true
  | _ => false

/-- `Type.IsMatrix`. -/
def GType.isMatrix (t : GType) : Bool :=
  match t.kind with
  | .mat2 | .mat3 | .mat4 => true
  | _ => false

/-- `Type.IsNumeric`. -/
def GType.isNumeric (t : GType) : Bool :=
  match t.kind with
  | .int | .uint | .float => true
  | _ => false

/-- `Type.IsInteger`. -/
def GType.isInteger (t : GType) : Bool :=
  match t.kind with
  | .int | .uint => true
  | _ => false

/-- `Type.VectorSize`: components of a vector type, 0 otherwise. -/
def GType.vectorSize (t : GType) : Nat :=
  match t.kind with
  | .vec2 | .bvec2 | .ivec2 | .uvec2 => 2
  | .vec3 | .bvec3 | .ivec3 | .uvec3 => 3
  | .vec4 | .bvec4 | .ivec4 | .uvec4 => 4
  | _ => 0

/-- `Type.MatrixSize`. -/
def GType.matrixSize (t : GType) : Nat :=
  match t.kind with
  | .mat2 => 2
  | .mat3 => 3
  | .mat4 => 4
  | _ => 0

/-- `Type.ComponentType`: the scalar component of a vector or matrix
(`nil` — `none` — otherwise). -/
def GType.componentType (t : GType) : Option GType :=
  match t.kind with
  | .vec2 | .vec3 | .vec4 => some TypeFloat
  | .bvec2 | .bvec3 | .bvec4 => some TypeBool
  | .ivec2 | .ivec3 | .ivec4 => some TypeInt
  | .uvec2 | .uvec3 | .uvec4 => some TypeUint
  | .mat2 | .mat3 | .mat4 => some TypeFloat
  | _ => none

/-- `TypeFromName`: the built-in type for a name, `none` for anything else
(a struct name, or an unknown). -/
def TypeFromName (name : String) : Option GType :=
  if name = "void" then some TypeVoid
  else if name = "bool" then some TypeBool
  else if name = "int" then some TypeInt
  else if name = "uint" then some TypeUint
  else if name = "float" then some TypeFloat
  else if name = "vec2" then some TypeVec2
  else if name = "vec3" then some TypeVec3
  else if name = "vec4" then some TypeVec4
  else if name = "bvec2" then some TypeBvec2
  else if name = "bvec3" then some TypeBvec3
  else if name = "bvec4" then some TypeBvec4
  else if name = "ivec2" then some TypeIvec2
  else if name = "ivec3" then some TypeIvec3
  else if name = "ivec4" then some TypeIvec4
  else if name = "uvec2" then some TypeUvec2
  else if name = "uvec3" then some TypeUvec3
  else if name = "uvec4" then some TypeUvec4
  else if name = "mat2" then some TypeMat2
  else if name = "mat3" then some TypeMat3
  else if name = "mat4" then some TypeMat4
  else if name = "sampler2D" then some TypeSampler2D
  else if name = "sampler2DArray" then some TypeSampler2DArray
  else if name = "sampler3D" then some TypeSampler3D
  else if name = "samplerCube" then some TypeSamplerCube
  else if name = "samplerCubeArray" then some TypeSamplerCubeArray
  else if name = "samplerExternalOES" then some TypeSamplerExternalOES
  else if name = "isampler2D" then some TypeIsampler2D
  else if name = "isampler2DArray" then some TypeIsampler2DArray
  else if name = "isampler3D" then some TypeIsampler3D
  else if name = "usampler2D" then some TypeUsampler2D
  else if name = "usampler2DArray" then some TypeUsampler2DArray
  else if name = "usampler3D" then some TypeUsampler3D
  else none

/-- `MakeArrayType`. -/
def MakeArrayType (elemType : GType) (size : Int) : GType :=
  .mk .array "" size (some elemType) []

/-- `MakeStructType`. -/
def MakeStructType (name : String) (fields : List (String × GType)) : GType :=
  .mk .struct name 0 none fields

/-- `VectorTypeForSize`. -/
def VectorTypeForSize (componentType : GType) (size : Nat) : GType :=
  match componentType.kind with
  | .float =>
    if size = 2 then TypeVec2 else if size = 3 then TypeVec3
    else if size = 4 then TypeVec4 else TypeError
  | .int =>
    if size = 2 then TypeIvec2 else if size = 3 then TypeIvec3
    else if size = 4 then TypeIvec4 else TypeError
  | .uint =>
    if size = 2 then TypeUvec2 else if size = 3 then TypeUvec3
    else if size = 4 then TypeUvec4 else TypeError
  | .bool =>
    if size = 2 then TypeBvec2 else if size = 3 then TypeBvec3
    else if size = 4 then TypeBvec4 else TypeError
  | _ => TypeError

/-- `CanImplicitlyConvert` on non-`nil` types (the `nil` guard lives in
`canImplicitlyConvertOpt`). -/
def CanImplicitlyConvert (srcType dstType : GType) : Bool :=
  if srcType.equals dstType then true
  else if srcType.kind = .int ∧ dstType.kind = .float then true
  else if srcType.kind = .uint ∧ dstType.kind = .float then true
  else if srcType.kind = .int ∧ dstType.kind = .uint then true
  else if srcType.kind = .ivec2 ∧ dstType.kind = .vec2 then true
  else if srcType.kind = .ivec3 ∧ dstType.kind = .vec3 then true
  else if srcType.kind = .ivec4 ∧ dstType.kind = .vec4 then true
  else if srcType.kind = .uvec2 ∧ dstType.kind = .vec2 then true
  else if srcType.kind = .uvec3 ∧ dstType.kind = .vec3 then true
  else if srcType.kind = .uvec4 ∧ dstType.kind = .vec4 then true
  else false

/-- `CanImplicitlyConvert`'s leading `nil` guard. -/
def canImplicitlyConvertOpt (srcType dstType : Option GType) : Bool :=
  match srcType, dstType with
  | some s, some d => CanImplicitlyConvert s d
  | _, _ => false

theorem GType.componentType_vectorSize (t c : GType) (h : t.componentType = some c) :
    c.vectorSize = 0 := by
  unfold GType.componentType at h
  split at h <;> simp_all <;> subst h <;> decide

theorem GType.isVector_vectorSize (t : GType) (h : t.isVector = true) :
    0 < t.vectorSize := by
  unfold GType.isVector at h
  unfold GType.vectorSize
  split at h <;> simp_all

/-- `CommonType`: the join for arithmetic, `none` where the source returns
`nil` (incompatible operands). Recursion happens only once, on the scalar
component types of two vectors. -/
def CommonType (left right : GType) : Option GType :=
  if left.equals right then some left
  else if left.isNumeric ∧ right.isNumeric then
    if left.kind = .float ∨ right.kind = .float then some TypeFloat
    else if left.kind = .uint ∨ right.kind = .uint then some TypeUint
    else some TypeInt
  else if left.isVector ∧ right.isScalar ∧ canImplicitlyConvertOpt (some right) left.componentType then
    some left
  else if right.isVector ∧ left.isScalar ∧ canImplicitlyConvertOpt (some left) right.componentType then
    some right
  else if hv : left.isVector ∧ right.isVector ∧ left.vectorSize = right.vectorSize then
    match hc : left.componentType, right.componentType with
    | some leftComp, some rightComp =>
      match CommonType leftComp rightComp with
      | some commonComp => some (VectorTypeForSize commonComp left.vectorSize)
      | none => none
    | _, _ => none
  else none
termination_by left.vectorSize
decreasing_by
  have h1 := GType.componentType_vectorSize left leftComp hc
  have h2 := GType.isVector_vectorSize left hv.1
  omega

/-- `ValidSwizzleChars`: the component index of a swizzle character. -/
def ValidSwizzleChars (c : Char) : Option Nat :=
  if c = 'x' ∨ c = 'r' ∨ c = 's' then some 0
  else if c = 'y' ∨ c = 'g' ∨ c = 't' then some 1
  else if c = 'z' ∨ c = 'b' ∨ c = 'p' then some 2
  else if c = 'w' ∨ c = 'a' ∨ c = 'q' then some 3
  else none

/-- `SwizzleSet`: which set a character belongs to (0 = xyzw, 1 = rgba,
2 = stpq; the Go map yields the zero value 0 for other keys). -/
def SwizzleSet (c : Char) : Nat :=
  if c = 'x' ∨ c = 'y' ∨ c = 'z' ∨ c = 'w' then 0
  else if c = 'r' ∨ c = 'g' ∨ c = 'b' ∨ c = 'a' then 1
  else if c = 's' ∨ c = 't' ∨ c = 'p' ∨ c = 'q' then 2
  else 0

/-- The character loop of `ValidateSwizzle`: check each character is a
valid index for the vector size and that no two sets are mixed.
`seenSet` starts at `-1`. -/
def validateSwizzleChars (vectorType : GType) (vecSize : Nat) :
    List Char → Int → Except String Unit
  | [], _ => .ok ()
  | ch :: rest, seenSet =>
    match ValidSwizzleChars ch with
    | none => .error ("invalid swizzle character '" ++ String.singleton ch ++ "'")
    | some idx =>
      let set : Int := SwizzleSet ch
      if seenSet = -1 then
        if idx ≥ vecSize then
          .error ("swizzle component '" ++ String.singleton ch ++ "' invalid for " ++
            typeString vectorType)
        else validateSwizzleChars vectorType vecSize rest set
      else if set ≠ seenSet then
        .error "cannot mix swizzle sets (xyzw, rgba, stpq)"
      else if idx ≥ vecSize then
        .error ("swizzle component '" ++ String.singleton ch ++ "' invalid for " ++
          typeString vectorType)
      else validateSwizzleChars vectorType vecSize rest seenSet

/-- `ValidateSwizzle`: `(*Type, error)` embedded as `Except`. The
length-1 result is the component type, never `nil` for a vector
receiver. -/
def ValidateSwizzle (vectorType : GType) (swizzle : String) : Except String GType :=
  if ¬ vectorType.isVector then
    .error "swizzle can only be applied to vector types"
  else
    let vecSize := vectorType.vectorSize
    if swizzle.length = 0 ∨ swizzle.length > 4 then
      .error "swizzle must have 1-4 components"
    else
      match validateSwizzleChars vectorType vecSize swizzle.toList (-1) with
      | .error e => .error e
      | .ok () =>
        let compType := (vectorType.componentType).getD TypeError
        if swizzle.length = 1 then .ok compType
        else .ok (VectorTypeForSize compType swizzle.length)

/-- `BinaryOpResultType`: the result type of a binary operation. `none` is
the source's `nil` result (via `CommonType`); explicit failures are
`some TypeError`. The source's leading `nil`-operand guard also yields
`TypeError`. -/
def BinaryOpResultType (op : TokenType) (left right : GType) : Option GType :=
  if left.kind = .error ∨ right.kind = .error then some TypeError
  else
    match op with
    | .lt | .lte | .gt | .gte =>
      if left.isNumeric ∧ right.isNumeric then some TypeBool
      else if left.isVector ∧ right.isVector ∧ left.vectorSize = right.vectorSize then
        some (VectorTypeForSize TypeBool left.vectorSize)
      else some TypeError
    | .eq | .ne =>
      if left.equals right ∨ CanImplicitlyConvert left right ∨ CanImplicitlyConvert right left then
        if left.isVector then some (VectorTypeForSize TypeBool left.vectorSize)
        else some TypeBool
      else some TypeError
    | .and | .or =>
      if left.kind = .bool ∧ right.kind = .bool then some TypeBool else some TypeError
    | .ampersand | .pipe | .caret | .leftShift | .rightShift =>
      if left.isInteger ∧ right.isInteger then CommonType left right
      else if left.kind = .ivec2 ∧ (right.kind = .ivec2 ∨ right.kind = .int) then some TypeIvec2
      else if left.kind = .ivec3 ∧ (right.kind = .ivec3 ∨ right.kind = .int) then some TypeIvec3
      else if left.kind = .ivec4 ∧ (right.kind = .ivec4 ∨ right.kind = .int) then some TypeIvec4
      else if left.kind = .uvec2 ∧ (right.kind = .uvec2 ∨ right.kind = .uint) then some TypeUvec2
      else if left.kind = .uvec3 ∧ (right.kind = .uvec3 ∨ right.kind = .uint) then some TypeUvec3
      else if left.kind = .uvec4 ∧ (right.kind = .uvec4 ∨ right.kind = .uint) then some TypeUvec4
      else some TypeError
    | .plus | .minus | .star | .slash =>
      if left.isMatrix ∧ right.isVector ∧ left.matrixSize = right.vectorSize then some right
      else if left.isVector ∧ right.isMatrix ∧ right.matrixSize = left.vectorSize then some left
      else if left.isMatrix ∧ right.isMatrix ∧ left.matrixSize = right.matrixSize then some left
      else if left.isMatrix ∧ right.isScalar ∧ right.kind = .float then some left
      else if right.isMatrix ∧ left.isScalar ∧ left.kind = .float then some right
      else CommonType left right
    | .percent =>
      if left.isInteger ∧ right.isInteger then CommonType left right else some TypeError
    | _ => some TypeError

/-- `UnaryOpResultType`. -/
def UnaryOpResultType (op : TokenType) (operand : GType) : GType :=
  if operand.kind = .error then TypeError
  else
    match op with
    | .minus =>
      if operand.isNumeric ∨ operand.isVector ∨ operand.isMatrix then operand else TypeError
    | .bang =>
      if operand.kind = .bool then TypeBool
      else if operand.kind = .bvec2 ∨ operand.kind = .bvec3 ∨ operand.kind = .bvec4 then operand
      else TypeError
    | .tilde =>
      if operand.isInteger then operand
      else
        match operand.kind with
        | .ivec2 | .ivec3 | .ivec4 | .uvec2 | .uvec3 | .uvec4 => operand
        | _ => TypeError
    | .increment | .decrement =>
      if operand.isNumeric then operand
      else if operand.isVector then
        match operand.componentType with
        | some compType => if compType.isNumeric then operand else TypeError
        | none => TypeError
      else TypeError
    | _ => TypeError

/-- `IndexResultType`: `none` is the source's `nil` element type of an
array (never built by `MakeArrayType`). -/
def IndexResultType (baseType : GType) : Option GType :=
  match baseType.kind with
  | .array => baseType.elementType
  | .vec2 | .vec3 | .vec4 => some TypeFloat
  | .ivec2 | .ivec3 | .ivec4 => some TypeInt
  | .uvec2 | .uvec3 | .uvec4 => some TypeUint
  | .bvec2 | .bvec3 | .bvec4 => some TypeBool
  | .mat2 => some TypeVec2
  | .mat3 => some TypeVec3
  | .mat4 => some TypeVec4
  | _ => some TypeError

/-- `IsBuiltinTypeName`. -/
def IsBuiltinTypeName (name : String) : Bool :=
  (TypeFromName name).isSome

/-- `operatorToTokenType` (from the analyzer file). -/
def operatorToTokenType (op : String) : TokenType :=
  if op = "+" then .plus
  else if op = "-" then .minus
  else if op = "*" then .star
  else if op = "/" then .slash
  else if op = "%" then .percent
  else if op = "&" then .ampersand
  else if op = "|" then .pipe
  else if op = "^" then .caret
  else if op = "<" then .lt
  else if op = ">" then .gt
  else if op = "<=" then .lte
  else if op = ">=" then .gte
  else if op = "==" then .eq
  else if op = "!=" then .ne
  else if op = "&&" then .and
  else if op = "||" then .or
  else if op = "<<" then .leftShift
  else if op = ">>" then .rightShift
  else if op = "=" then .assign
  else if op = "+=" then .plusAssign
  else if op = "-=" then .minusAssign
  else if op = "*=" then .starAssign
  else if op = "/=" then .slashAssign
  else if op = "%=" then .percentAssign
  else if op = "&=" then .ampAssign
  else if op = "|=" then .pipeAssign
  else if op = "^=" then .caretAssign
  else if op = "<<=" then .leftShiftAssign
  else if op = ">>=" then .rightShiftAssign
  else if op = "!" then .bang
  else if op = "~" then .tilde
  else if op = "++" then .increment
  else if op = "--" then .decrement
  else .error

/-- `isAssignOp`. -/
def isAssignOp (op : TokenType) : Bool :=
  match op with
  | .assign | .plusAssign | .minusAssign | .starAssign | .slashAssign
  | .percentAssign | .ampAssign | .pipeAssign | .caretAssign
  | .leftShiftAssign | .rightShiftAssign => true
  | _ => false

/-- `compoundToOp`. -/
def compoundToOp (op : TokenType) : TokenType :=
  match op with
  | .plusAssign => .plus
  | .minusAssign => .minus
  | .starAssign => .star
  | .slashAssign => .slash
  | .percentAssign => .percent
  | .ampAssign => .ampersand
  | .pipeAssign => .pipe
  | .caretAssign => .caret
  | .leftShiftAssign => .leftShift
  | .rightShiftAssign => .rightShift
  | _ => op

/-- A GDShader source position (`ast.go`; no byte offset). -/
structure Position where
  line : Nat
  column : Nat
deriving DecidableEq, Repr

/-- A GDShader source range; `stop` embeds the Go field `End`. -/
structure Range where
  start : Position
  stop : Position
deriving DecidableEq, Repr

def Range.zero : Range := ⟨⟨0, 0⟩, ⟨0, 0⟩⟩

/-- GDShader expressions (`ast.go`): `literal` carries its kind
(`int`/`float`/`bool`) and source text; `member` is also a swizzle;
`isPre` embeds the Go field `Prefix`. -/
inductive Expr where
  | literal (range : Range) (kind : String) (value : String)
  | ident (range : Range) (name : String)
  | binary (range : Range) (left : Expr) (operator : String) (right : Expr)
  | unary (range : Range) (operator : String) (operand : Expr) (isPre : Bool)
  | ternary (range : Range) (cond : Expr) (thenE : Expr) (elseE : Expr)
  | call (range : Range) (fn : Expr) (args : List Expr)
  | index (range : Range) (expr : Expr) (idx : Expr)
  | member (range : Range) (expr : Expr) (memberName : String)
  | array (range : Range) (elements : List Expr)
deriving Repr

/-- `GetRange` on expressions. -/
def Expr.getRange : Expr → Range
  | .literal r _ _ => r
  | .ident r _ => r
  | .binary r _ _ _ => r
  | .unary r _ _ _ => r
  | .ternary r _ _ _ => r
  | .call r _ _ => r
  | .index r _ _ => r
  | .member r _ _ => r
  | .array r _ => r

/-- `TypeSpec`. -/
structure TypeSpec where
  range : Range
  precision : String
  name : String
  arraySize : Option Expr
deriving Repr

/-- `SymbolKind` (`variable` is a Lean keyword: `var`). -/
inductive SymbolKind where
  | var
  | constant
  | uniform
  | varying
  | function
  | struct
  | parameter
  | builtinVariable
  | builtinFunction
deriving DecidableEq, Repr

mutual

/-- `Symbol`: a named entry of a scope. -/
inductive Symbol where
  | mk (name : String) (type : GType) (kind : SymbolKind) (range : Range)
      (constant readOnly writeOnly : Bool) (qualifiers : List String)
      (function : Option FunctionSymbol)

/-- `FunctionSymbol`. -/
inductive FunctionSymbol where
  | mk (params : List Symbol) (returnType : GType) (isBuiltin : Bool)

end

def Symbol.name : Symbol → String
  | .mk n _ _ _ _ _ _ _ _ => n

def Symbol.type : Symbol → GType
  | .mk _ t _ _ _ _ _ _ _ => t

def Symbol.kind : Symbol → SymbolKind
  | .mk _ _ k _ _ _ _ _ _ => k

def Symbol.range : Symbol → Range
  | .mk _ _ _ r _ _ _ _ _ => r

def Symbol.constant : Symbol → Bool
  | .mk _ _ _ _ c _ _ _ _ => c

def Symbol.readOnly : Symbol → Bool
  | .mk _ _ _ _ _ r _ _ _ => r

def Symbol.writeOnly : Symbol → Bool
  | .mk _ _ _ _ _ _ w _ _ => w

def Symbol.qualifiers : Symbol → List String
  | .mk _ _ _ _ _ _ _ q _ => q

def Symbol.function : Symbol → Option FunctionSymbol
  | .mk _ _ _ _ _ _ _ _ f => f

def FunctionSymbol.params : FunctionSymbol → List Symbol
  | .mk p _ _ => p

def FunctionSymbol.returnType : FunctionSymbol → GType
  | .mk _ r _ => r

/-- Build a `Symbol` the way Go composite literals do: unset fields take
zero values. -/
def mkSymbol (name : String) (type : GType) (kind : SymbolKind)
    (range : Range := Range.zero) (constant : Bool := false)
    (readOnly : Bool := false) (writeOnly : Bool := false)
    (qualifiers : List String := []) (function : Option FunctionSymbol := none) : Symbol :=
  .mk name type kind range constant readOnly writeOnly qualifiers function

/-- A scope's table (`Scope.symbols`), as an association list; inserts are
guarded against duplicates, so lookup agrees with the Go map. -/
abbrev ScopeFrame := List (String × Symbol)

/-- The scope chain `currentScope -> ... -> globalScope`, innermost
first. -/
abbrev Scopes := List ScopeFrame

/-- `Scope.define` on one frame: an error when the name exists, naming the
prior line. -/
def frameDefine (frame : ScopeFrame) (sym : Symbol) : Except String ScopeFrame :=
  match frame.find? (fun p => p.1 = sym.name) with
  | some existing =>
    .error ("symbol '" ++ sym.name ++ "' already defined at line " ++
      toString (existing.2.range.start.line + 1))
  | none => .ok (frame ++ [(sym.name, sym)])

/-- `Scope.define` on the innermost frame of the chain (no-op on an empty
chain, which the analyzer never has). -/
def scopesDefine (scopes : Scopes) (sym : Symbol) : Except String Scopes :=
  match scopes with
  | [] => .ok []
  | f :: rest =>
    match frameDefine f sym with
    | .error e => .error e
    | .ok f1 => .ok (f1 :: rest)

/-- `Scope.lookup`: the innermost match wins. -/
def scopesLookup : Scopes → String → Option Symbol
  | [], _ => none
  | f :: rest, n =>
    match f.find? (fun p => p.1 = n) with
    | some p => some p.2
    | none => scopesLookup rest n

/-- Association-list lookup standing in for a Go map read. -/
def mapLookup {α : Type} (m : List (String × α)) (k : String) : Option α :=
  (m.find? (fun p => p.1 = k)).map (fun p => p.2)

/-- `FunctionSig` (`builtins.go`): `ret` embeds the Go field `Return`. -/
structure FunctionSig where
  params : List String
  ret : String
deriving DecidableEq, Repr

/-- `BuiltinFunction`. -/
structure BuiltinFunction where
  name : String
  description : String
  signatures : List FunctionSig
deriving DecidableEq, Repr

/-- `BuiltinVariable`. -/
structure BuiltinVariable where
  name : String
  type : String
  description : String
  stage : String
  readWrite : String
deriving DecidableEq, Repr

/-- `BuiltinConstant`. -/
structure BuiltinConstant where
  name : String
  type : String
  description : String
  value : String
deriving DecidableEq, Repr
set_option maxHeartbeats 2000000 in
/-- `BuiltinFunctions` (`internal/gdshader/builtins.go`), as an association list. -/
def BuiltinFunctions : List (String × BuiltinFunction) := [
  ("radians", ⟨"radians", "Converts degrees to radians",
    [⟨["float"], "float"⟩,
     ⟨["vec2"], "vec2"⟩,
     ⟨["vec3"], "vec3"⟩,
     ⟨["vec4"], "vec4"⟩]⟩),
  ("degrees", ⟨"degrees", "Converts radians to degrees",
    [⟨["float"], "float"⟩,
     ⟨["vec2"], "vec2"⟩,
     ⟨["vec3"], "vec3"⟩,
     ⟨["vec4"], "vec4"⟩]⟩),
  ("sin", ⟨"sin", "Returns the sine of the angle",
    [⟨["float"], "float"⟩,
     ⟨["vec2"], "vec2"⟩,
     ⟨["vec3"], "vec3"⟩,
     ⟨["vec4"], "vec4"⟩]⟩),
  ("cos", ⟨"cos", "Returns the cosine of the angle",
    [⟨["float"], "float"⟩,
     ⟨["vec2"], "vec2"⟩,
     ⟨["vec3"], "vec3"⟩,
     ⟨["vec4"], "vec4"⟩]⟩),
  ("tan", ⟨"tan", "Returns the tangent of the angle",
    [⟨["float"], "float"⟩,
     ⟨["vec2"], "vec2"⟩,
     ⟨["vec3"], "vec3"⟩,
     ⟨["vec4"], "vec4"⟩]⟩),
  ("asin", ⟨"asin", "Returns the arc-sine of the parameter",
    [⟨["float"], "float"⟩,
     ⟨["vec2"], "vec2"⟩,
     ⟨["vec3"], "vec3"⟩,
     ⟨["vec4"], "vec4"⟩]⟩),
  ("acos", ⟨"acos", "Returns the arc-cosine of the parameter",
    [⟨["float"], "float"⟩,
     ⟨["vec2"], "vec2"⟩,
     ⟨["vec3"], "vec3"⟩,
     ⟨["vec4"], "vec4"⟩]⟩),
  ("atan", ⟨"atan", "Returns the arc-tangent of the parameter(s)",
    [⟨["float"], "float"⟩,
     ⟨["float", "float"], "float"⟩,
     ⟨["vec2"], "vec2"⟩,
     ⟨["vec3"], "vec3"⟩,
     ⟨["vec4"], "vec4"⟩]⟩),
  ("sinh", ⟨"sinh", "Returns the hyperbolic sine",
    [⟨["float"], "float"⟩,
     ⟨["vec2"], "vec2"⟩,
     ⟨["vec3"], "vec3"⟩,
     ⟨["vec4"], "vec4"⟩]⟩),
  ("cosh", ⟨"cosh", "Returns the hyperbolic cosine",
    [⟨["float"], "float"⟩,
     ⟨["vec2"], "vec2"⟩,
     ⟨["vec3"], "vec3"⟩,
     ⟨["vec4"], "vec4"⟩]⟩),
  ("tanh", ⟨"tanh", "Returns the hyperbolic tangent",
    [⟨["float"], "float"⟩,
     ⟨["vec2"], "vec2"⟩,
     ⟨["vec3"], "vec3"⟩,
     ⟨["vec4"], "vec4"⟩]⟩),
  ("asinh", ⟨"asinh", "Returns the inverse hyperbolic sine",
    [⟨["float"], "float"⟩,
     ⟨["vec2"], "vec2"⟩,
     ⟨["vec3"], "vec3"⟩,
     ⟨["vec4"], "vec4"⟩]⟩),
  ("acosh", ⟨"acosh", "Returns the inverse hyperbolic cosine",
    [⟨["float"], "float"⟩,
     ⟨["vec2"], "vec2"⟩,
     ⟨["vec3"], "vec3"⟩,
     ⟨["vec4"], "vec4"⟩]⟩),
  ("atanh", ⟨"atanh", "Returns the inverse hyperbolic tangent",
    [⟨["float"], "float"⟩,
     ⟨["vec2"], "vec2"⟩,
     ⟨["vec3"], "vec3"⟩,
     ⟨["vec4"], "vec4"⟩]⟩),
  ("pow", ⟨"pow", "Returns x raised to the power of y",
    [⟨["float", "float"], "float"⟩,
     ⟨["vec2", "vec2"], "vec2"⟩,
     ⟨["vec3", "vec3"], "vec3"⟩,
     ⟨["vec4", "vec4"], "vec4"⟩]⟩),
  ("exp", ⟨"exp", "Returns e raised to the power of x",
    [⟨["float"], "float"⟩,
     ⟨["vec2"], "vec2"⟩,
     ⟨["vec3"], "vec3"⟩,
     ⟨["vec4"], "vec4"⟩]⟩),
  ("exp2", ⟨"exp2", "Returns 2 raised to the power of x",
    [⟨["float"], "float"⟩,
     ⟨["vec2"], "vec2"⟩,
     ⟨["vec3"], "vec3"⟩,
     ⟨["vec4"], "vec4"⟩]⟩),
  ("log", ⟨"log", "Returns the natural logarithm",
    [⟨["float"], "float"⟩,
     ⟨["vec2"], "vec2"⟩,
     ⟨["vec3"], "vec3"⟩,
     ⟨["vec4"], "vec4"⟩]⟩),
  ("log2", ⟨"log2", "Returns the base-2 logarithm",
    [⟨["float"], "float"⟩,
     ⟨["vec2"], "vec2"⟩,
     ⟨["vec3"], "vec3"⟩,
     ⟨["vec4"], "vec4"⟩]⟩),
  ("sqrt", ⟨"sqrt", "Returns the square root",
    [⟨["float"], "float"⟩,
     ⟨["vec2"], "vec2"⟩,
     ⟨["vec3"], "vec3"⟩,
     ⟨["vec4"], "vec4"⟩]⟩),
  ("inversesqrt", ⟨"inversesqrt", "Returns the inverse square root",
    [⟨["float"], "float"⟩,
     ⟨["vec2"], "vec2"⟩,
     ⟨["vec3"], "vec3"⟩,
     ⟨["vec4"], "vec4"⟩]⟩),
  ("abs", ⟨"abs", "Returns the absolute value",
    [⟨["float"], "float"⟩,
     ⟨["vec2"], "vec2"⟩,
     ⟨["vec3"], "vec3"⟩,
     ⟨["vec4"], "vec4"⟩,
     ⟨["int"], "int"⟩,
     ⟨["ivec2"], "ivec2"⟩,
     ⟨["ivec3"], "ivec3"⟩,
     ⟨["ivec4"], "ivec4"⟩]⟩),
  ("sign", ⟨"sign", "Returns the sign of the value (-1, 0, or 1)",
    [⟨["float"], "float"⟩,
     ⟨["vec2"], "vec2"⟩,
     ⟨["vec3"], "vec3"⟩,
     ⟨["vec4"], "vec4"⟩,
     ⟨["int"], "int"⟩,
     ⟨["ivec2"], "ivec2"⟩,
     ⟨["ivec3"], "ivec3"⟩,
     ⟨["ivec4"], "ivec4"⟩]⟩),
  ("floor", ⟨"floor", "Returns the largest integer less than or equal to x",
    [⟨["float"], "float"⟩,
     ⟨["vec2"], "vec2"⟩,
     ⟨["vec3"], "vec3"⟩,
     ⟨["vec4"], "vec4"⟩]⟩),
  ("ceil", ⟨"ceil", "Returns the smallest integer greater than or equal to x",
    [⟨["float"], "float"⟩,
     ⟨["vec2"], "vec2"⟩,
     ⟨["vec3"], "vec3"⟩,
     ⟨["vec4"], "vec4"⟩]⟩),
  ("round", ⟨"round", "Returns the nearest integer",
    [⟨["float"], "float"⟩,
     ⟨["vec2"], "vec2"⟩,
     ⟨["vec3"], "vec3"⟩,
     ⟨["vec4"], "vec4"⟩]⟩),
  ("roundEven", ⟨"roundEven", "Returns the nearest even integer",
    [⟨["float"], "float"⟩,
     ⟨["vec2"], "vec2"⟩,
     ⟨["vec3"], "vec3"⟩,
     ⟨["vec4"], "vec4"⟩]⟩),
  ("trunc", ⟨"trunc", "Returns the integer part of x",
    [⟨["float"], "float"⟩,
     ⟨["vec2"], "vec2"⟩,
     ⟨["vec3"], "vec3"⟩,
     ⟨["vec4"], "vec4"⟩]⟩),
  ("fract", ⟨"fract", "Returns the fractional part of x",
    [⟨["float"], "float"⟩,
     ⟨["vec2"], "vec2"⟩,
     ⟨["vec3"], "vec3"⟩,
     ⟨["vec4"], "vec4"⟩]⟩),
  ("mod", ⟨"mod", "Returns x modulo y",
    [⟨["float", "float"], "float"⟩,
     ⟨["vec2", "float"], "vec2"⟩,
     ⟨["vec2", "vec2"], "vec2"⟩,
     ⟨["vec3", "float"], "vec3"⟩,
     ⟨["vec3", "vec3"], "vec3"⟩,
     ⟨["vec4", "float"], "vec4"⟩,
     ⟨["vec4", "vec4"], "vec4"⟩]⟩),
  ("min", ⟨"min", "Returns the minimum of two values",
    [⟨["float", "float"], "float"⟩,
     ⟨["vec2", "vec2"], "vec2"⟩,
     ⟨["vec2", "float"], "vec2"⟩,
     ⟨["vec3", "vec3"], "vec3"⟩,
     ⟨["vec3", "float"], "vec3"⟩,
     ⟨["vec4", "vec4"], "vec4"⟩,
     ⟨["vec4", "float"], "vec4"⟩,
     ⟨["int", "int"], "int"⟩,
     ⟨["uint", "uint"], "uint"⟩]⟩),
  ("max", ⟨"max", "Returns the maximum of two values",
    [⟨["float", "float"], "float"⟩,
     ⟨["vec2", "vec2"], "vec2"⟩,
     ⟨["vec2", "float"], "vec2"⟩,
     ⟨["vec3", "vec3"], "vec3"⟩,
     ⟨["vec3", "float"], "vec3"⟩,
     ⟨["vec4", "vec4"], "vec4"⟩,
     ⟨["vec4", "float"], "vec4"⟩,
     ⟨["int", "int"], "int"⟩,
     ⟨["uint", "uint"], "uint"⟩]⟩),
  ("clamp", ⟨"clamp", "Clamps x to the range [minVal, maxVal]",
    [⟨["float", "float", "float"], "float"⟩,
     ⟨["vec2", "vec2", "vec2"], "vec2"⟩,
     ⟨["vec2", "float", "float"], "vec2"⟩,
     ⟨["vec3", "vec3", "vec3"], "vec3"⟩,
     ⟨["vec3", "float", "float"], "vec3"⟩,
     ⟨["vec4", "vec4", "vec4"], "vec4"⟩,
     ⟨["vec4", "float", "float"], "vec4"⟩,
     ⟨["int", "int", "int"], "int"⟩,
     ⟨["uint", "uint", "uint"], "uint"⟩]⟩),
  ("mix", ⟨"mix", "Linearly interpolates between x and y",
    [⟨["float", "float", "float"], "float"⟩,
     ⟨["vec2", "vec2", "float"], "vec2"⟩,
     ⟨["vec2", "vec2", "vec2"], "vec2"⟩,
     ⟨["vec3", "vec3", "float"], "vec3"⟩,
     ⟨["vec3", "vec3", "vec3"], "vec3"⟩,
     ⟨["vec4", "vec4", "float"], "vec4"⟩,
     ⟨["vec4", "vec4", "vec4"], "vec4"⟩]⟩),
  ("step", ⟨"step", "Returns 0.0 if x < edge, otherwise 1.0",
    [⟨["float", "float"], "float"⟩,
     ⟨["float", "vec2"], "vec2"⟩,
     ⟨["float", "vec3"], "vec3"⟩,
     ⟨["float", "vec4"], "vec4"⟩,
     ⟨["vec2", "vec2"], "vec2"⟩,
     ⟨["vec3", "vec3"], "vec3"⟩,
     ⟨["vec4", "vec4"], "vec4"⟩]⟩),
  ("smoothstep", ⟨"smoothstep", "Performs smooth Hermite interpolation",
    [⟨["float", "float", "float"], "float"⟩,
     ⟨["float", "float", "vec2"], "vec2"⟩,
     ⟨["float", "float", "vec3"], "vec3"⟩,
     ⟨["float", "float", "vec4"], "vec4"⟩,
     ⟨["vec2", "vec2", "vec2"], "vec2"⟩,
     ⟨["vec3", "vec3", "vec3"], "vec3"⟩,
     ⟨["vec4", "vec4", "vec4"], "vec4"⟩]⟩),
  ("length", ⟨"length", "Returns the length of a vector",
    [⟨["float"], "float"⟩,
     ⟨["vec2"], "float"⟩,
     ⟨["vec3"], "float"⟩,
     ⟨["vec4"], "float"⟩]⟩),
  ("distance", ⟨"distance", "Returns the distance between two points",
    [⟨["float", "float"], "float"⟩,
     ⟨["vec2", "vec2"], "float"⟩,
     ⟨["vec3", "vec3"], "float"⟩,
     ⟨["vec4", "vec4"], "float"⟩]⟩),
  ("dot", ⟨"dot", "Returns the dot product of two vectors",
    [⟨["float", "float"], "float"⟩,
     ⟨["vec2", "vec2"], "float"⟩,
     ⟨["vec3", "vec3"], "float"⟩,
     ⟨["vec4", "vec4"], "float"⟩]⟩),
  ("cross", ⟨"cross", "Returns the cross product of two vectors",
    [⟨["vec3", "vec3"], "vec3"⟩]⟩),
  ("normalize", ⟨"normalize", "Returns a normalized vector",
    [⟨["float"], "float"⟩,
     ⟨["vec2"], "vec2"⟩,
     ⟨["vec3"], "vec3"⟩,
     ⟨["vec4"], "vec4"⟩]⟩),
  ("reflect", ⟨"reflect", "Reflects a vector about a normal",
    [⟨["float", "float"], "float"⟩,
     ⟨["vec2", "vec2"], "vec2"⟩,
     ⟨["vec3", "vec3"], "vec3"⟩,
     ⟨["vec4", "vec4"], "vec4"⟩]⟩),
  ("refract", ⟨"refract", "Refracts a vector through a surface",
    [⟨["float", "float", "float"], "float"⟩,
     ⟨["vec2", "vec2", "float"], "vec2"⟩,
     ⟨["vec3", "vec3", "float"], "vec3"⟩,
     ⟨["vec4", "vec4", "float"], "vec4"⟩]⟩),
  ("faceforward", ⟨"faceforward", "Returns N if dot(Nref, I) < 0, otherwise -N",
    [⟨["float", "float", "float"], "float"⟩,
     ⟨["vec2", "vec2", "vec2"], "vec2"⟩,
     ⟨["vec3", "vec3", "vec3"], "vec3"⟩,
     ⟨["vec4", "vec4", "vec4"], "vec4"⟩]⟩),
  ("matrixCompMult", ⟨"matrixCompMult", "Component-wise matrix multiplication",
    [⟨["mat2", "mat2"], "mat2"⟩,
     ⟨["mat3", "mat3"], "mat3"⟩,
     ⟨["mat4", "mat4"], "mat4"⟩]⟩),
  ("transpose", ⟨"transpose", "Returns the transpose of a matrix",
    [⟨["mat2"], "mat2"⟩,
     ⟨["mat3"], "mat3"⟩,
     ⟨["mat4"], "mat4"⟩]⟩),
  ("inverse", ⟨"inverse", "Returns the inverse of a matrix",
    [⟨["mat2"], "mat2"⟩,
     ⟨["mat3"], "mat3"⟩,
     ⟨["mat4"], "mat4"⟩]⟩),
  ("determinant", ⟨"determinant", "Returns the determinant of a matrix",
    [⟨["mat2"], "float"⟩,
     ⟨["mat3"], "float"⟩,
     ⟨["mat4"], "float"⟩]⟩),
  ("outerProduct", ⟨"outerProduct", "Returns the outer product of two vectors",
    [⟨["vec2", "vec2"], "mat2"⟩,
     ⟨["vec3", "vec3"], "mat3"⟩,
     ⟨["vec4", "vec4"], "mat4"⟩]⟩),
  ("texture", ⟨"texture", "Samples a texture",
    [⟨["sampler2D", "vec2"], "vec4"⟩,
     ⟨["sampler2D", "vec2", "float"], "vec4"⟩,
     ⟨["sampler2DArray", "vec3"], "vec4"⟩,
     ⟨["sampler3D", "vec3"], "vec4"⟩,
     ⟨["samplerCube", "vec3"], "vec4"⟩]⟩),
  ("textureSize", ⟨"textureSize", "Returns the size of a texture",
    [⟨["sampler2D", "int"], "ivec2"⟩,
     ⟨["sampler2DArray", "int"], "ivec3"⟩,
     ⟨["sampler3D", "int"], "ivec3"⟩,
     ⟨["samplerCube", "int"], "ivec2"⟩]⟩),
  ("textureLod", ⟨"textureLod", "Samples a texture with explicit LOD",
    [⟨["sampler2D", "vec2", "float"], "vec4"⟩,
     ⟨["sampler2DArray", "vec3", "float"], "vec4"⟩,
     ⟨["sampler3D", "vec3", "float"], "vec4"⟩,
     ⟨["samplerCube", "vec3", "float"], "vec4"⟩]⟩),
  ("textureProj", ⟨"textureProj", "Samples a texture with projection",
    [⟨["sampler2D", "vec3"], "vec4"⟩,
     ⟨["sampler2D", "vec4"], "vec4"⟩]⟩),
  ("texelFetch", ⟨"texelFetch", "Fetches a single texel",
    [⟨["sampler2D", "ivec2", "int"], "vec4"⟩,
     ⟨["sampler2DArray", "ivec3", "int"], "vec4"⟩,
     ⟨["sampler3D", "ivec3", "int"], "vec4"⟩]⟩),
  ("textureGrad", ⟨"textureGrad", "Samples a texture with explicit gradients",
    [⟨["sampler2D", "vec2", "vec2", "vec2"], "vec4"⟩,
     ⟨["sampler3D", "vec3", "vec3", "vec3"], "vec4"⟩,
     ⟨["samplerCube", "vec3", "vec3", "vec3"], "vec4"⟩]⟩),
  ("dFdx", ⟨"dFdx", "Returns the partial derivative with respect to x",
    [⟨["float"], "float"⟩,
     ⟨["vec2"], "vec2"⟩,
     ⟨["vec3"], "vec3"⟩,
     ⟨["vec4"], "vec4"⟩]⟩),
  ("dFdy", ⟨"dFdy", "Returns the partial derivative with respect to y",
    [⟨["float"], "float"⟩,
     ⟨["vec2"], "vec2"⟩,
     ⟨["vec3"], "vec3"⟩,
     ⟨["vec4"], "vec4"⟩]⟩),
  ("fwidth", ⟨"fwidth", "Returns abs(dFdx) + abs(dFdy)",
    [⟨["float"], "float"⟩,
     ⟨["vec2"], "vec2"⟩,
     ⟨["vec3"], "vec3"⟩,
     ⟨["vec4"], "vec4"⟩]⟩),
  ("lessThan", ⟨"lessThan", "Component-wise less than comparison",
    [⟨["vec2", "vec2"], "bvec2"⟩,
     ⟨["vec3", "vec3"], "bvec3"⟩,
     ⟨["vec4", "vec4"], "bvec4"⟩,
     ⟨["ivec2", "ivec2"], "bvec2"⟩,
     ⟨["ivec3", "ivec3"], "bvec3"⟩,
     ⟨["ivec4", "ivec4"], "bvec4"⟩]⟩),
  ("greaterThan", ⟨"greaterThan", "Component-wise greater than comparison",
    [⟨["vec2", "vec2"], "bvec2"⟩,
     ⟨["vec3", "vec3"], "bvec3"⟩,
     ⟨["vec4", "vec4"], "bvec4"⟩,
     ⟨["ivec2", "ivec2"], "bvec2"⟩,
     ⟨["ivec3", "ivec3"], "bvec3"⟩,
     ⟨["ivec4", "ivec4"], "bvec4"⟩]⟩),
  ("equal", ⟨"equal", "Component-wise equality comparison",
    [⟨["vec2", "vec2"], "bvec2"⟩,
     ⟨["vec3", "vec3"], "bvec3"⟩,
     ⟨["vec4", "vec4"], "bvec4"⟩,
     ⟨["ivec2", "ivec2"], "bvec2"⟩,
     ⟨["ivec3", "ivec3"], "bvec3"⟩,
     ⟨["ivec4", "ivec4"], "bvec4"⟩,
     ⟨["bvec2", "bvec2"], "bvec2"⟩,
     ⟨["bvec3", "bvec3"], "bvec3"⟩,
     ⟨["bvec4", "bvec4"], "bvec4"⟩]⟩),
  ("notEqual", ⟨"notEqual", "Component-wise inequality comparison",
    [⟨["vec2", "vec2"], "bvec2"⟩,
     ⟨["vec3", "vec3"], "bvec3"⟩,
     ⟨["vec4", "vec4"], "bvec4"⟩,
     ⟨["ivec2", "ivec2"], "bvec2"⟩,
     ⟨["ivec3", "ivec3"], "bvec3"⟩,
     ⟨["ivec4", "ivec4"], "bvec4"⟩,
     ⟨["bvec2", "bvec2"], "bvec2"⟩,
     ⟨["bvec3", "bvec3"], "bvec3"⟩,
     ⟨["bvec4", "bvec4"], "bvec4"⟩]⟩),
  ("any", ⟨"any", "Returns true if any component is true",
    [⟨["bvec2"], "bool"⟩,
     ⟨["bvec3"], "bool"⟩,
     ⟨["bvec4"], "bool"⟩]⟩),
  ("all", ⟨"all", "Returns true if all components are true",
    [⟨["bvec2"], "bool"⟩,
     ⟨["bvec3"], "bool"⟩,
     ⟨["bvec4"], "bool"⟩]⟩),
  ("not", ⟨"not", "Component-wise logical NOT",
    [⟨["bvec2"], "bvec2"⟩,
     ⟨["bvec3"], "bvec3"⟩,
     ⟨["bvec4"], "bvec4"⟩]⟩),
  ("floatBitsToInt", ⟨"floatBitsToInt", "Reinterprets float bits as int",
    [⟨["float"], "int"⟩,
     ⟨["vec2"], "ivec2"⟩,
     ⟨["vec3"], "ivec3"⟩,
     ⟨["vec4"], "ivec4"⟩]⟩),
  ("floatBitsToUint", ⟨"floatBitsToUint", "Reinterprets float bits as uint",
    [⟨["float"], "uint"⟩,
     ⟨["vec2"], "uvec2"⟩,
     ⟨["vec3"], "uvec3"⟩,
     ⟨["vec4"], "uvec4"⟩]⟩),
  ("intBitsToFloat", ⟨"intBitsToFloat", "Reinterprets int bits as float",
    [⟨["int"], "float"⟩,
     ⟨["ivec2"], "vec2"⟩,
     ⟨["ivec3"], "vec3"⟩,
     ⟨["ivec4"], "vec4"⟩]⟩),
  ("uintBitsToFloat", ⟨"uintBitsToFloat", "Reinterprets uint bits as float",
    [⟨["uint"], "float"⟩,
     ⟨["uvec2"], "vec2"⟩,
     ⟨["uvec3"], "vec3"⟩,
     ⟨["uvec4"], "vec4"⟩]⟩),
  ("packHalf2x16", ⟨"packHalf2x16", "Packs two floats into a uint",
    [⟨["vec2"], "uint"⟩]⟩),
  ("unpackHalf2x16", ⟨"unpackHalf2x16", "Unpacks a uint into two floats",
    [⟨["uint"], "vec2"⟩]⟩),
  ("packUnorm2x16", ⟨"packUnorm2x16", "Packs two normalized floats into a uint",
    [⟨["vec2"], "uint"⟩]⟩),
  ("unpackUnorm2x16", ⟨"unpackUnorm2x16", "Unpacks a uint into two normalized floats",
    [⟨["uint"], "vec2"⟩]⟩),
  ("packSnorm2x16", ⟨"packSnorm2x16", "Packs two signed normalized floats into a uint",
    [⟨["vec2"], "uint"⟩]⟩),
  ("unpackSnorm2x16", ⟨"unpackSnorm2x16", "Unpacks a uint into two signed normalized floats",
    [⟨["uint"], "vec2"⟩]⟩)]

/-- `BuiltinConstants`: `PI`, `TAU`, `E`. -/
def BuiltinConstants : List (String × BuiltinConstant) := [
  ("PI", ⟨"PI", "float", "The mathematical constant pi (3.14159...)", "3.14159265358979323846"⟩),
  ("TAU", ⟨"TAU", "float", "The mathematical constant tau (2 * pi)", "6.28318530717958647692"⟩),
  ("E", ⟨"E", "float", "Euler's number (2.71828...)", "2.71828182845904523536"⟩)]

/-- `GetSpatialVertexBuiltins`, as an association list. -/
def GetSpatialVertexBuiltins : List (String × BuiltinVariable) := [
  ("VERTEX", ⟨"VERTEX", "vec3", "Vertex position in local space", "vertex", "inout"⟩),
  ("NORMAL", ⟨"NORMAL", "vec3", "Vertex normal in local space", "vertex", "inout"⟩),
  ("TANGENT", ⟨"TANGENT", "vec3", "Vertex tangent in local space", "vertex", "inout"⟩),
  ("BINORMAL", ⟨"BINORMAL", "vec3", "Vertex binormal in local space", "vertex", "inout"⟩),
  ("UV", ⟨"UV", "vec2", "Primary UV coordinates", "vertex", "inout"⟩),
  ("UV2", ⟨"UV2", "vec2", "Secondary UV coordinates", "vertex", "inout"⟩),
  ("COLOR", ⟨"COLOR", "vec4", "Vertex color", "vertex", "inout"⟩),
  ("POINT_SIZE", ⟨"POINT_SIZE", "float", "Point size for point rendering", "vertex", "inout"⟩),
  ("INSTANCE_ID", ⟨"INSTANCE_ID", "int", "Instance ID for instanced rendering", "vertex", "in"⟩),
  ("VERTEX_ID", ⟨"VERTEX_ID", "int", "Vertex ID", "vertex", "in"⟩),
  ("INSTANCE_CUSTOM", ⟨"INSTANCE_CUSTOM", "vec4", "Instance custom data", "vertex", "in"⟩),
  ("MODEL_MATRIX", ⟨"MODEL_MATRIX", "mat4", "Model matrix (world transform)", "vertex", "in"⟩),
  ("MODEL_NORMAL_MATRIX", ⟨"MODEL_NORMAL_MATRIX", "mat3", "Normal matrix", "vertex", "in"⟩),
  ("VIEW_MATRIX", ⟨"VIEW_MATRIX", "mat4", "View matrix", "vertex", "in"⟩),
  ("INV_VIEW_MATRIX", ⟨"INV_VIEW_MATRIX", "mat4", "Inverse view matrix", "vertex", "in"⟩),
  ("PROJECTION_MATRIX", ⟨"PROJECTION_MATRIX", "mat4", "Projection matrix", "vertex", "inout"⟩),
  ("INV_PROJECTION_MATRIX", ⟨"INV_PROJECTION_MATRIX", "mat4", "Inverse projection matrix", "vertex", "in"⟩),
  ("MODELVIEW_MATRIX", ⟨"MODELVIEW_MATRIX", "mat4", "Model-view matrix", "vertex", "in"⟩),
  ("MODELVIEW_NORMAL_MATRIX", ⟨"MODELVIEW_NORMAL_MATRIX", "mat3", "Model-view normal matrix", "vertex", "in"⟩),
  ("VIEWPORT_SIZE", ⟨"VIEWPORT_SIZE", "vec2", "Viewport size in pixels", "vertex", "in"⟩),
  ("OUTPUT_IS_SRGB", ⟨"OUTPUT_IS_SRGB", "bool", "True if output is sRGB", "vertex", "in"⟩),
  ("NODE_POSITION_WORLD", ⟨"NODE_POSITION_WORLD", "vec3", "Node position in world space", "vertex", "in"⟩),
  ("CAMERA_POSITION_WORLD", ⟨"CAMERA_POSITION_WORLD", "vec3", "Camera position in world space", "vertex", "in"⟩),
  ("CAMERA_DIRECTION_WORLD", ⟨"CAMERA_DIRECTION_WORLD", "vec3", "Camera direction in world space", "vertex", "in"⟩),
  ("CAMERA_VISIBLE_LAYERS", ⟨"CAMERA_VISIBLE_LAYERS", "uint", "Camera visible layers bitmask", "vertex", "in"⟩),
  ("POSITION", ⟨"POSITION", "vec4", "Output position in clip space", "vertex", "out"⟩),
  ("TIME", ⟨"TIME", "float", "Time since start", "vertex", "in"⟩)]

/-- `GetSpatialFragmentBuiltins`, as an association list. -/
def GetSpatialFragmentBuiltins : List (String × BuiltinVariable) := [
  ("VERTEX", ⟨"VERTEX", "vec3", "Vertex position in view space", "fragment", "in"⟩),
  ("FRAGCOORD", ⟨"FRAGCOORD", "vec4", "Fragment coordinates", "fragment", "in"⟩),
  ("FRONT_FACING", ⟨"FRONT_FACING", "bool", "True if front face", "fragment", "in"⟩),
  ("NORMAL", ⟨"NORMAL", "vec3", "Normal in view space", "fragment", "inout"⟩),
  ("TANGENT", ⟨"TANGENT", "vec3", "Tangent in view space", "fragment", "in"⟩),
  ("BINORMAL", ⟨"BINORMAL", "vec3", "Binormal in view space", "fragment", "in"⟩),
  ("UV", ⟨"UV", "vec2", "Primary UV coordinates", "fragment", "in"⟩),
  ("UV2", ⟨"UV2", "vec2", "Secondary UV coordinates", "fragment", "in"⟩),
  ("COLOR", ⟨"COLOR", "vec4", "Vertex color", "fragment", "in"⟩),
  ("ALBEDO", ⟨"ALBEDO", "vec3", "Albedo color", "fragment", "out"⟩),
  ("ALPHA", ⟨"ALPHA", "float", "Alpha value", "fragment", "out"⟩),
  ("METALLIC", ⟨"METALLIC", "float", "Metallic value", "fragment", "out"⟩),
  ("ROUGHNESS", ⟨"ROUGHNESS", "float", "Roughness value", "fragment", "out"⟩),
  ("SPECULAR", ⟨"SPECULAR", "float", "Specular value", "fragment", "out"⟩),
  ("RIM", ⟨"RIM", "float", "Rim lighting intensity", "fragment", "out"⟩),
  ("RIM_TINT", ⟨"RIM_TINT", "float", "Rim tint", "fragment", "out"⟩),
  ("CLEARCOAT", ⟨"CLEARCOAT", "float", "Clearcoat intensity", "fragment", "out"⟩),
  ("CLEARCOAT_ROUGHNESS", ⟨"CLEARCOAT_ROUGHNESS", "float", "Clearcoat roughness", "fragment", "out"⟩),
  ("ANISOTROPY", ⟨"ANISOTROPY", "float", "Anisotropy intensity", "fragment", "out"⟩),
  ("ANISOTROPY_FLOW", ⟨"ANISOTROPY_FLOW", "vec2", "Anisotropy flow direction", "fragment", "out"⟩),
  ("SSS_STRENGTH", ⟨"SSS_STRENGTH", "float", "Subsurface scattering strength", "fragment", "out"⟩),
  ("SSS_TRANSMITTANCE_COLOR", ⟨"SSS_TRANSMITTANCE_COLOR", "vec4", "SSS transmittance color", "fragment", "out"⟩),
  ("SSS_TRANSMITTANCE_DEPTH", ⟨"SSS_TRANSMITTANCE_DEPTH", "float", "SSS transmittance depth", "fragment", "out"⟩),
  ("SSS_TRANSMITTANCE_BOOST", ⟨"SSS_TRANSMITTANCE_BOOST", "float", "SSS transmittance boost", "fragment", "out"⟩),
  ("BACKLIGHT", ⟨"BACKLIGHT", "vec3", "Backlight color", "fragment", "out"⟩),
  ("AO", ⟨"AO", "float", "Ambient occlusion", "fragment", "out"⟩),
  ("AO_LIGHT_AFFECT", ⟨"AO_LIGHT_AFFECT", "float", "AO light affect", "fragment", "out"⟩),
  ("EMISSION", ⟨"EMISSION", "vec3", "Emission color", "fragment", "out"⟩),
  ("NORMAL_MAP", ⟨"NORMAL_MAP", "vec3", "Normal map", "fragment", "out"⟩),
  ("NORMAL_MAP_DEPTH", ⟨"NORMAL_MAP_DEPTH", "float", "Normal map depth", "fragment", "out"⟩),
  ("ALPHA_SCISSOR_THRESHOLD", ⟨"ALPHA_SCISSOR_THRESHOLD", "float", "Alpha scissor threshold", "fragment", "out"⟩),
  ("ALPHA_HASH_SCALE", ⟨"ALPHA_HASH_SCALE", "float", "Alpha hash scale", "fragment", "out"⟩),
  ("ALPHA_ANTIALIASING_EDGE", ⟨"ALPHA_ANTIALIASING_EDGE", "float", "Alpha antialiasing edge", "fragment", "out"⟩),
  ("ALPHA_TEXTURE_COORDINATE", ⟨"ALPHA_TEXTURE_COORDINATE", "vec2", "Alpha texture coordinate", "fragment", "out"⟩),
  ("FOG", ⟨"FOG", "vec4", "Fog color and density", "fragment", "out"⟩),
  ("MODEL_MATRIX", ⟨"MODEL_MATRIX", "mat4", "Model matrix", "fragment", "in"⟩),
  ("MODEL_NORMAL_MATRIX", ⟨"MODEL_NORMAL_MATRIX", "mat3", "Model normal matrix", "fragment", "in"⟩),
  ("VIEW_MATRIX", ⟨"VIEW_MATRIX", "mat4", "View matrix", "fragment", "in"⟩),
  ("INV_VIEW_MATRIX", ⟨"INV_VIEW_MATRIX", "mat4", "Inverse view matrix", "fragment", "in"⟩),
  ("PROJECTION_MATRIX", ⟨"PROJECTION_MATRIX", "mat4", "Projection matrix", "fragment", "in"⟩),
  ("INV_PROJECTION_MATRIX", ⟨"INV_PROJECTION_MATRIX", "mat4", "Inverse projection matrix", "fragment", "in"⟩),
  ("VIEWPORT_SIZE", ⟨"VIEWPORT_SIZE", "vec2", "Viewport size", "fragment", "in"⟩),
  ("NODE_POSITION_WORLD", ⟨"NODE_POSITION_WORLD", "vec3", "Node world position", "fragment", "in"⟩),
  ("CAMERA_POSITION_WORLD", ⟨"CAMERA_POSITION_WORLD", "vec3", "Camera world position", "fragment", "in"⟩),
  ("CAMERA_DIRECTION_WORLD", ⟨"CAMERA_DIRECTION_WORLD", "vec3", "Camera world direction", "fragment", "in"⟩),
  ("CAMERA_VISIBLE_LAYERS", ⟨"CAMERA_VISIBLE_LAYERS", "uint", "Camera visible layers", "fragment", "in"⟩),
  ("VIEW", ⟨"VIEW", "vec3", "View direction", "fragment", "in"⟩),
  ("TIME", ⟨"TIME", "float", "Time since start", "fragment", "in"⟩),
  ("SCREEN_UV", ⟨"SCREEN_UV", "vec2", "Screen UV coordinates", "fragment", "in"⟩),
  ("SCREEN_PIXEL_SIZE", ⟨"SCREEN_PIXEL_SIZE", "vec2", "Screen pixel size", "fragment", "in"⟩),
  ("DEPTH", ⟨"DEPTH", "float", "Output depth", "fragment", "out"⟩)]

/-- `GetSpatialLightBuiltins`, as an association list. -/
def GetSpatialLightBuiltins : List (String × BuiltinVariable) := [
  ("ALBEDO", ⟨"ALBEDO", "vec3", "Albedo from fragment", "light", "in"⟩),
  ("ROUGHNESS", ⟨"ROUGHNESS", "float", "Roughness from fragment", "light", "in"⟩),
  ("METALLIC", ⟨"METALLIC", "float", "Metallic from fragment", "light", "in"⟩),
  ("SPECULAR", ⟨"SPECULAR", "float", "Specular from fragment", "light", "in"⟩),
  ("BACKLIGHT", ⟨"BACKLIGHT", "vec3", "Backlight from fragment", "light", "in"⟩),
  ("AO", ⟨"AO", "float", "AO from fragment", "light", "in"⟩),
  ("LIGHT", ⟨"LIGHT", "vec3", "Light direction", "light", "in"⟩),
  ("LIGHT_COLOR", ⟨"LIGHT_COLOR", "vec3", "Light color", "light", "in"⟩),
  ("ATTENUATION", ⟨"ATTENUATION", "float", "Light attenuation", "light", "in"⟩),
  ("SHADOW_ATTENUATION", ⟨"SHADOW_ATTENUATION", "vec3", "Shadow attenuation", "light", "in"⟩),
  ("LIGHT_IS_DIRECTIONAL", ⟨"LIGHT_IS_DIRECTIONAL", "bool", "Is directional light", "light", "in"⟩),
  ("VIEW", ⟨"VIEW", "vec3", "View direction", "light", "in"⟩),
  ("NORMAL", ⟨"NORMAL", "vec3", "Normal in view space", "light", "in"⟩),
  ("DIFFUSE_LIGHT", ⟨"DIFFUSE_LIGHT", "vec3", "Diffuse light output", "light", "out"⟩),
  ("SPECULAR_LIGHT", ⟨"SPECULAR_LIGHT", "vec3", "Specular light output", "light", "out"⟩),
  ("ALPHA", ⟨"ALPHA", "float", "Alpha output", "light", "out"⟩)]

/-- `GetCanvasItemVertexBuiltins`, as an association list. -/
def GetCanvasItemVertexBuiltins : List (String × BuiltinVariable) := [
  ("VERTEX", ⟨"VERTEX", "vec2", "Vertex position", "vertex", "inout"⟩),
  ("UV", ⟨"UV", "vec2", "UV coordinates", "vertex", "inout"⟩),
  ("COLOR", ⟨"COLOR", "vec4", "Vertex color", "vertex", "inout"⟩),
  ("POINT_SIZE", ⟨"POINT_SIZE", "float", "Point size", "vertex", "inout"⟩),
  ("MODEL_MATRIX", ⟨"MODEL_MATRIX", "mat4", "Model matrix", "vertex", "in"⟩),
  ("CANVAS_MATRIX", ⟨"CANVAS_MATRIX", "mat4", "Canvas matrix", "vertex", "in"⟩),
  ("SCREEN_MATRIX", ⟨"SCREEN_MATRIX", "mat4", "Screen matrix", "vertex", "in"⟩),
  ("INSTANCE_CUSTOM", ⟨"INSTANCE_CUSTOM", "vec4", "Instance custom data", "vertex", "in"⟩),
  ("INSTANCE_ID", ⟨"INSTANCE_ID", "int", "Instance ID", "vertex", "in"⟩),
  ("VERTEX_ID", ⟨"VERTEX_ID", "int", "Vertex ID", "vertex", "in"⟩),
  ("AT_LIGHT_PASS", ⟨"AT_LIGHT_PASS", "bool", "Is light pass", "vertex", "in"⟩),
  ("TEXTURE_PIXEL_SIZE", ⟨"TEXTURE_PIXEL_SIZE", "vec2", "Texture pixel size", "vertex", "in"⟩),
  ("TIME", ⟨"TIME", "float", "Time", "vertex", "in"⟩)]

/-- `GetCanvasItemFragmentBuiltins`, as an association list. -/
def GetCanvasItemFragmentBuiltins : List (String × BuiltinVariable) := [
  ("FRAGCOORD", ⟨"FRAGCOORD", "vec4", "Fragment coordinates", "fragment", "in"⟩),
  ("UV", ⟨"UV", "vec2", "UV coordinates", "fragment", "in"⟩),
  ("COLOR", ⟨"COLOR", "vec4", "Color output", "fragment", "inout"⟩),
  ("NORMAL", ⟨"NORMAL", "vec3", "Normal for 2D lighting", "fragment", "out"⟩),
  ("NORMAL_MAP", ⟨"NORMAL_MAP", "vec3", "Normal map", "fragment", "out"⟩),
  ("NORMAL_MAP_DEPTH", ⟨"NORMAL_MAP_DEPTH", "float", "Normal map depth", "fragment", "out"⟩),
  ("TEXTURE", ⟨"TEXTURE", "sampler2D", "Main texture", "fragment", "in"⟩),
  ("TEXTURE_PIXEL_SIZE", ⟨"TEXTURE_PIXEL_SIZE", "vec2", "Texture pixel size", "fragment", "in"⟩),
  ("SCREEN_UV", ⟨"SCREEN_UV", "vec2", "Screen UV", "fragment", "in"⟩),
  ("SCREEN_PIXEL_SIZE", ⟨"SCREEN_PIXEL_SIZE", "vec2", "Screen pixel size", "fragment", "in"⟩),
  ("POINT_COORD", ⟨"POINT_COORD", "vec2", "Point coordinate", "fragment", "in"⟩),
  ("AT_LIGHT_PASS", ⟨"AT_LIGHT_PASS", "bool", "Is light pass", "fragment", "in"⟩),
  ("TIME", ⟨"TIME", "float", "Time", "fragment", "in"⟩),
  ("SPECULAR_SHININESS", ⟨"SPECULAR_SHININESS", "vec4", "Specular shininess", "fragment", "in"⟩),
  ("VERTEX", ⟨"VERTEX", "vec2", "Vertex position", "fragment", "in"⟩)]

/-- `GetCanvasItemLightBuiltins`, as an association list. -/
def GetCanvasItemLightBuiltins : List (String × BuiltinVariable) := [
  ("FRAGCOORD", ⟨"FRAGCOORD", "vec4", "Fragment coordinates", "light", "in"⟩),
  ("NORMAL", ⟨"NORMAL", "vec3", "Normal", "light", "in"⟩),
  ("COLOR", ⟨"COLOR", "vec4", "Color from fragment", "light", "in"⟩),
  ("UV", ⟨"UV", "vec2", "UV coordinates", "light", "in"⟩),
  ("SPECULAR_SHININESS", ⟨"SPECULAR_SHININESS", "vec4", "Specular shininess", "light", "in"⟩),
  ("LIGHT_COLOR", ⟨"LIGHT_COLOR", "vec4", "Light color", "light", "in"⟩),
  ("LIGHT_POSITION", ⟨"LIGHT_POSITION", "vec3", "Light position", "light", "in"⟩),
  ("LIGHT_DIRECTION", ⟨"LIGHT_DIRECTION", "vec3", "Light direction", "light", "in"⟩),
  ("LIGHT_IS_DIRECTIONAL", ⟨"LIGHT_IS_DIRECTIONAL", "bool", "Is directional light", "light", "in"⟩),
  ("LIGHT_ENERGY", ⟨"LIGHT_ENERGY", "float", "Light energy", "light", "in"⟩),
  ("LIGHT_VERTEX", ⟨"LIGHT_VERTEX", "vec3", "Light vertex", "light", "in"⟩),
  ("LIGHT", ⟨"LIGHT", "vec4", "Light output", "light", "out"⟩),
  ("SHADOW_MODULATE", ⟨"SHADOW_MODULATE", "vec4", "Shadow modulate", "light", "in"⟩),
  ("SCREEN_UV", ⟨"SCREEN_UV", "vec2", "Screen UV", "light", "in"⟩),
  ("TEXTURE", ⟨"TEXTURE", "sampler2D", "Main texture", "light", "in"⟩),
  ("TEXTURE_PIXEL_SIZE", ⟨"TEXTURE_PIXEL_SIZE", "vec2", "Texture pixel size", "light", "in"⟩),
  ("POINT_COORD", ⟨"POINT_COORD", "vec2", "Point coordinate", "light", "in"⟩),
  ("TIME", ⟨"TIME", "float", "Time", "light", "in"⟩)]

/-- `GetParticlesBuiltins`, as an association list. -/
def GetParticlesBuiltins : List (String × BuiltinVariable) := [
  ("COLOR", ⟨"COLOR", "vec4", "Particle color", "start", "inout"⟩),
  ("VELOCITY", ⟨"VELOCITY", "vec3", "Particle velocity", "start", "inout"⟩),
  ("MASS", ⟨"MASS", "float", "Particle mass", "start", "inout"⟩),
  ("ACTIVE", ⟨"ACTIVE", "bool", "Is particle active", "start", "inout"⟩),
  ("RESTART", ⟨"RESTART", "bool", "Restart flag", "start", "in"⟩),
  ("CUSTOM", ⟨"CUSTOM", "vec4", "Custom data", "start", "inout"⟩),
  ("TRANSFORM", ⟨"TRANSFORM", "mat4", "Particle transform", "start", "inout"⟩),
  ("LIFETIME", ⟨"LIFETIME", "float", "Particle lifetime", "start", "in"⟩),
  ("DELTA", ⟨"DELTA", "float", "Delta time", "start", "in"⟩),
  ("NUMBER", ⟨"NUMBER", "uint", "Particle number", "start", "in"⟩),
  ("INDEX", ⟨"INDEX", "int", "Particle index", "start", "in"⟩),
  ("EMISSION_TRANSFORM", ⟨"EMISSION_TRANSFORM", "mat4", "Emission transform", "start", "in"⟩),
  ("RANDOM_SEED", ⟨"RANDOM_SEED", "uint", "Random seed", "start", "in"⟩),
  ("TIME", ⟨"TIME", "float", "Time", "start", "in"⟩),
  ("INTERPOLATE_TO_END", ⟨"INTERPOLATE_TO_END", "float", "Interpolation to end", "start", "in"⟩),
  ("AMOUNT_RATIO", ⟨"AMOUNT_RATIO", "float", "Amount ratio", "start", "in"⟩)]

/-- `GetSkyBuiltins`, as an association list. -/
def GetSkyBuiltins : List (String × BuiltinVariable) := [
  ("RADIANCE", ⟨"RADIANCE", "vec3", "Radiance output", "sky", "out"⟩),
  ("IRRADIANCE", ⟨"IRRADIANCE", "vec3", "Irradiance output", "sky", "out"⟩),
  ("FOG", ⟨"FOG", "vec4", "Fog output", "sky", "out"⟩),
  ("AT_CUBEMAP_PASS", ⟨"AT_CUBEMAP_PASS", "bool", "Is cubemap pass", "sky", "in"⟩),
  ("AT_HALF_RES_PASS", ⟨"AT_HALF_RES_PASS", "bool", "Is half res pass", "sky", "in"⟩),
  ("AT_QUARTER_RES_PASS", ⟨"AT_QUARTER_RES_PASS", "bool", "Is quarter res pass", "sky", "in"⟩),
  ("EYEDIR", ⟨"EYEDIR", "vec3", "Eye direction", "sky", "in"⟩),
  ("HALF_RES_COLOR", ⟨"HALF_RES_COLOR", "vec4", "Half res color", "sky", "in"⟩),
  ("QUARTER_RES_COLOR", ⟨"QUARTER_RES_COLOR", "vec4", "Quarter res color", "sky", "in"⟩),
  ("SCREEN_UV", ⟨"SCREEN_UV", "vec2", "Screen UV", "sky", "in"⟩),
  ("SKY_COORDS", ⟨"SKY_COORDS", "vec2", "Sky coordinates", "sky", "in"⟩),
  ("TIME", ⟨"TIME", "float", "Time", "sky", "in"⟩),
  ("POSITION", ⟨"POSITION", "vec3", "World position", "sky", "in"⟩),
  ("LIGHT0_ENABLED", ⟨"LIGHT0_ENABLED", "bool", "Light 0 enabled", "sky", "in"⟩),
  ("LIGHT0_DIRECTION", ⟨"LIGHT0_DIRECTION", "vec3", "Light 0 direction", "sky", "in"⟩),
  ("LIGHT0_ENERGY", ⟨"LIGHT0_ENERGY", "float", "Light 0 energy", "sky", "in"⟩),
  ("LIGHT0_COLOR", ⟨"LIGHT0_COLOR", "vec3", "Light 0 color", "sky", "in"⟩),
  ("LIGHT0_SIZE", ⟨"LIGHT0_SIZE", "float", "Light 0 size", "sky", "in"⟩),
  ("LIGHT1_ENABLED", ⟨"LIGHT1_ENABLED", "bool", "Light 1 enabled", "sky", "in"⟩),
  ("LIGHT1_DIRECTION", ⟨"LIGHT1_DIRECTION", "vec3", "Light 1 direction", "sky", "in"⟩),
  ("LIGHT1_ENERGY", ⟨"LIGHT1_ENERGY", "float", "Light 1 energy", "sky", "in"⟩),
  ("LIGHT1_COLOR", ⟨"LIGHT1_COLOR", "vec3", "Light 1 color", "sky", "in"⟩),
  ("LIGHT1_SIZE", ⟨"LIGHT1_SIZE", "float", "Light 1 size", "sky", "in"⟩),
  ("LIGHT2_ENABLED", ⟨"LIGHT2_ENABLED", "bool", "Light 2 enabled", "sky", "in"⟩),
  ("LIGHT2_DIRECTION", ⟨"LIGHT2_DIRECTION", "vec3", "Light 2 direction", "sky", "in"⟩),
  ("LIGHT2_ENERGY", ⟨"LIGHT2_ENERGY", "float", "Light 2 energy", "sky", "in"⟩),
  ("LIGHT2_COLOR", ⟨"LIGHT2_COLOR", "vec3", "Light 2 color", "sky", "in"⟩),
  ("LIGHT2_SIZE", ⟨"LIGHT2_SIZE", "float", "Light 2 size", "sky", "in"⟩),
  ("LIGHT3_ENABLED", ⟨"LIGHT3_ENABLED", "bool", "Light 3 enabled", "sky", "in"⟩),
  ("LIGHT3_DIRECTION", ⟨"LIGHT3_DIRECTION", "vec3", "Light 3 direction", "sky", "in"⟩),
  ("LIGHT3_ENERGY", ⟨"LIGHT3_ENERGY", "float", "Light 3 energy", "sky", "in"⟩),
  ("LIGHT3_COLOR", ⟨"LIGHT3_COLOR", "vec3", "Light 3 color", "sky", "in"⟩),
  ("LIGHT3_SIZE", ⟨"LIGHT3_SIZE", "float", "Light 3 size", "sky", "in"⟩)]

/-- `GetFogBuiltins`, as an association list. -/
def GetFogBuiltins : List (String × BuiltinVariable) := [
  ("WORLD_POSITION", ⟨"WORLD_POSITION", "vec3", "World position", "fog", "in"⟩),
  ("OBJECT_POSITION", ⟨"OBJECT_POSITION", "vec3", "Object position", "fog", "in"⟩),
  ("UVW", ⟨"UVW", "vec3", "UVW coordinates", "fog", "in"⟩),
  ("SIZE", ⟨"SIZE", "vec3", "Size", "fog", "in"⟩),
  ("SDF", ⟨"SDF", "float", "Signed distance field", "fog", "in"⟩),
  ("ALBEDO", ⟨"ALBEDO", "vec3", "Albedo output", "fog", "out"⟩),
  ("DENSITY", ⟨"DENSITY", "float", "Density output", "fog", "out"⟩),
  ("EMISSION", ⟨"EMISSION", "vec3", "Emission output", "fog", "out"⟩),
  ("TIME", ⟨"TIME", "float", "Time", "fog", "in"⟩)]

/-- `SemanticError`. -/
structure SemanticError where
  message : String
  range : Range
deriving DecidableEq, Repr

/-- The analyzer state (`Analyzer` struct): shader type, the scope chain
(innermost first; the last frame is `globalScope`), collected errors, the
current stage, and registered struct types. The statement-analysis
fields (`doc`, `currentFunc`, `loopDepth`, `switchDepth`) are omitted
along with statement analysis, which no property below needs. -/
structure Analyzer where
  shaderType : String
  scopes : Scopes
  errors : List SemanticError
  currentStage : String
  structs : List (String × GType)

/-- `Analyzer.addError` (messages arrive pre-formatted). -/
def Analyzer.addError (a : Analyzer) (rng : Range) (msg : String) : Analyzer :=
  { a with errors := a.errors ++ [⟨msg, rng⟩] }

/-- Dereference a possibly-`nil` `*Type` as the analyzer does. On `none`
the source would fault on a nil pointer — a state no property below
exercises — and the embedding yields `TypeError` there; every `some` case
is exact. -/
def derefType (t : Option GType) : GType := t.getD TypeError

/-- `Analyzer.analyzeLiteral` (only the literal's kind matters). -/
def analyzeLiteral (kind : String) : GType :=
  if kind = "int" then TypeInt
  else if kind = "float" then TypeFloat
  else if kind = "bool" then TypeBool
  else TypeError

/-- `Analyzer.analyzeIdent`: built-in constants first, then the scope
chain; an unknown name yields `undefined symbol`. -/
def analyzeIdent (a : Analyzer) (rng : Range) (name : String) : GType × Analyzer :=
  match mapLookup BuiltinConstants name with
  | some constant => (derefType (TypeFromName constant.type), a)
  | none =>
    match scopesLookup a.scopes name with
    | none => (TypeError, a.addError rng ("undefined symbol '" ++ name ++ "'"))
    | some sym => (sym.type, a)

/-- The per-signature parameter check of `Analyzer.analyzeBuiltinCall`:
each parameter type name must resolve and accept the argument by `Equals`
or `CanImplicitlyConvert`. -/
def paramsMatch : List String → List GType → Bool
  | [], [] => true
  | p :: ps, t :: ts =>
    match TypeFromName p with
    | none => false
    | some paramType =>
      if ¬ (paramType.equals t) ∧ ¬ CanImplicitlyConvert t paramType then false
      else paramsMatch ps ts
  | _, _ => false

/-- The signature loop of `Analyzer.analyzeBuiltinCall`: the first
signature whose parameter count and types accept the arguments. -/
def findMatchingSignature (sigs : List FunctionSig) (argTypes : List GType) :
    Option FunctionSig :=
  match sigs with
  | [] => none
  | sig :: rest =>
    if sig.params.length ≠ argTypes.length then findMatchingSignature rest argTypes
    else if paramsMatch sig.params argTypes then some sig
    else findMatchingSignature rest argTypes

/-- `Analyzer.analyzeBuiltinCall` after its arguments have been analyzed
(the source computes `argTypes` by `analyzeExpr` over `e.Args`, then runs
exactly this): pick the first matching overload's return type; otherwise
report `no matching overload` and fall back to the first signature's
return type. -/
def analyzeBuiltinCallWithTypes (a : Analyzer) (builtin : BuiltinFunction) (rng : Range)
    (argTypes : List GType) : GType × Analyzer :=
  match findMatchingSignature builtin.signatures argTypes with
  | some sig => (derefType (TypeFromName sig.ret), a)
  | none =>
    let a1 := a.addError rng ("no matching overload for '" ++ builtin.name ++ "(" ++
      String.intercalate ", " (argTypes.map typeString) ++ ")'")
    match builtin.signatures with
    | sig0 :: _ => (derefType (TypeFromName sig0.ret), a1)
    | [] => (TypeError, a1)

/-- The component count of `Analyzer.analyzeTypeConstructor` for vector
constructors (reporting invalid argument types as it goes). -/
def vectorComponentCount (rng : Range) : List GType → Nat → Analyzer → Nat × Analyzer
  | [], acc, a => (acc, a)
  | argType :: rest, acc, a =>
    if argType.isScalar then vectorComponentCount rng rest (acc + 1) a
    else if argType.isVector then vectorComponentCount rng rest (acc + argType.vectorSize) a
    else
      vectorComponentCount rng rest acc
        (a.addError rng ("invalid argument type '" ++ typeString argType ++
          "' for vector constructor"))

/-- The component count for matrix constructors (non-countable arguments
contribute nothing and raise no error, as in the source). -/
def matrixComponentCount : List GType → Nat → Nat
  | [], acc => acc
  | t :: rest, acc =>
    if t.isScalar then matrixComponentCount rest (acc + 1)
    else if t.isVector then matrixComponentCount rest (acc + t.vectorSize)
    else if t.isMatrix then matrixComponentCount rest (acc + t.matrixSize * t.matrixSize)
    else matrixComponentCount rest acc

/-- The duplicate-component scan of `Analyzer.checkAssignable` (the Go
`seen` map over the member string's runes). -/
def swizzleDupLoop : List Char → List Char → Bool
  | [], _ => false
  | ch :: rest, seen => if seen.contains ch then true else swizzleDupLoop rest (ch :: seen)

mutual

/-- `Analyzer.analyzeExpr`. All functions of this block take a fuel
argument as a termination device only: exhausted fuel yields the inert
`(TypeError, a)`; every theorem below supplies sufficient fuel. -/
def analyzeExpr : Nat → Analyzer → Expr → GType × Analyzer
  | 0, a, _ => (TypeError, a)
  | fuel + 1, a, e =>
    match e with
    | .literal _ kind _ => (analyzeLiteral kind, a)
    | .ident r name => analyzeIdent a r name
    | .binary r left op right => analyzeBinary fuel a r left op right
    | .unary r op operand _ => analyzeUnary fuel a r op operand
    | .ternary r c t e2 => analyzeTernary fuel a r c t e2
    | .call r fn args => analyzeCall fuel a r fn args
    | .index r b i => analyzeIndex fuel a r b i
    | .member r b m => analyzeMember fuel a r b m
    | .array r els => analyzeArrayExpr fuel a r els

/-- `Analyzer.analyzeBinary`. -/
def analyzeBinary : Nat → Analyzer → Range → Expr → String → Expr → GType × Analyzer
  | 0, a, _, _, _, _ => (TypeError, a)
  | fuel + 1, a, rng, left, operator, right =>
    let (leftType, a1) := analyzeExpr fuel a left
    let (rightType, a2) := analyzeExpr fuel a1 right
    let op := operatorToTokenType operator
    if isAssignOp op then
      let a3 := checkAssignable fuel a2 left
      if op = .assign then
        if ¬ (leftType.equals rightType) ∧ ¬ CanImplicitlyConvert rightType leftType then
          (leftType, a3.addError rng ("cannot assign '" ++ typeString rightType ++ "' to '" ++
            typeString leftType ++ "'"))
        else (leftType, a3)
      else
        let underlyingOp := compoundToOp op
        let resultType := derefType (BinaryOpResultType underlyingOp leftType rightType)
        if resultType.kind = .error then
          (leftType, a3.addError rng ("invalid operands for '" ++ operator ++ "': '" ++
            typeString leftType ++ "' and '" ++ typeString rightType ++ "'"))
        else (leftType, a3)
    else
      let resultType := derefType (BinaryOpResultType op leftType rightType)
      if resultType.kind = .error then
        (resultType, a2.addError rng ("invalid operands for '" ++ operator ++ "': '" ++
          typeString leftType ++ "' and '" ++ typeString rightType ++ "'"))
      else (resultType, a2)

/-- `Analyzer.analyzeUnary`. -/
def analyzeUnary : Nat → Analyzer → Range → String → Expr → GType × Analyzer
  | 0, a, _, _, _ => (TypeError, a)
  | fuel + 1, a, rng, operator, operand =>
    let (operandType, a1) := analyzeExpr fuel a operand
    let op := operatorToTokenType operator
    let a2 := if op = .increment ∨ op = .decrement then checkAssignable fuel a1 operand else a1
    let resultType := UnaryOpResultType op operandType
    if resultType.kind = .error then
      (resultType, a2.addError rng ("invalid operand for '" ++ operator ++ "': '" ++
        typeString operandType ++ "'"))
    else (resultType, a2)

/-- `Analyzer.analyzeTernary`. -/
def analyzeTernary : Nat → Analyzer → Range → Expr → Expr → Expr → GType × Analyzer
  | 0, a, _, _, _, _ => (TypeError, a)
  | fuel + 1, a, rng, cond, thenE, elseE =>
    let (condType, a1) := analyzeExpr fuel a cond
    let a2 :=
      if condType.kind ≠ .bool then
        a1.addError cond.getRange ("ternary condition must be boolean, got '" ++
          typeString condType ++ "'")
      else a1
    let (thenType, a3) := analyzeExpr fuel a2 thenE
    let (elseType, a4) := analyzeExpr fuel a3 elseE
    if thenType.equals elseType then (thenType, a4)
    else if CanImplicitlyConvert elseType thenType then (thenType, a4)
    else if CanImplicitlyConvert thenType elseType then (elseType, a4)
    else
      (TypeError, a4.addError rng ("incompatible types in ternary expression: '" ++
        typeString thenType ++ "' and '" ++ typeString elseType ++ "'"))

/-- `Analyzer.analyzeCall`: type constructor, built-in function, or
user-defined function. -/
def analyzeCall : Nat → Analyzer → Range → Expr → List Expr → GType × Analyzer
  | 0, a, _, _, _ => (TypeError, a)
  | fuel + 1, a, rng, fn, args =>
    match fn with
    | .ident _ funcName =>
      if IsBuiltinTypeName funcName then analyzeTypeConstructor fuel a funcName rng args
      else
        match mapLookup BuiltinFunctions funcName with
        | some builtin => analyzeBuiltinCall fuel a builtin rng args
        | none =>
          match scopesLookup a.scopes funcName with
          | none => (TypeError, a.addError rng ("undefined function '" ++ funcName ++ "'"))
          | some sym =>
            match sym.function with
            | none => (TypeError, a.addError rng ("'" ++ funcName ++ "' is not a function"))
            | some fs =>
              if sym.kind ≠ .function then
                (TypeError, a.addError rng ("'" ++ funcName ++ "' is not a function"))
              else if args.length ≠ fs.params.length then
                (fs.returnType, a.addError rng ("function '" ++ funcName ++ "' expects " ++
                  toString fs.params.length ++ " arguments, got " ++ toString args.length))
              else
                (fs.returnType, analyzeCallArgs fuel a args fs.params 0)
    | _ => (TypeError, a.addError rng "expected function name")

/-- The argument loop of the user-function case of `analyzeCall`. -/
def analyzeCallArgs : Nat → Analyzer → List Expr → List Symbol → Nat → Analyzer
  | 0, a, _, _, _ => a
  | _ + 1, a, [], _, _ => a
  | _ + 1, a, _ :: _, [], _ => a
  | fuel + 1, a, arg :: args, param :: params, i =>
    let (argType, a1) := analyzeExpr fuel a arg
    let qualifier := param.qualifiers.headD ""
    let a2 :=
      if qualifier = "out" ∨ qualifier = "inout" then checkAssignable fuel a1 arg else a1
    let a3 :=
      if ¬ (param.type.equals argType) ∧ ¬ CanImplicitlyConvert argType param.type then
        a2.addError arg.getRange ("argument " ++ toString (i + 1) ++ ": cannot convert '" ++
          typeString argType ++ "' to '" ++ typeString param.type ++ "'")
      else a2
    analyzeCallArgs fuel a3 args params (i + 1)

/-- `Analyzer.analyzeTypeConstructor`. -/
def analyzeTypeConstructor : Nat → Analyzer → String → Range → List Expr → GType × Analyzer
  | 0, a, _, _, _ => (TypeError, a)
  | fuel + 1, a, typeName, rng, args =>
    match TypeFromName typeName with
    | none => (TypeError, a)
    | some targetType =>
      if args.length = 0 then
        (targetType, a.addError rng "type constructor requires at least one argument")
      else
        let (argTypes, a1) := analyzeExprList fuel a args
        if targetType.isScalar then
          if args.length ≠ 1 then
            (targetType, a1.addError rng "scalar constructor requires exactly one argument")
          else (targetType, a1)
        else if targetType.isVector then
          let size := targetType.vectorSize
          let (totalComponents, a2) := vectorComponentCount rng argTypes 0 a1
          if args.length = 1 ∧ (argTypes.headD TypeError).isScalar then (targetType, a2)
          else if totalComponents ≠ size then
            (targetType, a2.addError rng ("vector constructor requires " ++ toString size ++
              " components, got " ++ toString totalComponents))
          else (targetType, a2)
        else if targetType.isMatrix then
          let size := targetType.matrixSize
          if args.length = 1 ∧ (argTypes.headD TypeError).isScalar then (targetType, a1)
          else
            let totalComponents := matrixComponentCount argTypes 0
            let expected := size * size
            if totalComponents ≠ expected ∧
                (args.length ≠ 1 ∨ ¬ (argTypes.headD TypeError).isMatrix) then
              (targetType, a1.addError rng ("matrix constructor requires " ++
                toString expected ++ " components, got " ++ toString totalComponents))
            else (targetType, a1)
        else (targetType, a1)

/-- `Analyzer.analyzeBuiltinCall`: analyze the arguments, then the
overload selection of `analyzeBuiltinCallWithTypes`. -/
def analyzeBuiltinCall : Nat → Analyzer → BuiltinFunction → Range → List Expr →
    GType × Analyzer
  | 0, a, _, _, _ => (TypeError, a)
  | fuel + 1, a, builtin, rng, args =>
    let (argTypes, a1) := analyzeExprList fuel a args
    analyzeBuiltinCallWithTypes a1 builtin rng argTypes

/-- `analyzeExpr` over an argument list (the `for i, arg := range e.Args`
loops that collect `argTypes`). -/
def analyzeExprList : Nat → Analyzer → List Expr → List GType × Analyzer
  | 0, a, _ => ([], a)
  | _ + 1, a, [] => ([], a)
  | fuel + 1, a, e :: es =>
    let (t, a1) := analyzeExpr fuel a e
    let (ts, a2) := analyzeExprList fuel a1 es
    (t :: ts, a2)

/-- `Analyzer.analyzeIndex`. -/
def analyzeIndex : Nat → Analyzer → Range → Expr → Expr → GType × Analyzer
  | 0, a, _, _, _ => (TypeError, a)
  | fuel + 1, a, rng, base, idx =>
    let (baseType, a1) := analyzeExpr fuel a base
    let (indexType, a2) := analyzeExpr fuel a1 idx
    let a3 :=
      if ¬ indexType.isInteger then
        a2.addError idx.getRange ("index must be an integer, got '" ++
          typeString indexType ++ "'")
      else a2
    let resultType := derefType (IndexResultType baseType)
    if resultType.kind = .error then
      (resultType, a3.addError rng ("cannot index type '" ++ typeString baseType ++ "'"))
    else (resultType, a3)

/-- `Analyzer.analyzeMember`: swizzle on vectors, field access on structs,
rejection on matrices and everything else. -/
def analyzeMember : Nat → Analyzer → Range → Expr → String → GType × Analyzer
  | 0, a, _, _, _ => (TypeError, a)
  | fuel + 1, a, rng, base, memberName =>
    let (baseType, a1) := analyzeExpr fuel a base
    if baseType.isVector then
      match ValidateSwizzle baseType memberName with
      | .error err => (TypeError, a1.addError rng err)
      | .ok resultType => (resultType, a1)
    else if baseType.kind = .struct then
      match baseType.fields.find? (fun f => f.1 = memberName) with
      | some f => (f.2, a1)
      | none =>
        (TypeError, a1.addError rng ("struct '" ++ baseType.name ++ "' has no field '" ++
          memberName ++ "'"))
    else if baseType.isMatrix then
      (TypeError, a1.addError rng "cannot use member access on matrix type, use index instead")
    else
      (TypeError, a1.addError rng ("cannot access member '" ++ memberName ++ "' on type '" ++
        typeString baseType ++ "'"))

/-- `Analyzer.analyzeArrayExpr`. -/
def analyzeArrayExpr : Nat → Analyzer → Range → List Expr → GType × Analyzer
  | 0, a, _, _ => (TypeError, a)
  | fuel + 1, a, rng, elements =>
    match elements with
    | [] => (TypeError, a.addError rng "empty array initializer")
    | e0 :: rest =>
      let (elemType, a1) := analyzeExpr fuel a e0
      let a2 := analyzeArrayElems fuel a1 elemType rest
      (MakeArrayType elemType (Int.ofNat elements.length), a2)

/-- The element loop of `analyzeArrayExpr`. -/
def analyzeArrayElems : Nat → Analyzer → GType → List Expr → Analyzer
  | 0, a, _, _ => a
  | _ + 1, a, _, [] => a
  | fuel + 1, a, elemType, e :: es =>
    let (t, a1) := analyzeExpr fuel a e
    let a2 :=
      if ¬ (t.equals elemType) ∧ ¬ CanImplicitlyConvert t elemType then
        a1.addError e.getRange ("array element type mismatch: expected '" ++
          typeString elemType ++ "', got '" ++ typeString t ++ "'")
      else a1
    analyzeArrayElems fuel a2 elemType es

/-- `Analyzer.checkAssignable`: identifiers must be writable, indexing
recurses on the base, a vector member must be a duplicate-free swizzle
(then recurses on the base), everything else is not assignable. -/
def checkAssignable : Nat → Analyzer → Expr → Analyzer
  | 0, a, _ => a
  | fuel + 1, a, expr =>
    match expr with
    | .ident r name =>
      match scopesLookup a.scopes name with
      | none => a
      | some sym =>
        if sym.constant ∨ sym.readOnly then
          a.addError r ("cannot assign to '" ++ name ++ "' (read-only)")
        else a
    | .index _ base _ => checkAssignable fuel a base
    | .member r base memberName =>
      let (baseType, a1) := analyzeExpr fuel a base
      if baseType.isVector then
        if swizzleDupLoop memberName.toList [] then
          a1.addError r "cannot assign to swizzle with duplicate components"
        else checkAssignable fuel a1 base
      else checkAssignable fuel a1 base
    | _ => a.addError expr.getRange "expression is not assignable"

end

/-- The `currentStage` switch of `Analyzer.analyzeFunction`: `start` and
`process` both select `"compute"`. -/
def stageForFunction (name : String) : String :=
  if name = "vertex" then "vertex"
  else if name = "fragment" then "fragment"
  else if name = "light" then "light"
  else if name = "start" ∨ name = "process" then "compute"
  else if name = "sky" then "sky"
  else if name = "fog" then "fog"
  else ""

/-- The `(shader type, stage)` dispatch of
`Analyzer.registerBuiltinVariables`; an unmatched pair leaves the Go
`builtins` map `nil`, embedded as the empty list. -/
def builtinsForStage (shaderType stage : String) : List (String × BuiltinVariable) :=
  if shaderType = "spatial" then
    if stage = "vertex" then GetSpatialVertexBuiltins
    else if stage = "fragment" then GetSpatialFragmentBuiltins
    else if stage = "light" then GetSpatialLightBuiltins
    else []
  else if shaderType = "canvas_item" then
    if stage = "vertex" then GetCanvasItemVertexBuiltins
    else if stage = "fragment" then GetCanvasItemFragmentBuiltins
    else if stage = "light" then GetCanvasItemLightBuiltins
    else []
  else if shaderType = "particles" then
    if stage = "start" ∨ stage = "process" then GetParticlesBuiltins
    else []
  else if shaderType = "sky" then
    if stage = "sky" then GetSkyBuiltins else []
  else if shaderType = "fog" then
    if stage = "fog" then GetFogBuiltins else []
  else []

/-- `Analyzer.registerBuiltinVariables`: define each stage built-in in the
current scope (skipping unknown types; a duplicate definition's error is
discarded, as the source's `_ =` does). -/
def registerBuiltinVariables (a : Analyzer) : Analyzer :=
  let builtins := builtinsForStage a.shaderType a.currentStage
  builtins.foldl
    (fun acc entry =>
      match TypeFromName entry.2.type with
      | none => acc
      | some varType =>
        match scopesDefine acc.scopes
            (Symbol.mk entry.1 varType .builtinVariable Range.zero false
              (entry.2.readWrite = "in") false [] none) with
        | .ok scopes1 => { acc with scopes := scopes1 }
        | .error _ => acc)
    a

/-- The built-in-constant registration of `Analyzer.Analyze` (pass 1):
`PI`, `TAU`, `E` into the global scope as read-only constants. -/
def registerBuiltinConstantsFrame (frame : ScopeFrame) : ScopeFrame :=
  BuiltinConstants.foldl
    (fun fr entry =>
      match frameDefine fr
          (Symbol.mk entry.1 (derefType (TypeFromName entry.2.type)) .constant Range.zero
            true true false [] none) with
      | .ok fr1 => fr1
      | .error _ => fr)
    frame

/-- The stage-selection prelude of `Analyzer.analyzeFunction`: enter a new
scope, set `currentStage` from the function's name, and register the
stage's built-in variables. The rest of `analyzeFunction` (parameter
registration, body analysis) is statement analysis, which no property
below needs beyond `analyzeExpr`. -/
def analyzeFunctionStagePrelude (a : Analyzer) (declName : String) : Analyzer :=
  let a1 := { a with scopes := [] :: a.scopes }
  let a2 := { a1 with currentStage := stageForFunction declName }
  registerBuiltinVariables a2

/-- `Analyzer.evaluateConstExpr`: an `int` literal parses through
`strconv.Atoi` (the error discarded); every other expression — named
constants included — yields the unsized sentinel `-1`. It emits no
diagnostic. -/
def evaluateConstExpr (a : Analyzer) (expr : Expr) : Int :=
  match expr with
  | .literal _ kind value => if kind = "int" then goAtoi value else (-1)
  | .ident _ name =>
    match scopesLookup a.scopes name with
    | some sym => if sym.constant then (-1) else (-1)
    | none => (-1)
  | _ => (-1)

/-- `Analyzer.resolveType`. -/
def resolveType (a : Analyzer) (typeSpec : Option TypeSpec) : Option GType :=
  match typeSpec with
  | none => none
  | some ts =>
    match TypeFromName ts.name with
    | some t =>
      match ts.arraySize with
      | some sizeExpr => some (MakeArrayType t (evaluateConstExpr a sizeExpr))
      | none => some t
    | none =>
      match mapLookup a.structs ts.name with
      | some structType =>
        match ts.arraySize with
        | some sizeExpr => some (MakeArrayType structType (evaluateConstExpr a sizeExpr))
        | none => some structType
      | none => none

/-- A fresh particles-shader analyzer as `Analyze` builds it after its
first pass: the global scope holds only the built-in constants. -/
def particlesAnalyzer0 : Analyzer :=
  ⟨"particles", [registerBuiltinConstantsFrame []], [], "", []⟩

/-- A `vec3 v` local, as `analyzeVarDecl` would register it. -/
def vec3Symbol : Symbol :=
  Symbol.mk "v" TypeVec3 .var Range.zero false false false [] none

/-- An analyzer whose innermost scope holds `vec3 v`. -/
def vec3Analyzer : Analyzer :=
  ⟨"spatial", [[("v", vec3Symbol)]], [], "", []⟩


end Gds

end Gdls

namespace Gdls

namespace Tscn


theorem PState.advance_doc (s : PState) : s.advance.doc = s.doc := by
  unfold PState.advance; split <;> rfl

theorem PState.pushComment_doc_errors (s : PState) :
    s.pushComment.doc.errors = s.doc.errors := by
  unfold PState.pushComment; rw [PState.advance_doc]

theorem PState.addError_errOk {s : PState} (msg : String)
    (h : s.doc.errors.length ≤ maxErrors) :
    (s.addError msg).doc.errors.length ≤ maxErrors := by
  unfold PState.addError; split
  · exact h
  · rename_i hlt
    simp only [List.length_append, List.length_cons, List.length_nil]
    omega

theorem PState.addError_at_cap (s : PState) (msg : String)
    (h : maxErrors ≤ s.doc.errors.length) : s.addError msg = s := by
  unfold PState.addError; rw [if_pos h]

theorem skipNewlines_errors :
    ∀ fuel s s', skipNewlines fuel s = some s' → s'.doc.errors = s.doc.errors := by
  intro fuel
  induction fuel with
  | zero => intro s s' h; simp [skipNewlines] at h
  | succ n ih =>
    intro s s' h
    simp only [skipNewlines] at h
    split at h
    · split at h
      · rw [ih _ _ h, PState.pushComment_doc_errors]
      · rw [ih _ _ h, PState.advance_doc]
    · cases h; rfl

theorem skipToNextSection_errors :
    ∀ fuel s s', skipToNextSection fuel s = some s' → s'.doc.errors = s.doc.errors := by
  intro fuel
  induction fuel with
  | zero => intro s s' h; simp [skipToNextSection] at h
  | succ n ih =>
    intro s s' h
    simp only [skipToNextSection] at h
    split at h
    · cases h; rfl
    · split at h
      · cases h; rfl
      · rw [ih _ _ h, PState.advance_doc]

theorem dictColonRecover_errors :
    ∀ fuel s s', dictColonRecover fuel s = some s' → s'.doc.errors = s.doc.errors := by
  intro fuel
  induction fuel with
  | zero => intro s s' h; simp [dictColonRecover] at h
  | succ n ih =>
    intro s s' h
    simp only [dictColonRecover] at h
    split at h
    · rw [ih _ _ h, PState.advance_doc]
    · cases h; rfl

theorem propKeyLoop_errors :
    ∀ fuel s key r, propKeyLoop fuel s key = some r → r.2.doc.errors = s.doc.errors := by
  intro fuel
  induction fuel with
  | zero => intro s key r h; simp [propKeyLoop] at h
  | succ n ih =>
    intro s key r h
    simp only [propKeyLoop] at h
    split at h
    · rw [ih _ _ _ h, PState.advance_doc]
    · rw [ih _ _ _ h, PState.advance_doc]
    · rw [ih _ _ _ h, PState.advance_doc]
    · cases h; rfl

theorem resourceSkipHeader_errors :
    ∀ fuel s s', resourceSkipHeader fuel s = some s' → s'.doc.errors = s.doc.errors := by
  intro fuel
  induction fuel with
  | zero => intro s s' h; simp [resourceSkipHeader] at h
  | succ n ih =>
    intro s s' h
    simp only [resourceSkipHeader] at h
    split at h
    · rw [ih _ _ h, PState.advance_doc]
    · cases h; rfl

theorem parseCluster_errOk : ∀ fuel : Nat,
    (∀ s r, parseValue fuel s = some r →
      s.doc.errors.length ≤ maxErrors → r.2.doc.errors.length ≤ maxErrors) ∧
    (∀ s r, parseArray fuel s = some r →
      s.doc.errors.length ≤ maxErrors → r.2.doc.errors.length ≤ maxErrors) ∧
    (∀ s vs r, parseArrayLoop fuel s vs = some r →
      s.doc.errors.length ≤ maxErrors → r.2.doc.errors.length ≤ maxErrors) ∧
    (∀ s r, parseDict fuel s = some r →
      s.doc.errors.length ≤ maxErrors → r.2.doc.errors.length ≤ maxErrors) ∧
    (∀ s es r, parseDictLoop fuel s es = some r →
      s.doc.errors.length ≤ maxErrors → r.2.doc.errors.length ≤ maxErrors) ∧
    (∀ s r, parseTypedValueOrIdent fuel s = some r →
      s.doc.errors.length ≤ maxErrors → r.2.doc.errors.length ≤ maxErrors) ∧
    (∀ s args r, parseTypedArgs fuel s args = some r →
      s.doc.errors.length ≤ maxErrors → r.2.doc.errors.length ≤ maxErrors) := by
  intro fuel
  induction fuel with
  | zero =>
    refine ⟨?_, ?_, ?_, ?_, ?_, ?_, ?_⟩ <;> intro s
    · intro r h; simp [parseValue] at h
    · intro r h; simp [parseArray] at h
    · intro vs r h; simp [parseArrayLoop] at h
    · intro r h; simp [parseDict] at h
    · intro es r h; simp [parseDictLoop] at h
    · intro r h; simp [parseTypedValueOrIdent] at h
    · intro args r h; simp [parseTypedArgs] at h
  | succ n ih =>
    obtain ⟨ihV, ihA, ihAL, ihD, ihDL, ihT, ihTA⟩ := ih
    refine ⟨?_, ?_, ?_, ?_, ?_, ?_, ?_⟩
    -- parseValue
    · intro s r h hs
      simp only [parseValue] at h
      split at h
      · cases h; rw [PState.advance_doc]; exact hs
      · cases h; rw [PState.advance_doc]; exact hs
      · cases h; rw [PState.advance_doc]; exact hs
      · cases h; rw [PState.advance_doc]; exact hs
      · split at h
        · exact absurd h (by simp)
        · rename_i v s1 heq; cases h; exact ihA _ _ heq hs
      · split at h
        · exact absurd h (by simp)
        · rename_i v s1 heq; cases h; exact ihD _ _ heq hs
      · split at h
        · exact absurd h (by simp)
        · rename_i v s1 heq; cases h; exact ihT _ _ heq hs
      · cases h; exact hs
    -- parseArray
    · intro s r h hs
      simp only [parseArray] at h
      split at h
      · exact absurd h (by simp)
      · rename_i values s2 heq
        cases h
        have h2 : s2.doc.errors.length ≤ maxErrors := by
          refine ihAL _ _ _ heq ?_
          rw [PState.advance_doc]; exact hs
        split <;> [rw [PState.advance_doc]; skip] <;> exact h2
    -- parseArrayLoop
    · intro s vs r h hs
      simp only [parseArrayLoop] at h
      split at h
      · split at h
        · exact absurd h (by simp)
        · rename_i s1 hsn
          have hs1 : s1.doc.errors.length ≤ maxErrors := by
            rw [skipNewlines_errors _ _ _ hsn]; exact hs
          split at h
          · cases h; exact hs1
          · split at h
            · exact absurd h (by simp)
            · rename_i v? s2 heqV
              have hs2 : s2.doc.errors.length ≤ maxErrors := ihV _ _ heqV hs1
              cases v? with
              | some v =>
                split at h
                · exact absurd h (by simp)
                · rename_i s4 hsn2
                  have hs4 : s4.doc.errors.length ≤ maxErrors := by
                    rw [skipNewlines_errors _ _ _ hsn2]; exact hs2
                  refine ihAL _ _ _ h ?_
                  split <;> [rw [PState.advance_doc]; skip] <;> exact hs4
              | none =>
                split at h
                · exact absurd h (by simp)
                · rename_i s4 hsn2
                  have hs4 : s4.doc.errors.length ≤ maxErrors := by
                    rw [skipNewlines_errors _ _ _ hsn2, PState.advance_doc]; exact hs2
                  refine ihAL _ _ _ h ?_
                  split <;> [rw [PState.advance_doc]; skip] <;> exact hs4
      · cases h; exact hs
    -- parseDict
    · intro s r h hs
      simp only [parseDict] at h
      split at h
      · exact absurd h (by simp)
      · rename_i entries s2 heq
        cases h
        have h2 : s2.doc.errors.length ≤ maxErrors := by
          refine ihDL _ _ _ heq ?_
          rw [PState.advance_doc]; exact hs
        split <;> [rw [PState.advance_doc]; skip] <;> exact h2
    -- parseDictLoop
    · intro s es r h hs
      simp only [parseDictLoop] at h
      split at h
      · split at h
        · exact absurd h (by simp)
        · rename_i s1 hsn
          have hs1 : s1.doc.errors.length ≤ maxErrors := by
            rw [skipNewlines_errors _ _ _ hsn]; exact hs
          split at h
          · cases h; exact hs1
          · split at h
            · -- key branch: string or ident
              split at h
              · -- missing colon: addError + dictColonRecover
                split at h
                · exact absurd h (by simp)
                · rename_i s3 hrec
                  refine ihDL _ _ _ h ?_
                  rw [dictColonRecover_errors _ _ _ hrec]
                  refine PState.addError_errOk _ ?_
                  rw [PState.advance_doc]; exact hs1
              · -- colon present: parseValue
                split at h
                · exact absurd h (by simp)
                · rename_i v? s3 heqV
                  have hs3 : s3.doc.errors.length ≤ maxErrors := by
                    refine ihV _ _ heqV ?_
                    rw [PState.advance_doc, PState.advance_doc]; exact hs1
                  cases v? with
                  | some v =>
                    split at h
                    · exact absurd h (by simp)
                    · rename_i s5 hsn2
                      have hs5 : s5.doc.errors.length ≤ maxErrors := by
                        rw [skipNewlines_errors _ _ _ hsn2]; exact hs3
                      refine ihDL _ _ _ h ?_
                      split <;> [rw [PState.advance_doc]; skip] <;> exact hs5
                  | none =>
                    split at h
                    · exact absurd h (by simp)
                    · rename_i s5 hsn2
                      have hs5 : s5.doc.errors.length ≤ maxErrors := by
                        rw [skipNewlines_errors _ _ _ hsn2]
                        show (if s3.current.type ≠ TokenType.comma ∧
                            s3.current.type ≠ TokenType.rbrace then
                              s3.advance else s3).doc.errors.length ≤ maxErrors
                        split <;> [rw [PState.advance_doc]; skip] <;> exact hs3
                      refine ihDL _ _ _ h ?_
                      split <;> [rw [PState.advance_doc]; skip] <;> exact hs5
            · -- bad key: addError + advance, recurse
              refine ihDL _ _ _ h ?_
              rw [PState.advance_doc]
              exact PState.addError_errOk _ hs1
      · cases h; exact hs
    -- parseTypedValueOrIdent
    · intro s r h hs
      simp only [parseTypedValueOrIdent] at h
      split at h
      · split at h
        · -- resourceRef branch
          cases h
          split <;> simp only [PState.advance_doc] <;> exact hs
        · -- typed branch
          split at h
          · exact absurd h (by simp)
          · rename_i args s3 heq
            cases h
            have h3 : s3.doc.errors.length ≤ maxErrors := by
              refine ihTA _ _ _ heq ?_
              rw [PState.advance_doc, PState.advance_doc]; exact hs
            split <;> [rw [PState.advance_doc]; skip] <;> exact h3
      · cases h; rw [PState.advance_doc]; exact hs
    -- parseTypedArgs
    · intro s args r h hs
      simp only [parseTypedArgs] at h
      split at h
      · split at h
        · exact absurd h (by simp)
        · rename_i v? s1 heqV
          have hs1 : s1.doc.errors.length ≤ maxErrors := ihV _ _ heqV hs
          have hIf : ∀ s2 : PState, s2.doc.errors.length ≤ maxErrors →
              (if s2.current.type = .comma then s2.advance else s2).doc.errors.length
                ≤ maxErrors := by
            intro s2 h2
            split <;> [rw [PState.advance_doc]; skip] <;> exact h2
          cases v? with
          | some v =>
            refine ihTA _ _ _ h (hIf _ hs1)
          | none =>
            refine ihTA _ _ _ h (hIf _ ?_)
            show (if s1.current.type ≠ TokenType.rparen ∧
                s1.current.type ≠ TokenType.comma then
                  s1.advance else s1).doc.errors.length ≤ maxErrors
            split <;> [rw [PState.advance_doc]; skip] <;> exact hs1
      · cases h; exact hs

theorem next_dash :
    Lexer.next (newLexer "-") = ((newLexer "-").makeToken .ident "", newLexer "-") := by
  simp [Lexer.next, Lexer.skipWhitespace, Lexer.scanIdentifier, Lexer.scanIdentLoop,
    newLexer, Lexer.peek, Lexer.makeToken, slice, isIdentPart, isIdentStart]

theorem tokenizeLoop_dash (fuel : Nat) :
    ∀ acc, tokenizeLoop fuel (newLexer "-") acc = none := by
  induction fuel with
  | zero => intro acc; rfl
  | succ n ih =>
    intro acc
    rw [tokenizeLoop, next_dash]
    simp only [Lexer.makeToken]
    exact ih _

theorem parseProperty_errOk :
    ∀ fuel s r, parseProperty fuel s = some r →
      s.doc.errors.length ≤ maxErrors → r.2.doc.errors.length ≤ maxErrors := by
  intro fuel s r h hs
  match fuel with
  | 0 => simp [parseProperty] at h
  | n + 1 =>
    simp only [parseProperty] at h
    split at h
    · cases h; exact hs
    · split at h
      · exact absurd h (by simp)
      · rename_i key s1 heqK
        have hs1 : s1.doc.errors.length ≤ maxErrors := by
          rw [propKeyLoop_errors _ _ _ _ heqK]; exact hs
        split at h
        · cases h; exact PState.addError_errOk _ hs1
        · split at h
          · exact absurd h (by simp)
          · rename_i v? s2 heqV
            have hs2 : s2.doc.errors.length ≤ maxErrors :=
              (parseCluster_errOk n).1 _ _ heqV (by rw [PState.advance_doc]; exact hs1)
            split at h <;> (cases h; exact hs2)

theorem gdSceneAttrs_errOk :
    ∀ fuel s gd r, gdSceneAttrs fuel s gd = some r →
      s.doc.errors.length ≤ maxErrors → r.2.doc.errors.length ≤ maxErrors := by
  intro fuel
  induction fuel with
  | zero => intro s gd r h _; simp [gdSceneAttrs] at h
  | succ n ih =>
    intro s gd r h hs
    simp only [gdSceneAttrs] at h
    repeat' split at h
    all_goals
      first
      | (cases h; exact hs)
      | exact absurd h (by simp)
      | exact ih _ _ _ h (by simp only [PState.advance_doc]; exact hs)
      | exact ih _ _ _ h (PState.addError_errOk _ (by simp only [PState.advance_doc]; exact hs))
      | exact ih _ _ _ h ((parseCluster_errOk n).1 _ _ ‹parseValue n _ = some (_, _)›
          (by simp only [PState.advance_doc]; exact hs))

theorem extResourceAttrs_errOk :
    ∀ fuel s ext r, extResourceAttrs fuel s ext = some r →
      s.doc.errors.length ≤ maxErrors → r.2.doc.errors.length ≤ maxErrors := by
  intro fuel
  induction fuel with
  | zero => intro s ext r h _; simp [extResourceAttrs] at h
  | succ n ih =>
    intro s ext r h hs
    simp only [extResourceAttrs] at h
    repeat' split at h
    all_goals
      first
      | (cases h; exact hs)
      | exact absurd h (by simp)
      | exact ih _ _ _ h (by simp only [PState.advance_doc]; exact hs)
      | exact ih _ _ _ h (PState.addError_errOk _ (by simp only [PState.advance_doc]; exact hs))
      | exact ih _ _ _ h ((parseCluster_errOk n).1 _ _ ‹parseValue n _ = some (_, _)›
          (by simp only [PState.advance_doc]; exact hs))

theorem subResourceAttrs_errOk :
    ∀ fuel s sub r, subResourceAttrs fuel s sub = some r →
      s.doc.errors.length ≤ maxErrors → r.2.doc.errors.length ≤ maxErrors := by
  intro fuel
  induction fuel with
  | zero => intro s sub r h _; simp [subResourceAttrs] at h
  | succ n ih =>
    intro s sub r h hs
    simp only [subResourceAttrs] at h
    repeat' split at h
    all_goals
      first
      | (cases h; exact hs)
      | exact absurd h (by simp)
      | exact ih _ _ _ h (by simp only [PState.advance_doc]; exact hs)
      | exact ih _ _ _ h (PState.addError_errOk _ (by simp only [PState.advance_doc]; exact hs))
      | exact ih _ _ _ h ((parseCluster_errOk n).1 _ _ ‹parseValue n _ = some (_, _)›
          (by simp only [PState.advance_doc]; exact hs))

theorem nodeAttrs_errOk :
    ∀ fuel s node r, nodeAttrs fuel s node = some r →
      s.doc.errors.length ≤ maxErrors → r.2.doc.errors.length ≤ maxErrors := by
  intro fuel
  induction fuel with
  | zero => intro s node r h _; simp [nodeAttrs] at h
  | succ n ih =>
    intro s node r h hs
    have hadv : (s.advance.advance).doc.errors.length ≤ maxErrors := by
      simp only [PState.advance_doc]; exact hs
    have hadv3 : (s.advance.advance.advance).doc.errors.length ≤ maxErrors := by
      simp only [PState.advance_doc]; exact hs
    simp only [nodeAttrs] at h
    by_cases c1 : s.current.type ≠ TokenType.rbracket ∧ ¬s.isAtEnd = true
    case neg => rw [if_neg c1] at h; cases h; exact hs
    rw [if_pos c1] at h
    by_cases c2 : s.current.type = TokenType.ident
    case neg => rw [if_neg c2] at h; cases h; exact hs
    rw [if_pos c2] at h
    by_cases c3 : s.advance.current.type ≠ TokenType.equals
    case pos =>
      rw [if_pos c3] at h
      exact ih _ _ _ h (PState.addError_errOk _ (by simp only [PState.advance_doc]; exact hs))
    rw [if_neg c3] at h
    by_cases c4 : s.current.value = "name"
    case pos =>
      rw [if_pos c4] at h
      split at h <;> exact ih _ _ _ h (by simp only [PState.advance_doc]; exact hs)
    rw [if_neg c4] at h
    by_cases c5 : s.current.value = "type"
    case pos =>
      rw [if_pos c5] at h
      split at h <;> exact ih _ _ _ h (by simp only [PState.advance_doc]; exact hs)
    rw [if_neg c5] at h
    by_cases c6 : s.current.value = "parent"
    case pos =>
      rw [if_pos c6] at h
      split at h <;> exact ih _ _ _ h (by simp only [PState.advance_doc]; exact hs)
    rw [if_neg c6] at h
    by_cases c7 : s.current.value = "instance"
    case pos =>
      rw [if_pos c7] at h
      split at h
      · exact absurd h (by simp)
      · rename_i v? s3 heq
        exact ih _ _ _ h ((parseCluster_errOk n).1 _ _ heq hadv)
    rw [if_neg c7] at h
    by_cases c8 : s.current.value = "instance_placeholder"
    case pos =>
      rw [if_pos c8] at h
      split at h <;> exact ih _ _ _ h (by simp only [PState.advance_doc]; exact hs)
    rw [if_neg c8] at h
    by_cases c9 : s.current.value = "owner"
    case pos =>
      rw [if_pos c9] at h
      split at h <;> exact ih _ _ _ h (by simp only [PState.advance_doc]; exact hs)
    rw [if_neg c9] at h
    by_cases c10 : s.current.value = "index"
    case pos =>
      rw [if_pos c10] at h
      split at h <;> exact ih _ _ _ h (by simp only [PState.advance_doc]; exact hs)
    rw [if_neg c10] at h
    by_cases c11 : s.current.value = "groups"
    case pos =>
      rw [if_pos c11] at h
      split at h
      · exact absurd h (by simp)
      · rename_i v? s3 heq
        have hs3 : s3.doc.errors.length ≤ maxErrors :=
          (parseCluster_errOk n).1 _ _ heq hadv
        split at h <;> exact ih _ _ _ h hs3
    rw [if_neg c11] at h
    split at h
    · exact absurd h (by simp)
    · rename_i v s3 heq
      exact ih _ _ _ h ((parseCluster_errOk n).1 _ _ heq hadv)

theorem connectionAttrs_errOk :
    ∀ fuel s conn r, connectionAttrs fuel s conn = some r →
      s.doc.errors.length ≤ maxErrors → r.2.doc.errors.length ≤ maxErrors := by
  intro fuel
  induction fuel with
  | zero => intro s conn r h _; simp [connectionAttrs] at h
  | succ n ih =>
    intro s conn r h hs
    simp only [connectionAttrs] at h
    repeat' split at h
    all_goals
      first
      | (cases h; exact hs)
      | exact absurd h (by simp)
      | exact ih _ _ _ h (by simp only [PState.advance_doc]; exact hs)
      | exact ih _ _ _ h (PState.addError_errOk _ (by simp only [PState.advance_doc]; exact hs))
      | exact ih _ _ _ h ((parseCluster_errOk n).1 _ _ ‹parseValue n _ = some (_, _)›
          (by simp only [PState.advance_doc]; exact hs))

theorem parseGdScene_errOk (fuel : Nat) (s : PState) (st : Token) (ty : String)
    (s' : PState) (h : parseGdScene fuel s st ty = some s')
    (hs : s.doc.errors.length ≤ maxErrors) : s'.doc.errors.length ≤ maxErrors := by
  simp only [parseGdScene] at h
  split at h
  · exact absurd h (by simp)
  · rename_i gd s1 heq
    cases h
    have h1 : s1.doc.errors.length ≤ maxErrors := gdSceneAttrs_errOk _ _ _ _ heq hs
    show (if s1.current.type = TokenType.rbracket then s1.advance else s1).doc.errors.length
      ≤ maxErrors
    split <;> [rw [PState.advance_doc]; skip] <;> exact h1

theorem parseExtResource_errOk (fuel : Nat) (s : PState) (st : Token)
    (s' : PState) (h : parseExtResource fuel s st = some s')
    (hs : s.doc.errors.length ≤ maxErrors) : s'.doc.errors.length ≤ maxErrors := by
  simp only [parseExtResource] at h
  split at h
  · exact absurd h (by simp)
  · rename_i ext s1 heq
    cases h
    have h1 : s1.doc.errors.length ≤ maxErrors := extResourceAttrs_errOk _ _ _ _ heq hs
    show (if s1.current.type = TokenType.rbracket then s1.advance else s1).doc.errors.length
      ≤ maxErrors
    split <;> [rw [PState.advance_doc]; skip] <;> exact h1

theorem sectionProps_errOk :
    ∀ fuel s props r, sectionProps fuel s props = some r →
      s.doc.errors.length ≤ maxErrors → r.2.doc.errors.length ≤ maxErrors := by
  intro fuel
  induction fuel with
  | zero => intro s props r h _; simp [sectionProps] at h
  | succ n ih =>
    intro s props r h hs
    simp only [sectionProps] at h
    split at h
    · split at h
      · exact ih _ _ _ h (by rw [PState.pushComment_doc_errors]; exact hs)
      · split at h
        · exact absurd h (by simp)
        · rename_i p? s1 heqP
          have hs1 : s1.doc.errors.length ≤ maxErrors :=
            parseProperty_errOk _ _ _ heqP hs
          split at h <;> exact ih _ _ _ h hs1
      · exact ih _ _ _ h (by rw [PState.advance_doc]; exact hs)
      · cases h; exact hs
    · cases h; exact hs

theorem parseSubResource_errOk (fuel : Nat) (s : PState) (st : Token)
    (s' : PState) (h : parseSubResource fuel s st = some s')
    (hs : s.doc.errors.length ≤ maxErrors) : s'.doc.errors.length ≤ maxErrors := by
  simp only [parseSubResource] at h
  split at h
  · exact absurd h (by simp)
  · rename_i sub s1 heq
    have h1 : s1.doc.errors.length ≤ maxErrors := subResourceAttrs_errOk _ _ _ _ heq hs
    split at h
    · exact absurd h (by simp)
    · rename_i s3 hsn
      have h3 : s3.doc.errors.length ≤ maxErrors := by
        rw [skipNewlines_errors _ _ _ hsn]
        show (if s1.current.type = TokenType.rbracket then s1.advance
          else s1).doc.errors.length ≤ maxErrors
        split <;> [rw [PState.advance_doc]; skip] <;> exact h1
      split at h
      · exact absurd h (by simp)
      · rename_i props s4 heqP
        cases h
        exact sectionProps_errOk _ _ _ _ heqP h3

theorem parseNode_errOk (fuel : Nat) (s : PState) (st : Token)
    (s' : PState) (h : parseNode fuel s st = some s')
    (hs : s.doc.errors.length ≤ maxErrors) : s'.doc.errors.length ≤ maxErrors := by
  simp only [parseNode] at h
  split at h
  · exact absurd h (by simp)
  · rename_i node s1 heq
    have h1 : s1.doc.errors.length ≤ maxErrors := nodeAttrs_errOk _ _ _ _ heq hs
    split at h
    · exact absurd h (by simp)
    · rename_i s3 hsn
      have h3 : s3.doc.errors.length ≤ maxErrors := by
        rw [skipNewlines_errors _ _ _ hsn]
        show (if s1.current.type = TokenType.rbracket then s1.advance
          else s1).doc.errors.length ≤ maxErrors
        split <;> [rw [PState.advance_doc]; skip] <;> exact h1
      split at h
      · exact absurd h (by simp)
      · rename_i props s4 heqP
        cases h
        exact sectionProps_errOk _ _ _ _ heqP h3

theorem parseConnection_errOk (fuel : Nat) (s : PState) (st : Token)
    (s' : PState) (h : parseConnection fuel s st = some s')
    (hs : s.doc.errors.length ≤ maxErrors) : s'.doc.errors.length ≤ maxErrors := by
  simp only [parseConnection] at h
  split at h
  · exact absurd h (by simp)
  · rename_i conn s1 heq
    cases h
    have h1 : s1.doc.errors.length ≤ maxErrors := connectionAttrs_errOk _ _ _ _ heq hs
    show (if s1.current.type = TokenType.rbracket then s1.advance else s1).doc.errors.length
      ≤ maxErrors
    split <;> [rw [PState.advance_doc]; skip] <;> exact h1

theorem resourceSectionProps_errOk :
    ∀ fuel s s', resourceSectionProps fuel s = some s' →
      s.doc.errors.length ≤ maxErrors → s'.doc.errors.length ≤ maxErrors := by
  intro fuel
  induction fuel with
  | zero => intro s s' h _; simp [resourceSectionProps] at h
  | succ n ih =>
    intro s s' h hs
    simp only [resourceSectionProps] at h
    split at h
    · split at h
      · exact ih _ _ h (by rw [PState.pushComment_doc_errors]; exact hs)
      · split at h
        · exact absurd h (by simp)
        · rename_i p? s1 heqP
          exact ih _ _ h (parseProperty_errOk _ _ _ heqP hs)
      · exact ih _ _ h (by rw [PState.advance_doc]; exact hs)
      · cases h; exact hs
    · cases h; exact hs

theorem parseResourceSection_errOk (fuel : Nat) (s : PState)
    (s' : PState) (h : parseResourceSection fuel s = some s')
    (hs : s.doc.errors.length ≤ maxErrors) : s'.doc.errors.length ≤ maxErrors := by
  simp only [parseResourceSection] at h
  split at h
  · exact absurd h (by simp)
  · rename_i s1 heq
    have h1 : s1.doc.errors.length ≤ maxErrors := by
      rw [resourceSkipHeader_errors _ _ _ heq]; exact hs
    split at h
    · exact absurd h (by simp)
    · rename_i s3 hsn
      refine resourceSectionProps_errOk _ _ _ h ?_
      rw [skipNewlines_errors _ _ _ hsn]
      show (if s1.current.type = TokenType.rbracket then s1.advance
        else s1).doc.errors.length ≤ maxErrors
      split <;> [rw [PState.advance_doc]; skip] <;> exact h1

theorem parseSection_errOk (fuel : Nat) (s : PState)
    (s' : PState) (h : parseSection fuel s = some s')
    (hs : s.doc.errors.length ≤ maxErrors) : s'.doc.errors.length ≤ maxErrors := by
  simp only [parseSection] at h
  split at h
  · rw [skipToNextSection_errors _ _ _ h]
    exact PState.addError_errOk _ (by rw [PState.advance_doc]; exact hs)
  · split at h
    · exact parseGdScene_errOk _ _ _ _ _ h
        (by rw [PState.advance_doc, PState.advance_doc]; exact hs)
    · split at h
      · exact parseExtResource_errOk _ _ _ _ h
          (by rw [PState.advance_doc, PState.advance_doc]; exact hs)
      · split at h
        · exact parseSubResource_errOk _ _ _ _ h
            (by rw [PState.advance_doc, PState.advance_doc]; exact hs)
        · split at h
          · exact parseNode_errOk _ _ _ _ h
              (by rw [PState.advance_doc, PState.advance_doc]; exact hs)
          · split at h
            · exact parseConnection_errOk _ _ _ _ h
                (by rw [PState.advance_doc, PState.advance_doc]; exact hs)
            · split at h
              · exact parseResourceSection_errOk _ _ _ h
                  (by rw [PState.advance_doc, PState.advance_doc]; exact hs)
              · rw [skipToNextSection_errors _ _ _ h]
                exact PState.addError_errOk _
                  (by rw [PState.advance_doc, PState.advance_doc]; exact hs)

theorem parseLoop_errOk :
    ∀ fuel s s', parseLoop fuel s = some s' →
      s.doc.errors.length ≤ maxErrors → s'.doc.errors.length ≤ maxErrors := by
  intro fuel
  induction fuel with
  | zero => intro s s' h _; simp [parseLoop] at h
  | succ n ih =>
    intro s s' h hs
    simp only [parseLoop] at h
    split at h
    · split at h
      · exact absurd h (by simp)
      · rename_i s1 hsn
        have hs1 : s1.doc.errors.length ≤ maxErrors := by
          rw [skipNewlines_errors _ _ _ hsn]; exact hs
        split at h
        · cases h; exact hs1
        · split at h
          · exact ih _ _ h (by rw [PState.pushComment_doc_errors]; exact hs1)
          · split at h
            · exact absurd h (by simp)
            · rename_i s2 heqS
              exact ih _ _ h (parseSection_errOk _ _ _ heqS hs1)
          · split at h
            · exact absurd h (by simp)
            · rename_i p? s2 heqP
              exact ih _ _ h (parseProperty_errOk _ _ _ heqP hs1)
          · exact ih _ _ h (by
              rw [PState.advance_doc]
              exact PState.addError_errOk _ hs1)
    · cases h; exact hs

theorem runParse_errOk (fuel : Nat) (tokens : List Token) (doc : Document)
    (h : runParse fuel tokens = some doc) : doc.errors.length ≤ maxErrors := by
  simp only [runParse] at h
  split at h
  · exact absurd h (by simp)
  · rename_i s heq
    cases h
    exact parseLoop_errOk _ _ _ heq (by simp [emptyDocument])

theorem parseTscn_errOk (fuel : Nat) (input : String) (doc : Document)
    (h : parseTscn fuel input = some doc) : doc.errors.length ≤ maxErrors := by
  simp only [parseTscn] at h
  split at h
  · exact absurd h (by simp)
  · exact runParse_errOk _ _ _ h

theorem scanStringLoop_no_escape :
    ∀ (s : List Char) (l : Lexer) (b : String) (rest : List Char),
      l.input.drop l.pos = s ++ '"' :: rest →
      (∀ c ∈ s, c ≠ '"' ∧ c ≠ '\\' ∧ c ≠ '\n') →
      ∃ l', Lexer.scanStringLoop l b = (l'.makeToken .string (b ++ String.mk s), l') ∧
        l'.pos = l.pos + s.length + 1 ∧ l'.tstart = l.tstart ∧ l'.input = l.input := by
  intro s
  induction s with
  | nil =>
    intro l b rest hdrop hok
    have hlt : l.pos < l.input.length := by
      have := congrArg List.length hdrop
      simp [List.length_drop] at this
      omega
    have hpk : l.peek = '"' := by
      have hh := congrArg List.head? hdrop
      rw [List.head?_drop] at hh
      simp at hh
      simp [Lexer.peek, List.getD, hh]
    rw [Lexer.scanStringLoop]
    rw [dif_pos hlt, if_pos hpk]
    refine ⟨(l.advance).2, ?_, ?_, ?_, ?_⟩
    · have : b ++ String.mk [] = b := by
        cases b with
        | mk d => show String.mk (d ++ []) = String.mk d; simp
      rw [this]
    · rw [Lexer.advance_pos, if_pos hlt]; simp
    · rw [Lexer.advance_tstart]
    · rw [Lexer.advance_input]
  | cons c t ih =>
    intro l b rest hdrop hok
    have hlt : l.pos < l.input.length := by
      have := congrArg List.length hdrop
      simp [List.length_drop] at this
      omega
    have hh := congrArg List.head? hdrop
    rw [List.head?_drop] at hh
    simp at hh
    have hc := hok c (by simp)
    have hpk : l.peek = c := by simp [Lexer.peek, List.getD, hh]
    have hnq : ¬ l.peek = '"' := by rw [hpk]; exact hc.1
    have hnb : ¬ l.peek = '\\' := by rw [hpk]; exact hc.2.1
    have hnn : ¬ l.peek = '\n' := by rw [hpk]; exact hc.2.2
    have hadv1 : (l.advance).1 = c := by
      unfold Lexer.advance
      rw [if_pos hlt]
      have hgd : l.input.getD l.pos (Char.ofNat 0) = c := hpk
      rw [if_neg (by rw [hgd]; exact hc.2.2)]
      exact hgd
    have hpos1 : (l.advance).2.pos = l.pos + 1 := by
      rw [Lexer.advance_pos, if_pos hlt]
    have hdrop1 : (l.advance).2.input.drop (l.advance).2.pos = t ++ '"' :: rest := by
      rw [Lexer.advance_input, hpos1]
      have h1 := congrArg (List.drop 1) hdrop
      rw [List.drop_drop] at h1
      simpa using h1
    rw [Lexer.scanStringLoop]
    rw [dif_pos hlt, if_neg hnq, if_neg hnb, if_neg hnn]
    obtain ⟨l', heq, hp, ht2, hi⟩ := ih (l.advance).2 (b.push c) rest hdrop1
      (fun x hx => hok x (by simp [hx]))
    rw [hadv1]
    refine ⟨l', ?_, ?_, ?_, ?_⟩
    · rw [heq]
      have : b.push c ++ String.mk t = b ++ String.mk (c :: t) := by
        cases b with
        | mk d => show String.mk ((d ++ [c]) ++ t) = String.mk (d ++ (c :: t)); simp
      rw [this]
    · rw [hp, hpos1]; simp only [List.length_cons]; omega
    · rw [ht2, Lexer.advance_tstart]
    · rw [hi, Lexer.advance_input]

theorem scanString_no_escape (l : Lexer) (s : List Char) (rest : List Char)
    (hts : l.tstart = l.pos)
    (hdrop : l.input.drop l.pos = '"' :: (s ++ '"' :: rest))
    (hok : ∀ c ∈ s, c ≠ '"' ∧ c ≠ '\\' ∧ c ≠ '\n') :
    (l.scanString).1.type = .string ∧ (l.scanString).1.value = String.mk s ∧
      (l.scanString).1.length = s.length + 2 := by
  have hlt : l.pos < l.input.length := by
    have := congrArg List.length hdrop
    simp [List.length_drop] at this
    omega
  have hpos1 : (l.advance).2.pos = l.pos + 1 := by
    rw [Lexer.advance_pos, if_pos hlt]
  have hdrop1 : (l.advance).2.input.drop (l.advance).2.pos = s ++ '"' :: rest := by
    rw [Lexer.advance_input, hpos1]
    have h1 := congrArg (List.drop 1) hdrop
    rw [List.drop_drop] at h1
    simpa using h1
  obtain ⟨l2, heq, hp, ht2, hi⟩ := scanStringLoop_no_escape s (l.advance).2 "" rest hdrop1 hok
  have hmk : ("" : String) ++ String.mk s = String.mk s := by
    simp
  unfold Lexer.scanString
  rw [heq, hmk]
  refine ⟨rfl, rfl, ?_⟩
  simp only [Lexer.makeToken]
  rw [hp, hpos1, ht2, Lexer.advance_tstart, hts]
  omega

theorem parseTypedValueOrIdent_resourceRef (fuel : Nat) (s : PState) (v : Value) (s' : PState)
    (hlp : (s.advance).current.type = .lparen)
    (hname : s.current.value = "ExtResource" ∨ s.current.value = "SubResource")
    (hstr : (s.advance.advance).current.type = .string)
    (h : parseTypedValueOrIdent (fuel + 1) s = some (v, s')) :
    ∃ rng, v = .resourceRef rng s.current.value ((s.advance.advance).current.value)
      (makeRange (s.advance.advance).current) := by
  simp only [parseTypedValueOrIdent] at h
  rw [if_pos hlp, if_pos ⟨hname, hstr⟩] at h
  cases h
  exact ⟨_, rfl⟩

theorem parseTypedValueOrIdent_typed (fuel : Nat) (s : PState) (v : Value) (s' : PState)
    (hlp : (s.advance).current.type = .lparen)
    (hnot : ¬ ((s.current.value = "ExtResource" ∨ s.current.value = "SubResource") ∧
      (s.advance.advance).current.type = .string))
    (h : parseTypedValueOrIdent (fuel + 1) s = some (v, s')) :
    ∃ rng args, v = .typed rng s.current.value (makeRange s.current) args := by
  simp only [parseTypedValueOrIdent] at h
  rw [if_pos hlp, if_neg hnot] at h
  split at h
  · exact absurd h (by simp)
  · rename_i args s3 heq
    cases h
    exact ⟨_, _, rfl⟩

theorem parseTypedValueOrIdent_resourceRef_inv :
    ∀ fuel s rng rt id idr s',
      parseTypedValueOrIdent fuel s = some (.resourceRef rng rt id idr, s') →
      (s.advance).current.type = .lparen ∧
        (rt = "ExtResource" ∨ rt = "SubResource") ∧
        (s.advance.advance).current.type = .string ∧
        rt = s.current.value ∧ id = (s.advance.advance).current.value := by
  intro fuel s rng rt id idr s' h
  match fuel with
  | 0 => simp [parseTypedValueOrIdent] at h
  | n + 1 =>
    simp only [parseTypedValueOrIdent] at h
    split at h
    · rename_i hlp
      split at h
      · rename_i hc
        cases h
        exact ⟨hlp, hc.1, hc.2, rfl, rfl⟩
      · split at h
        · exact absurd h (by simp)
        · rename_i args s3 heq
          simp at h
    · simp at h



theorem parse_pathRange_example :
    (parseTscn 80 "[ext_resource type=\"Texture2D\" path=\"res://texture.png\" id=\"1_abc\"]").map
      (fun d => d.extResources.map
        (fun e => (e.path, e.pathRange.stop.column - e.pathRange.start.column)))
    = some [("res://texture.png", 19)] := by
  simp [parseTscn, tokenize, tokenizeLoop, Lexer.next, Lexer.skipWhitespace,
    Lexer.scanString, Lexer.scanStringLoop, Lexer.scanIdentifier, Lexer.scanIdentLoop,
    Lexer.makeToken, Lexer.advance, Lexer.peek, newLexer, slice, isIdentPart, isIdentStart,
    runParse, parseLoop, parseSection, parseExtResource, extResourceAttrs, parseValue,
    skipNewlines, skipToNextSection, PState.addError, PState.advance, PState.current,
    PState.prevToken, PState.isAtEnd, PState.pushComment, makeRange, spanRange,
    emptyDocument, maxErrors, Token.zero]
  rfl

/-- C7 counterexample: a path literal containing an escaped quote.  The
stored path is `a"b` (length 3), but the `path_range` spans the six source
columns `"a\\"b"`, so its width is the token's source length, not
`len(path) + 2`. -/
theorem extResource_pathRange_escape_counterexample :
    (parseTscn 60 "[ext_resource path=\"a\\\"b\" id=\"1\"]").map
      (fun d => d.extResources.map
        (fun e => (e.path, e.path.length, e.pathRange.stop.column - e.pathRange.start.column)))
    = some [("a\"b", 3, 6)] ∧ (6 : Nat) ≠ 3 + 2 := by
  refine ⟨?_, by decide⟩
  simp [parseTscn, tokenize, tokenizeLoop, Lexer.next, Lexer.skipWhitespace,
    Lexer.scanString, Lexer.scanStringLoop, Lexer.scanIdentifier, Lexer.scanIdentLoop,
    Lexer.makeToken, Lexer.advance, Lexer.peek, newLexer, slice, isIdentPart, isIdentStart,
    runParse, parseLoop, parseSection, parseExtResource, extResourceAttrs, parseValue,
    skipNewlines, skipToNextSection, PState.addError, PState.advance, PState.current,
    PState.prevToken, PState.isAtEnd, PState.pushComment, makeRange, spanRange,
    emptyDocument, maxErrors, Token.zero]
  rfl


end Tscn

namespace Lsp

/-- C4: the containment test `isInRange` is *inclusive* at the range's end
column (the spec and claim call it half-open): `isInRange r line col` holds
exactly when `line` lies between the range's lines, `col` is at or after the
start column on the start line, and `col` is at or *no later than* the end
column on the end line. -/
theorem isInRange_end_column_inclusive (r : Tscn.Range) (line col : Nat) :
    isInRange r line col = true ↔
      ((r.start.line ≤ line ∧ line ≤ r.stop.line) ∧
       (line = r.start.line → r.start.column ≤ col) ∧
       (line = r.stop.line → col ≤ r.stop.column)) := by
  unfold isInRange
  split
  · rename_i h1
    simp only [Bool.false_eq_true, false_iff]
    intro hC
    obtain ⟨⟨ha, hb⟩, _, _⟩ := hC
    omega
  · rename_i h1
    split
    · rename_i h2
      simp only [Bool.false_eq_true, false_iff]
      intro hC
      have := hC.2.1 h2.1
      omega
    · split
      · rename_i h2 h3
        simp only [Bool.false_eq_true, false_iff]
        intro hC
        have := hC.2.2 h3.1
        omega
      · rename_i h2 h3
        simp only [true_iff]
        push_neg at h1 h2 h3
        refine ⟨⟨?_, ?_⟩, ?_, ?_⟩ <;> omega

/-- C5: `checkParentReferences` warns exactly on the nodes whose `parent`
is non-empty, not `"."`, not in the code's node-path set (which holds `""`
and `"."` for the root and `parent + "/" + name` or the bare name for the
others), and — the exemption the claim omits — not equal to the root
node's *name*. -/
theorem checkParentReferences_characterization (nodes : List Tscn.Node) :
    checkParentReferences nodes =
      (nodes.filter (fun n => decide (¬ (n.parent = "" ∨ n.parent = ".") ∧
        (¬ (buildNodePaths nodes).1.contains n.parent ∧
          n.parent ≠ (buildNodePaths nodes).2)))).map parentNotFoundDiag := by
  simp only [checkParentReferences]
  generalize buildNodePaths nodes = A
  have key : ∀ (ns : List Tscn.Node) (d0 : List Diagnostic),
      ns.foldl (fun diags node =>
        if node.parent = "" ∨ node.parent = "." then diags
        else if ¬ A.1.contains node.parent ∧ node.parent ≠ A.2 then
          diags ++ [parentNotFoundDiag node]
        else diags) d0
      = d0 ++ (ns.filter (fun n => decide (¬ (n.parent = "" ∨ n.parent = ".") ∧
          (¬ A.1.contains n.parent ∧ n.parent ≠ A.2)))).map parentNotFoundDiag := by
    intro ns
    induction ns with
    | nil => intro d0; simp
    | cons nd tl ih =>
      intro d0
      simp only [List.foldl_cons, List.filter_cons]
      by_cases h1 : nd.parent = "" ∨ nd.parent = "."
      · rw [if_pos h1, ih]
        simp [h1]
      · rw [if_neg h1]
        by_cases h2a : nd.parent ∈ A.1
        · rw [if_neg (by simp [h2a]), ih]
          simp [h1, h2a]
        · by_cases h2b : nd.parent = A.2
          · rw [if_neg (by simp [h2b]), ih]
            simp [h1, h2a, h2b]
          · rw [if_pos ⟨by simpa using h2a, h2b⟩, ih]
            simp [h1, h2a, h2b]
  rw [key nodes []]
  simp


end Lsp

namespace Gds

theorem analyzeIdent_v (a : Analyzer) (vr : Range) (sym : Symbol)
    (hv : scopesLookup a.scopes "v" = some sym) (ht : sym.type = TypeVec3) :
    analyzeIdent a vr "v" = (TypeVec3, a) := by
  have hbc : mapLookup BuiltinConstants "v" = none := rfl
  simp only [analyzeIdent, hbc, hv, ht]

theorem analyzeExpr_ident_v (a : Analyzer) (vr : Range) (sym : Symbol) (m : Nat)
    (hv : scopesLookup a.scopes "v" = some sym) (ht : sym.type = TypeVec3) :
    analyzeExpr (m + 1) a (.ident vr "v") = (TypeVec3, a) := by
  show analyzeIdent a vr "v" = (TypeVec3, a)
  exact analyzeIdent_v a vr sym hv ht

theorem swizzle_xxx_analyze (a : Analyzer) (rng vr : Range) (sym : Symbol) (fuel : Nat)
    (hv : scopesLookup a.scopes "v" = some sym) (ht : sym.type = TypeVec3) :
    analyzeExpr (fuel + 3) a (.member rng (.ident vr "v") "xxx") = (TypeVec3, a) := by
  show analyzeMember (fuel + 2) a rng (.ident vr "v") "xxx" = (TypeVec3, a)
  simp only [analyzeMember, analyzeExpr_ident_v a vr sym fuel hv ht]
  rfl

theorem swizzle_xxx_not_assignable (a : Analyzer) (rng vr : Range) (sym : Symbol) (fuel : Nat)
    (hv : scopesLookup a.scopes "v" = some sym) (ht : sym.type = TypeVec3) :
    checkAssignable (fuel + 3) a (.member rng (.ident vr "v") "xxx") =
      a.addError rng "cannot assign to swizzle with duplicate components" := by
  simp only [checkAssignable, analyzeExpr_ident_v a vr sym (fuel + 1) hv ht]
  rfl

theorem swizzle_xy_assignable (a : Analyzer) (rng vr : Range) (sym : Symbol) (fuel : Nat)
    (hv : scopesLookup a.scopes "v" = some sym) (ht : sym.type = TypeVec3)
    (hc : sym.constant = false) (hr : sym.readOnly = false) :
    checkAssignable (fuel + 3) a (.member rng (.ident vr "v") "xy") = a := by
  simp only [checkAssignable, analyzeExpr_ident_v a vr sym (fuel + 1) hv ht]
  have hdup : swizzleDupLoop "xy".toList [] = false := rfl
  have hvec : TypeVec3.isVector = true := rfl
  simp only [hvec, if_true, hdup, Bool.false_eq_true, if_false, hv, hc, hr]
  simp

theorem findMatchingSignature_eq_find (sigs : List FunctionSig) (argTypes : List GType) :
    findMatchingSignature sigs argTypes =
      sigs.find? (fun sig => sig.params.length == argTypes.length &&
        paramsMatch sig.params argTypes) := by
  induction sigs with
  | nil => rfl
  | cons sig rest ih =>
    simp only [findMatchingSignature, List.find?]
    by_cases hlen : sig.params.length = argTypes.length
    · rw [if_neg (by omega)]
      by_cases hpm : paramsMatch sig.params argTypes = true
      · rw [if_pos hpm]
        have : (sig.params.length == argTypes.length && paramsMatch sig.params argTypes)
            = true := by simp [hlen, hpm]
        rw [this]
      · rw [if_neg hpm]
        have : (sig.params.length == argTypes.length && paramsMatch sig.params argTypes)
            = false := by simp [hpm]
        rw [this]
        exact ih
    · rw [if_pos hlen]
      have : (sig.params.length == argTypes.length && paramsMatch sig.params argTypes)
          = false := by simp [hlen]
      rw [this]
      exact ih

theorem paramsMatch_iff : ∀ (ps : List String) (ts : List GType),
    paramsMatch ps ts = true ↔
      List.Forall₂ (fun p t => ∃ pt, TypeFromName p = some pt ∧
        (pt.equals t = true ∨ CanImplicitlyConvert t pt = true)) ps ts := by
  intro ps
  induction ps with
  | nil =>
    intro ts
    cases ts with
    | nil => simp [paramsMatch]
    | cons t ts => simp [paramsMatch]
  | cons p ps ih =>
    intro ts
    cases ts with
    | nil => simp [paramsMatch]
    | cons t ts =>
      simp only [paramsMatch]
      split
      · rename_i hTF
        simp only [Bool.false_eq_true, false_iff]
        intro hF
        rcases hF with _ | ⟨⟨pt, hpt, _⟩, _⟩
        rw [hTF] at hpt
        cases hpt
      · rename_i pt hTF
        split
        · rename_i hacc
          simp only [Bool.false_eq_true, false_iff]
          intro hF
          rcases hF with _ | ⟨⟨pt2, hpt2, hor⟩, _⟩
          rw [hTF] at hpt2
          cases hpt2
          exact hor.elim hacc.1 hacc.2
        · rename_i hacc
          rw [ih ts]
          constructor
          · intro htl
            refine List.Forall₂.cons ⟨pt, hTF, ?_⟩ htl
            by_cases h1 : pt.equals t = true
            · exact Or.inl h1
            · by_cases h2 : CanImplicitlyConvert t pt = true
              · exact Or.inr h2
              · exact absurd ⟨h1, h2⟩ hacc
          · intro hF
            rcases hF with _ | ⟨_, htl⟩
            exact htl

theorem analyzeBuiltinCallWithTypes_matched (a : Analyzer) (b : BuiltinFunction)
    (rng : Range) (argTypes : List GType) (sig : FunctionSig)
    (h : findMatchingSignature b.signatures argTypes = some sig) :
    analyzeBuiltinCallWithTypes a b rng argTypes = (derefType (TypeFromName sig.ret), a) := by
  simp only [analyzeBuiltinCallWithTypes, h]

theorem analyzeBuiltinCallWithTypes_fallback (a : Analyzer) (b : BuiltinFunction)
    (rng : Range) (argTypes : List GType) (sig0 : FunctionSig) (rest : List FunctionSig)
    (h : findMatchingSignature b.signatures argTypes = none)
    (hsigs : b.signatures = sig0 :: rest) :
    analyzeBuiltinCallWithTypes a b rng argTypes =
      (derefType (TypeFromName sig0.ret),
        a.addError rng ("no matching overload for '" ++ b.name ++ "(" ++
          String.intercalate ", " (argTypes.map typeString) ++ ")'")) := by
  simp only [analyzeBuiltinCallWithTypes, h]
  rw [hsigs]

theorem analyzeBuiltinCall_eq (fuel : Nat) (a : Analyzer) (b : BuiltinFunction)
    (rng : Range) (args : List Expr) :
    analyzeBuiltinCall (fuel + 1) a b rng args =
      analyzeBuiltinCallWithTypes (analyzeExprList fuel a args).2 b rng
        (analyzeExprList fuel a args).1 := by
  simp only [analyzeBuiltinCall]

theorem evaluateConstExpr_int_literal (a : Analyzer) (r : Range) (v : String) :
    evaluateConstExpr a (.literal r "int" v) = goAtoi v := by
  simp [evaluateConstExpr]

theorem evaluateConstExpr_other_literal (a : Analyzer) (r : Range) (k v : String)
    (hk : k ≠ "int") : evaluateConstExpr a (.literal r k v) = -1 := by
  simp [evaluateConstExpr, hk]

theorem evaluateConstExpr_binary (a : Analyzer) (r : Range) (l : Expr) (op : String)
    (rr : Expr) : evaluateConstExpr a (.binary r l op rr) = -1 := rfl

theorem evaluateConstExpr_ident (a : Analyzer) (r : Range) (n : String) :
    evaluateConstExpr a (.ident r n) = -1 := by
  simp only [evaluateConstExpr]
  split
  · split <;> rfl
  · rfl

theorem resolveType_known (a : Analyzer) (ts : TypeSpec) (t : GType)
    (h : TypeFromName ts.name = some t) :
    resolveType a (some ts) = some (match ts.arraySize with
      | some e => MakeArrayType t (evaluateConstExpr a e)
      | none => t) := by
  simp only [resolveType, h]
  cases ts.arraySize <;> rfl

end Gds

namespace Tscn

/-- C2: the TSCN lexer does not terminate on the input `"-"`.  `Next` sends
a `-` that is not followed by a digit or `.` to `scanIdentifier`, which
consumes nothing (`-` is not an identifier character) and returns an empty
`Ident` token with the lexer unmoved, so `Tokenize` — and with it `Parse` —
loops forever: no amount of fuel makes the embedded loop finish.  This
refutes the claim that the parse function terminates on every input. -/
theorem tokenize_dash_diverges :
    (∀ fuel acc, tokenizeLoop fuel (newLexer "-") acc = none) ∧
    (∀ fuel, parseTscn fuel "-" = none) := by
  refine ⟨tokenizeLoop_dash, ?_⟩
  intro fuel
  simp [parseTscn, tokenize, tokenizeLoop_dash]

/-- C3: every document the parser returns carries at most `maxErrors = 100`
errors — over the whole pipeline and over `Parse` on any token stream — and
once the cap is reached `addError` returns the state unchanged, so the
error is dropped silently and parsing continues unaffected. -/
theorem parse_error_cap :
    maxErrors = 100 ∧
    (∀ fuel input doc, parseTscn fuel input = some doc → doc.errors.length ≤ maxErrors) ∧
    (∀ fuel tokens doc, runParse fuel tokens = some doc → doc.errors.length ≤ maxErrors) ∧
    (∀ (s : PState) (msg : String), maxErrors ≤ s.doc.errors.length → s.addError msg = s) :=
  ⟨rfl, parseTscn_errOk, runParse_errOk, PState.addError_at_cap⟩

/-- C7: what is true of `path_range`: it spans exactly the string token's
source columns (`makeRange` width = token length), and the token's length
is `len(path) + 2` precisely for literals free of escape sequences, as in
the spec's `res://texture.png` example of width 19.  With escapes the
stored path is shorter than the source span (see the counterexample). -/
theorem extResource_pathRange_characterization :
    (∀ tok : Token, (makeRange tok).stop.column - (makeRange tok).start.column = tok.length) ∧
    (∀ (l : Lexer) (s rest : List Char), l.tstart = l.pos →
        l.input.drop l.pos = '"' :: (s ++ '"' :: rest) →
        (∀ c ∈ s, c ≠ '"' ∧ c ≠ '\\' ∧ c ≠ '\n') →
        (l.scanString).1.type = .string ∧ (l.scanString).1.value = String.mk s ∧
          (l.scanString).1.length = s.length + 2) ∧
    (parseTscn 80 "[ext_resource type=\"Texture2D\" path=\"res://texture.png\" id=\"1_abc\"]").map
      (fun d => d.extResources.map
        (fun e => (e.path, e.pathRange.stop.column - e.pathRange.start.column)))
      = some [("res://texture.png", 19)] := by
  refine ⟨?_, scanString_no_escape, parse_pathRange_example⟩
  intro tok
  simp only [makeRange]
  omega

/-- C9: `parseTypedValueOrIdent` yields a `ResourceRef` exactly for
`ExtResource`/`SubResource` whose first token after `(` is a string
literal; any other argument shape yields a `Typed` value carrying the
callee as its type name. -/
theorem parseTypedValueOrIdent_dispatch :
    (∀ fuel s v s',
        (s.advance).current.type = .lparen →
        (s.current.value = "ExtResource" ∨ s.current.value = "SubResource") →
        (s.advance.advance).current.type = .string →
        parseTypedValueOrIdent (fuel + 1) s = some (v, s') →
        ∃ rng, v = .resourceRef rng s.current.value ((s.advance.advance).current.value)
          (makeRange (s.advance.advance).current)) ∧
    (∀ fuel s v s',
        (s.advance).current.type = .lparen →
        ¬ ((s.current.value = "ExtResource" ∨ s.current.value = "SubResource") ∧
          (s.advance.advance).current.type = .string) →
        parseTypedValueOrIdent (fuel + 1) s = some (v, s') →
        ∃ rng args, v = .typed rng s.current.value (makeRange s.current) args) ∧
    (∀ fuel s rng rt id idr s',
        parseTypedValueOrIdent fuel s = some (.resourceRef rng rt id idr, s') →
        (s.advance).current.type = .lparen ∧
          (rt = "ExtResource" ∨ rt = "SubResource") ∧
          (s.advance.advance).current.type = .string ∧
          rt = s.current.value ∧ id = (s.advance.advance).current.value) :=
  ⟨fun fuel s v s' h1 h2 h3 h4 => parseTypedValueOrIdent_resourceRef fuel s v s' h1 h2 h3 h4,
   fun fuel s v s' h1 h2 h3 => parseTypedValueOrIdent_typed fuel s v s' h1 h2 h3,
   parseTypedValueOrIdent_resourceRef_inv⟩

end Tscn

namespace Lsp

/-- C4 counterexample: with the range spanning columns 0-5 of line 0, a
query at column 5 — the range's end column — is reported *inside* the
range, where the claim's half-open reading demands outside. -/
theorem isInRange_end_column_counterexample :
    isInRange ⟨⟨0, 0, 0⟩, ⟨0, 5, 5⟩⟩ 0 5 = true := rfl

/-- C5 counterexample: `A`'s parent `"Root"` is non-empty, not `"."` and in
neither the claim's path set nor the code's, yet no warning is emitted,
because the code exempts a parent equal to the root node's name. -/
theorem checkParentReferences_root_name_counterexample :
    checkParentReferences [sampleRootNode, sampleChildNode] = [] ∧
    sampleChildNode.parent ≠ "" ∧ sampleChildNode.parent ≠ "." ∧
    (claimNodePathSet [sampleRootNode, sampleChildNode]).contains
      sampleChildNode.parent = false ∧
    (buildNodePaths [sampleRootNode, sampleChildNode]).1.contains
      sampleChildNode.parent = false :=
  ⟨rfl, by decide, by decide, by decide, by decide⟩

end Lsp

namespace Gds

/-- C1: the spec says pass 3 sets the stage from the function name so that
a particles shader's `start`/`process` bodies see the particles built-ins.
In the code, `analyzeFunction` maps both `start` and `process` to the stage
string `"compute"`, but `registerBuiltinVariables` registers the particles
built-ins only for the stages `"start"` and `"process"`; the dispatch
misses, nothing is registered, and referencing `VELOCITY` inside `start`
produces `undefined symbol 'VELOCITY'`.  Had the stage been `"start"`, the
same lookup would succeed. -/
theorem analyzeFunction_particles_stage_bug :
    stageForFunction "start" = "compute" ∧
    stageForFunction "process" = "compute" ∧
    builtinsForStage "particles" "compute" = [] ∧
    (builtinsForStage "particles" "start").length = 16 ∧
    (analyzeFunctionStagePrelude particlesAnalyzer0 "start").currentStage = "compute" ∧
    (analyzeIdent (analyzeFunctionStagePrelude particlesAnalyzer0 "start")
        Range.zero "VELOCITY").2.errors =
      [⟨"undefined symbol 'VELOCITY'", Range.zero⟩] ∧
    (analyzeIdent (registerBuiltinVariables
        { particlesAnalyzer0 with
            currentStage := "start", scopes := [] :: particlesAnalyzer0.scopes })
        Range.zero "VELOCITY").2.errors = [] :=
  ⟨rfl, rfl, rfl, rfl, rfl, rfl, rfl⟩

/-- C6: for a `vec3 v` in scope, the duplicated swizzle `v.xxx` is readable
(`ValidateSwizzle` accepts it at type `vec3` and `analyzeExpr` reports no
error) but not assignable (`checkAssignable` adds the duplicate-components
diagnostic), while the duplicate-free `v.xy` is accepted as an assignment
target unchanged. -/
theorem swizzle_duplicate_assignability (a : Analyzer) (rng vr : Range) (sym : Symbol)
    (fuel : Nat)
    (hv : scopesLookup a.scopes "v" = some sym) (ht : sym.type = TypeVec3)
    (hc : sym.constant = false) (hr : sym.readOnly = false) :
    ValidateSwizzle TypeVec3 "xxx" = .ok TypeVec3 ∧
    ValidateSwizzle TypeVec3 "xy" = .ok TypeVec2 ∧
    analyzeExpr (fuel + 3) a (.member rng (.ident vr "v") "xxx") = (TypeVec3, a) ∧
    checkAssignable (fuel + 3) a (.member rng (.ident vr "v") "xxx") =
      a.addError rng "cannot assign to swizzle with duplicate components" ∧
    checkAssignable (fuel + 3) a (.member rng (.ident vr "v") "xy") = a :=
  ⟨rfl, rfl, swizzle_xxx_analyze a rng vr sym fuel hv ht,
   swizzle_xxx_not_assignable a rng vr sym fuel hv ht,
   swizzle_xy_assignable a rng vr sym fuel hv ht hc hr⟩

/-- Concrete witness for C6 at `vec3Analyzer`, whose scope holds `vec3 v`. -/
theorem swizzle_duplicate_assignability_witness :
    scopesLookup vec3Analyzer.scopes "v" = some vec3Symbol ∧
    (ValidateSwizzle TypeVec3 "xxx" = .ok TypeVec3 ∧
     ValidateSwizzle TypeVec3 "xy" = .ok TypeVec2 ∧
     analyzeExpr 3 vec3Analyzer (.member Range.zero (.ident Range.zero "v") "xxx")
       = (TypeVec3, vec3Analyzer) ∧
     checkAssignable 3 vec3Analyzer (.member Range.zero (.ident Range.zero "v") "xxx")
       = vec3Analyzer.addError Range.zero "cannot assign to swizzle with duplicate components" ∧
     checkAssignable 3 vec3Analyzer (.member Range.zero (.ident Range.zero "v") "xy")
       = vec3Analyzer) :=
  ⟨rfl, swizzle_duplicate_assignability vec3Analyzer Range.zero Range.zero vec3Symbol 0
    rfl rfl rfl rfl⟩

/-- C8: `analyzeBuiltinCall` analyzes the arguments and then resolves the
overload: the selected signature is the *first* one (in `List.find?` order)
whose parameter count matches and whose parameter types each accept the
corresponding argument by `Equals` or `CanImplicitlyConvert`; a match
yields that signature's return type, and no match emits the
`no matching overload` diagnostic listing the argument types and falls back
to the first signature's return type. -/
theorem analyzeBuiltinCall_overload_resolution :
    (∀ fuel a b rng args, analyzeBuiltinCall (fuel + 1) a b rng args =
        analyzeBuiltinCallWithTypes (analyzeExprList fuel a args).2 b rng
          (analyzeExprList fuel a args).1) ∧
    (∀ sigs argTypes, findMatchingSignature sigs argTypes =
        sigs.find? (fun sig => sig.params.length == argTypes.length &&
          paramsMatch sig.params argTypes)) ∧
    (∀ ps ts, paramsMatch ps ts = true ↔
        List.Forall₂ (fun p t => ∃ pt, TypeFromName p = some pt ∧
          (pt.equals t = true ∨ CanImplicitlyConvert t pt = true)) ps ts) ∧
    (∀ a b rng argTypes sig, findMatchingSignature b.signatures argTypes = some sig →
        analyzeBuiltinCallWithTypes a b rng argTypes =
          (derefType (TypeFromName sig.ret), a)) ∧
    (∀ a b rng argTypes sig0 rest,
        findMatchingSignature b.signatures argTypes = none →
        b.signatures = sig0 :: rest →
        analyzeBuiltinCallWithTypes a b rng argTypes =
          (derefType (TypeFromName sig0.ret),
            a.addError rng ("no matching overload for '" ++ b.name ++ "(" ++
              String.intercalate ", " (argTypes.map typeString) ++ ")'"))) :=
  ⟨analyzeBuiltinCall_eq, findMatchingSignature_eq_find, paramsMatch_iff,
   analyzeBuiltinCallWithTypes_matched, analyzeBuiltinCallWithTypes_fallback⟩

/-- C10: `evaluateConstExpr` sends an `int` literal through Go's `Atoi`
with the error discarded — so a decimal literal yields its value, but a
hex literal such as `0x1F` yields `0`, not its value and not `-1` — and
every other expression, named constants and arithmetic included, yields
the unsized sentinel `-1`; no diagnostic is emitted (the function only
returns the size), and `resolveType` wraps the result via `MakeArrayType`
whenever an array size expression is present. -/
theorem evaluateConstExpr_characterization :
    (∀ a r v, evaluateConstExpr a (.literal r "int" v) = goAtoi v) ∧
    (∀ a r k v, k ≠ "int" → evaluateConstExpr a (.literal r k v) = -1) ∧
    (∀ a r l op rr, evaluateConstExpr a (.binary r l op rr) = -1) ∧
    (∀ a r n, evaluateConstExpr a (.ident r n) = -1) ∧
    (∀ a ts t, TypeFromName ts.name = some t →
        resolveType a (some ts) = some (match ts.arraySize with
          | some e => MakeArrayType t (evaluateConstExpr a e)
          | none => t)) ∧
    goAtoi "5" = 5 ∧ goAtoi "0x1F" = 0 :=
  ⟨evaluateConstExpr_int_literal, evaluateConstExpr_other_literal, evaluateConstExpr_binary,
   evaluateConstExpr_ident, resolveType_known, rfl, rfl⟩

/-- C10 counterexample: the integer literal `0x1F` (value 31) evaluates to
`0` — neither its own value nor the `-1` sentinel — so a `float x[0x1F]`
declaration gets a zero-sized array type. -/
theorem evaluateConstExpr_hex_counterexample :
    evaluateConstExpr particlesAnalyzer0 (.literal Range.zero "int" "0x1F") = 0 ∧
    (0 : Int) ≠ 31 ∧ (0 : Int) ≠ -1 ∧
    resolveType particlesAnalyzer0
      (some ⟨Range.zero, "", "float", some (.literal Range.zero "int" "0x1F")⟩) =
      some (MakeArrayType TypeFloat 0) :=
  ⟨rfl, by decide, by decide, rfl⟩

end Gds

end Gdls
